import Mathlib

/-!
Verification of cpp_mesh: message codec, duplicate filter, reliable send, broadcast to
the neighbours, the pipe table of the NRF adapter, message dispatch, the discovery
handshake, the inbound ring, the blacklist, the keepalive broadcast, the periodic update
and the link-state router.

A shallow embedding of the mesh networking library (`mesh/message.hpp`,
`connectivity_adapter.cpp`, `connectivity/nrf.cpp`, `connectivity/nrf_pipe.cpp`,
`mesh_network.hpp`, `router.hpp`, `router/link_state_router.cpp`).

Conventions.
* A `uint8_t` / `uint16_t` / `size_t` value is a `Nat`; where the source relies on
  wrap-around the embedding reduces modulo `256` / `65536` explicitly.
* A `std::array<T, n>` or C array is a `List T`; an element read is `List.getD`,
  an element write is `List.set`.  The length of the list is the declared size of
  the array and is carried as a hypothesis where a theorem needs it.
* Where the source can index outside an array, the read yields the default value and
  the write is dropped; the definition concerned says so.
* A method that mutates `*this` or a reference argument returns the new value.
* The radio library and the `LOG` macro are not part of the repository: the radio is a
  record of what the mesh code programs into it, receives from it and hands to it;
  logging has no effect on the state.
* The `link_state` calculator library is not part of the repository: the link-state
  router takes the operations of the calculator as a parameter.  Where a property is about
  what the calculator returns, the calculator is `dijkstra`, modelled from sections 4.6
  and 4.6.1 of the specification.
-/

namespace mesh

/-! ## `mesh/definitions.hpp` -/

/-- Connection state of a direct mesh connection (`enum mesh_connection_state`). -/
inductive mesh_connection_state where
  | DISCONNECTED
  | WAITING
  | RESPONDED
  | ACCEPTED
deriving DecidableEq, Repr

/-- Message types for basic discovery messages (`struct DISCOVERY`). -/
def DISCOVERY.NO_OPERATION : Nat := 0x00
/-- Present to other nodes for connecting, sent as broadcast. -/
def DISCOVERY.PRESENT : Nat := 0x01
/-- Respond to a present message, sent as unicast. -/
def DISCOVERY.RESPOND : Nat := 0x02
/-- Accept a RESPOND message. -/
def DISCOVERY.ACCEPT : Nat := 0x03
/-- Deny a respond message. -/
def DISCOVERY.DENY : Nat := 0x04
/-- Request an update from everyone on the network (`LINK_STATE_ROUTING`). -/
def LINK_STATE_ROUTING.UPDATE_REQUEST : Nat := 0x10
/-- Send neighbour information (`LINK_STATE_ROUTING`). -/
def LINK_STATE_ROUTING.UPDATE : Nat := 0x11
/-- Mesh domotics data (`DOMOTICA`). -/
def DOMOTICA.DATA : Nat := 0x20

/-! ## `mesh/message.hpp` -/

/-- The `struct message`: five `uint8_t` header fields, `std::array<uint8_t, 25> data`
and `std::array<uint8_t, 2> connectionData`. -/
structure message where
  type : Nat
  message_id : Nat
  sender : Nat
  receiver : Nat
  dataSize : Nat
  data : List Nat
  connectionData : List Nat
deriving DecidableEq, Repr

/-- The empty message built by `message()`: every header field 0, both arrays zeroed. -/
def message.empty : message :=
  { type := 0, message_id := 0, sender := 0, receiver := 0, dataSize := 0,
    data := List.replicate 25 0, connectionData := List.replicate 2 0 }

/-- The constructor `message(messageType, messageId, sender, receiver, dataSize = 0,
data = {0}, connectionData = {0})` used with four or five arguments. -/
def message.mk5 (messageType messageId sender receiver dataSize : Nat) : message :=
  { type := messageType, message_id := messageId, sender := sender, receiver := receiver,
    dataSize := dataSize % 256,
    data := List.replicate 25 0, connectionData := List.replicate 2 0 }

/-- The declared array sizes of a message: `data` has 25 elements, `connectionData` 2. -/
def message.arrays_ok (m : message) : Prop :=
  m.data.length = 25 ∧ m.connectionData.length = 2

instance (m : message) : Decidable m.arrays_ok := by
  unfold message.arrays_ok; infer_instance

/-- `size_t size() { return dataSize + 7; }` -/
def message.size (m : message) : Nat := m.dataSize + 7

/-- `void to_byte_array(uint8_t out[])`: the writes of the source in their order, on
the caller's buffer `out`.  With `dataSize > 25` the loop reads behind `data`; the
embedding reads 0 there. -/
def message.to_byte_array (m : message) (out : List Nat) : List Nat :=
  let out := out.set 0 m.type
  let out := out.set 1 m.message_id
  let out := out.set 2 m.sender
  let out := out.set 3 m.receiver
  let out := out.set 4 m.dataSize
  let out := (List.range m.dataSize).foldl (fun o i => o.set (i + 5) (m.data.getD i 0)) out
  let out := out.set (m.size - 2) (m.connectionData.getD 0 0)
  out.set (m.size - 1) (m.connectionData.getD 1 0)

/-- `bool parse(size_t n, const uint8_t in[])`: returns the result flag and the message
object after the call.  The two `fill(0)` calls come before the length test, as in the
source.  With `n > 32` the copy loop writes behind `data`; the embedding drops those
writes (a radio payload has at most 32 bytes). -/
def message.parse (m : message) (n : Nat) (inp : List Nat) : Bool × message :=
  let m := { m with data := List.replicate 25 0 }
  let m := { m with connectionData := List.replicate 2 0 }
  if n < 7 then (false, m)
  else
    let m := { m with type := inp.getD 0 0 }
    let m := { m with message_id := inp.getD 1 0 }
    let m := { m with sender := inp.getD 2 0 }
    let m := { m with receiver := inp.getD 3 0 }
    let m := { m with dataSize := inp.getD 4 0 }
    let m := { m with
      data := (List.range (n - 7)).foldl (fun d i => d.set i (inp.getD (i + 5) 0)) m.data }
    let m := { m with connectionData := m.connectionData.set 0 (inp.getD (n - 2) 0) }
    let m := { m with connectionData := m.connectionData.set 1 (inp.getD (n - 1) 0) }
    (true, m)

/-! ## `mesh/connectivity_adapter.hpp`, `connectivity_adapter.cpp`: the base class -/

/-- The data members of `class connectivity_adapter`: `uint16_t previous_messages[20]`,
`uint8_t previous_messages_count`, `uint8_t current_message_id` and the public `node_id id`. -/
structure connectivity_adapter where
  previous_messages : List Nat
  previous_messages_count : Nat
  current_message_id : Nat
  id : Nat
deriving DecidableEq, Repr

/-- The constructor `connectivity_adapter(my_id)`: history zeroed and empty, counter 0. -/
def connectivity_adapter.init (my_id : Nat) : connectivity_adapter :=
  { previous_messages := List.replicate 20 0, previous_messages_count := 0,
    current_message_id := 0, id := my_id }

/-- The recorded history: the first `previous_messages_count` entries of the array. -/
def connectivity_adapter.history (c : connectivity_adapter) : List Nat :=
  c.previous_messages.take c.previous_messages_count

/-- `void add_message_id(message &msg)`: returns the message and the adapter after
`msg.message_id = current_message_id++` (a `uint8_t` post-increment). -/
def connectivity_adapter.add_message_id (c : connectivity_adapter) (msg : message) :
    message × connectivity_adapter :=
  if msg.sender = c.id ∧ msg.message_id = 0 then
    ({ msg with message_id := c.current_message_id },
     { c with current_message_id := (c.current_message_id + 1) % 256 })
  else (msg, c)

/-- The value `uint16_t check_value = ((msg.sender << 8) | msg.message_id)`. -/
def check_value (msg : message) : Nat :=
  ((msg.sender <<< 8) ||| msg.message_id) % 65536

/-- `bool is_new_message(const message &msg)`: the search loop, the shift loop taken
when the history is full, and the final store. -/
def connectivity_adapter.is_new_message (c : connectivity_adapter) (msg : message) :
    Bool × connectivity_adapter :=
  if (List.range c.previous_messages_count).any
      (fun i => c.previous_messages.getD i 0 == check_value msg) then
    (false, c)
  else
    let c :=
      if c.previous_messages_count = 20 then
        { c with
          previous_messages :=
            (List.range 19).foldl (fun pm i => pm.set i (pm.getD (i + 1) 0))
              c.previous_messages,
          previous_messages_count := c.previous_messages_count - 1 }
      else c
    (true,
     { c with
       previous_messages := c.previous_messages.set c.previous_messages_count (check_value msg),
       previous_messages_count := (c.previous_messages_count + 1) % 256 })

/-- The outer loop of `forget_message_history_for`, from index `i` on.  The loop test
`i < previous_messages_count` is re-evaluated on every round; `i` grows by one per round
and the count never grows, so the first argument (at most the count on entry) bounds the
number of rounds.  The inner loop repeats the single assignment
`previous_messages[i] = previous_messages[i + 1]` for `j = i .. count - 1`.  A read of
`previous_messages[20]` lies outside the array; the embedding reads 0 there. -/
def connectivity_adapter.forget_loop (id : Nat) :
    Nat → Nat → connectivity_adapter → connectivity_adapter
  | 0, _, c => c
  | rounds + 1, i, c =>
    if i < c.previous_messages_count then
      let c :=
        if c.previous_messages.getD i 0 >>> 8 = id then
          { c with
            previous_messages :=
              (List.range (c.previous_messages_count - i)).foldl
                (fun pm _ => pm.set i (pm.getD (i + 1) 0)) c.previous_messages,
            previous_messages_count := c.previous_messages_count - 1 }
        else c
      connectivity_adapter.forget_loop id rounds (i + 1) c
    else c

/-- `void forget_message_history_for(const node_id &id)`. -/
def connectivity_adapter.forget_message_history_for (c : connectivity_adapter) (id : Nat) :
    connectivity_adapter :=
  connectivity_adapter.forget_loop id c.previous_messages_count 0 c

/-! ## The radio: `nrf24l01plus` (external library) -/

/-- Modelled from the spec: the operating mode of the radio (`MODE_NONE`, `MODE_PTX`,
`MODE_PRX` of the `nrf24l01plus` library, which is not part of the repository). -/
inductive nrf_mode where
  | MODE_NONE
  | MODE_PTX
  | MODE_PRX
deriving DecidableEq, Repr

/-- One call `tx_write_payload(data, n, no_ack)` as the radio sees it: the transmit
address programmed at that moment, the buffer handed over, the byte count `n` and the
no-acknowledge flag. -/
structure tx_record where
  address : List Nat
  data : List Nat
  n : Nat
  no_ack : Bool
deriving DecidableEq, Repr

/-- Modelled from the spec: the `RadioDevice` capability of section 6, as far as the mesh
code observes it.  `rx_address` and `rx_en` are the six receive slots, `rx_fifo` the
payloads the radio will deliver (oldest first), `tx_results` the outcome of the coming
transmissions (`true`: data-sent flag, `false`: max-retransmit flag) and `tx_log` the
payloads written so far. -/
structure nrf24l01plus where
  mode : nrf_mode
  rx_address : List (List Nat)
  rx_en : List Bool
  tx_address : List Nat
  rx_fifo : List (List Nat)
  tx_results : List Bool
  tx_log : List tx_record
deriving DecidableEq, Repr

/-- `nrf.rx_enabled(pipe, enabled)`. -/
def nrf24l01plus.rx_enabled (r : nrf24l01plus) (pipe : Nat) (enabled : Bool) : nrf24l01plus :=
  { r with rx_en := r.rx_en.set pipe enabled }

/-- `nrf.rx_set_address(pipe, address)`. -/
def nrf24l01plus.rx_set_address (r : nrf24l01plus) (pipe : Nat) (a : List Nat) :
    nrf24l01plus :=
  { r with rx_address := r.rx_address.set pipe a }

/-- `nrf.tx_set_address(address)`. -/
def nrf24l01plus.tx_set_address (r : nrf24l01plus) (a : List Nat) : nrf24l01plus :=
  { r with tx_address := a }

/-- `nrf.tx_write_payload(data, n, no_ack)` followed by the status polling loop of
`send_message`: the write is logged and the next outcome is taken from `tx_results`
(no outcome left: the transmission is not acknowledged). -/
def nrf24l01plus.transmit (r : nrf24l01plus) (data : List Nat) (n : Nat) (no_ack : Bool) :
    Bool × nrf24l01plus :=
  let record : tx_record :=
    { address := r.tx_address, data := data, n := n, no_ack := no_ack }
  let r := { r with tx_log := r.tx_log ++ [record] }
  match r.tx_results with
  | [] => (false, r)
  | success :: rest => (success, { r with tx_results := rest })

/-- Modelled from the spec: the address `{base, last}` built by the two-argument
constructor of `nrf24l01::address`, the four-byte prefix of `base` followed by the
discriminator byte. -/
def address_with (base : List Nat) (last : Nat) : List Nat :=
  base.take 4 ++ [last]

/-- `const nrf24l01::address discovery_address = {0x70, 0x70, 0x70, 0x70, 0x70}`. -/
def discovery_address : List Nat := [0x70, 0x70, 0x70, 0x70, 0x70]

/-- `const nrf24l01::address base_address = {0x72, 0x72, 0x72, 0x72, 0x70}`. -/
def base_address : List Nat := [0x72, 0x72, 0x72, 0x72, 0x70]

/-! ## `mesh/connectivity/nrf_pipe.hpp`, `nrf_pipe.cpp` -/

/-- The data members of `class nrf_pipe`. -/
structure nrf_pipe where
  connection_state : mesh_connection_state
  pipe_number : Nat
  connected_node : Nat
  nrf_address : List Nat
deriving DecidableEq, Repr

/-- The constructor `nrf_pipe(pipeNumber)`: state DISCONNECTED, connected node 0; the
address is default-constructed (taken as all zero). -/
def nrf_pipe.init (pipeNumber : Nat) : nrf_pipe :=
  { connection_state := mesh_connection_state.DISCONNECTED, pipe_number := pipeNumber,
    connected_node := 0, nrf_address := [0, 0, 0, 0, 0] }

instance : Inhabited nrf_pipe := ⟨nrf_pipe.init 0⟩

/-- `void nrf_pipe::flush(nrf24l01plus &nrf)`. -/
def nrf_pipe.flush (p : nrf_pipe) (nrf : nrf24l01plus) : nrf24l01plus :=
  let old_mode := nrf.mode
  let nrf := { nrf with mode := nrf_mode.MODE_NONE }
  let nrf :=
    match p.connection_state with
    | mesh_connection_state.DISCONNECTED => nrf.rx_enabled p.pipe_number false
    | _ =>
      let nrf := nrf.rx_set_address p.pipe_number p.nrf_address
      let nrf := nrf.rx_enabled p.pipe_number true
      if p.pipe_number = 0 then nrf.tx_set_address p.nrf_address else nrf
  { nrf with mode := old_mode }

/-- `bool nrf_pipe::send_message(all_pipes, nrf, n, data)`: returns the result, the pipe
object after the call and the radio.  `n` is a `uint8_t` parameter. -/
def nrf_pipe.send_message (p : nrf_pipe) (all_pipes : List nrf_pipe) (nrf : nrf24l01plus)
    (n : Nat) (data : List Nat) : Bool × nrf_pipe × nrf24l01plus :=
  let n := n % 256
  let old_mode := nrf.mode
  let nrf := { nrf with mode := nrf_mode.MODE_PTX }
  let old_pipe := p.pipe_number
  let (p, nrf) :=
    if p.pipe_number ≠ 0 then
      let nrf := nrf.rx_enabled p.pipe_number false
      let p := { p with pipe_number := 0 }
      (p, p.flush nrf)
    else (p, nrf)
  let (success, nrf) := nrf.transmit data n (old_pipe == 0)
  let (p, nrf) :=
    if old_pipe ≠ 0 then
      let p := { p with pipe_number := old_pipe }
      let nrf := p.flush nrf
      (p, (all_pipes.getD 0 default).flush nrf)
    else (p, nrf)
  (success, p, { nrf with mode := old_mode })

/-! ## `mesh/connectivity/nrf.hpp`, `nrf.cpp`: the NRF connectivity adapter -/

/-- The data members of `class nrf : public connectivity_adapter`: the 100-entry inbound
ring `message_buffer` with `buffer_start` / `buffer_end`, the six pipes `connections` and
the radio `nrf24`. -/
structure nrf extends connectivity_adapter where
  message_buffer : List message
  buffer_start : Nat
  buffer_end : Nat
  connections : List nrf_pipe
  nrf24 : nrf24l01plus
deriving DecidableEq, Repr

/-- `uint8_t nrf::getPipeByNRFAddress(const uint8_t &nrfaddress)`. -/
def nrf.getPipeByNRFAddress (s : nrf) (nrfaddress : Nat) : Nat :=
  ((List.range 6).find?
    (fun i => (s.connections.getD i default).nrf_address.getD 4 0 == nrfaddress)).getD 6

/-- `uint8_t nrf::getPipeByNodeId(const uint8_t &node_id)`. -/
def nrf.getPipeByNodeId (s : nrf) (node_id : Nat) : Nat :=
  ((List.range 6).find?
    (fun i => (s.connections.getD i default).connected_node == node_id)).getD 6

/-- `uint8_t nrf::getFirstFreePipe()`. -/
def nrf.getFirstFreePipe (s : nrf) : Nat :=
  ((List.range 6).find?
    (fun i => (s.connections.getD i default).connection_state ==
      mesh_connection_state.DISCONNECTED)).getD 6

/-- `mesh_connection_state nrf::connection_state(const node_id &id)`. -/
def nrf.connection_state (s : nrf) (id : Nat) : mesh_connection_state :=
  let pipe := s.getPipeByNodeId id
  if pipe = 6 then mesh_connection_state.DISCONNECTED
  else (s.connections.getD pipe default).connection_state

/-- The `while (found)` search of `start_waiting`: add 2 to the last address byte
(`uint8_t`) until no pipe has the address.  The candidates repeat after 128 rounds, so the
first argument is 128 at the call; should every candidate be taken the source does not
leave the loop, and the embedding returns the last candidate.  With six pipes that does
not happen (`next_listen_address_free`). -/
def nrf.next_listen_address (connections : List nrf_pipe) : Nat → List Nat → List Nat
  | 0, listenaddress => listenaddress
  | rounds + 1, listenaddress =>
    let listenaddress := listenaddress.set 4 ((listenaddress.getD 4 0 + 2) % 256)
    if connections.any (fun check_connection => check_connection.nrf_address == listenaddress)
    then nrf.next_listen_address connections rounds listenaddress
    else listenaddress

/-- The address tried in round `j` of the search of `start_waiting` that starts from
`listenaddress`: its last byte moved on by `2 * j` (as a `uint8_t`). -/
def listen_candidate (listenaddress : List Nat) (j : Nat) : List Nat :=
  listenaddress.set 4 ((listenaddress.getD 4 0 + 2 * j) % 256)

/-- `void nrf::start_waiting()`. -/
def nrf.start_waiting (s : nrf) : nrf :=
  if (List.range' 1 5).any (fun i =>
      (s.connections.getD i default).connection_state == mesh_connection_state.WAITING) then s
  else
    match (List.range s.connections.length).find? (fun i =>
      (s.connections.getD i default).connection_state ==
        mesh_connection_state.DISCONNECTED) with
    | none => s
    | some i =>
      let empty_connection := s.connections.getD i default
      let listenaddress :=
        nrf.next_listen_address s.connections 128 (address_with base_address s.id)
      let empty_connection := { empty_connection with nrf_address := listenaddress }
      let empty_connection := { empty_connection with connected_node := s.id }
      let empty_connection :=
        { empty_connection with connection_state := mesh_connection_state.WAITING }
      { s with connections := s.connections.set i empty_connection,
               nrf24 := empty_connection.flush s.nrf24 }

/-- The constructor `nrf::nrf(address, nrf)`, on a radio `radio` as handed in: six pipes
`nrf_pipe(0) .. nrf_pipe(5)`, pipe 0 made the broadcast pipe and flushed, `start_waiting()`,
receive mode. -/
def nrf.init (address : Nat) (radio : nrf24l01plus) : nrf :=
  let connections := (List.range 6).map nrf_pipe.init
  let pipe0 := connections.getD 0 default
  let pipe0 := { pipe0 with connected_node := 0 }
  let pipe0 := { pipe0 with nrf_address := discovery_address }
  let pipe0 := { pipe0 with connection_state := mesh_connection_state.ACCEPTED }
  let s : nrf :=
    { toconnectivity_adapter := connectivity_adapter.init address,
      message_buffer := List.replicate 100 message.empty,
      buffer_start := 0, buffer_end := 0,
      connections := connections.set 0 pipe0,
      nrf24 := pipe0.flush radio }
  let s := s.start_waiting
  { s with nrf24 := { s.nrf24 with mode := nrf_mode.MODE_PRX } }

/-- `void nrf::add_connection_data(message &message, node_id &next_hop)`.  When no pipe
has the node id looked up, the index is 6, outside `connections`; the embedding reads a
default pipe there. -/
def nrf.add_connection_data (s : nrf) (message : message) (next_hop : Nat) : mesh.message :=
  if message.type = DISCOVERY.RESPOND then
    let pipe := s.connections.getD (s.getPipeByNodeId next_hop) default
    { message with connectionData := message.connectionData.set 0 (pipe.nrf_address.getD 4 0) }
  else if message.type = DISCOVERY.PRESENT then
    let pipe := s.connections.getD (s.getPipeByNodeId s.id) default
    { message with connectionData := message.connectionData.set 0 (pipe.nrf_address.getD 4 0) }
  else message

/-- `bool nrf::send_implementation(node_id &id, uint8_t *data, size_t size)`. -/
def nrf.send_implementation (s : nrf) (id : Nat) (data : List Nat) (size : Nat) :
    Bool × nrf :=
  let listen_pipe := s.getPipeByNodeId id
  if listen_pipe = 6 then (false, s)
  else
    let (success, p, radio) :=
      (s.connections.getD listen_pipe default).send_message s.connections s.nrf24 size data
    (success, { s with connections := s.connections.set listen_pipe p, nrf24 := radio })

/-- The `while` loop of `buffer_messages` over the payloads waiting in the radio: each
payload is parsed into `message_buffer[buffer_end++]`, whatever `parse` returns, and
`buffer_end` wraps at 100. -/
def nrf.buffer_loop : List (List Nat) → List message → Nat → List message × Nat
  | [], message_buffer, buffer_end => (message_buffer, buffer_end)
  | data :: rest, message_buffer, buffer_end =>
    let payload_width := data.length % 256
    let message_buffer := message_buffer.set buffer_end
      ((message_buffer.getD buffer_end message.empty).parse payload_width data).2
    let buffer_end := buffer_end + 1
    let buffer_end := if buffer_end = 100 then 0 else buffer_end
    nrf.buffer_loop rest message_buffer buffer_end

/-- `void nrf::buffer_messages()`. -/
def nrf.buffer_messages (s : nrf) : nrf :=
  let r := nrf.buffer_loop s.nrf24.rx_fifo s.message_buffer s.buffer_end
  { s with message_buffer := r.1, buffer_end := r.2,
           nrf24 := { s.nrf24 with rx_fifo := [] } }

/-- `bool nrf::has_message()`. -/
def nrf.has_message (s : nrf) : Bool × nrf :=
  let s := s.buffer_messages
  (s.buffer_start != s.buffer_end, s)

/-- `mesh::message nrf::next_message()`. -/
def nrf.next_message (s : nrf) : message × nrf :=
  let s := s.buffer_messages
  if s.buffer_end ≠ s.buffer_start then
    let msg := s.message_buffer.getD s.buffer_start message.empty
    let buffer_start := s.buffer_start + 1
    let buffer_start := if buffer_start = 100 then 0 else buffer_start
    (msg, { s with buffer_start := buffer_start })
  else (message.empty, s)

/-- `bool nrf::discovery_present_received(mesh::message &origin)`. -/
def nrf.discovery_present_received (s : nrf) (origin : message) : Bool × nrf :=
  let freePipe := s.getFirstFreePipe
  if freePipe = 6 then (false, s)
  else
    let freeConnection := s.connections.getD freePipe default
    let freeConnection := { freeConnection with connected_node := origin.sender }
    let freeConnection := { freeConnection with
      nrf_address := address_with base_address (origin.connectionData.getD 0 0) }
    let freeConnection :=
      { freeConnection with connection_state := mesh_connection_state.RESPONDED }
    (true, { s with connections := s.connections.set freePipe freeConnection,
                    nrf24 := freeConnection.flush s.nrf24 })

/-- The base-class method `forget_message_history_for` called on the adapter. -/
def nrf.forget_message_history_for (s : nrf) (id : Nat) : nrf :=
  { s with toconnectivity_adapter := s.toconnectivity_adapter.forget_message_history_for id }

/-- The base-class method `is_new_message` called on the adapter. -/
def nrf.is_new_message (s : nrf) (msg : message) : Bool × nrf :=
  let r := s.toconnectivity_adapter.is_new_message msg
  (r.1, { s with toconnectivity_adapter := r.2 })

/-- The base-class method `add_message_id` called on the adapter. -/
def nrf.add_message_id (s : nrf) (msg : message) : message × nrf :=
  let r := s.toconnectivity_adapter.add_message_id msg
  (r.1, { s with toconnectivity_adapter := r.2 })

/-- `void nrf::remove_direct_connection(const uint8_t &id)`. -/
def nrf.remove_direct_connection (s : nrf) (id : Nat) : nrf :=
  let pipe := s.getPipeByNodeId id
  if pipe = 6 ∨ pipe = 0 then s
  else
    let conn := s.connections.getD pipe default
    let conn := { conn with connection_state := mesh_connection_state.DISCONNECTED }
    let conn := { conn with connected_node := 0 }
    let s := { s with connections := s.connections.set pipe conn }
    let s := s.forget_message_history_for id
    let s := { s with nrf24 := conn.flush s.nrf24 }
    s.start_waiting

/-- `bool nrf::discovery_respond_received(mesh::message &origin)`. -/
def nrf.discovery_respond_received (s : nrf) (origin : message) : Bool × nrf :=
  let pipe_nr := s.getPipeByNRFAddress (origin.connectionData.getD 0 0)
  if pipe_nr = 6 ∨ (s.connections.getD pipe_nr default).connected_node ≠ s.id then (false, s)
  else
    let s := if s.getPipeByNodeId origin.sender ≠ 6 then s.remove_direct_connection origin.sender
      else s
    let connection := s.connections.getD pipe_nr default
    let connection := { connection with connection_state := mesh_connection_state.ACCEPTED }
    let connection := { connection with connected_node := origin.sender }
    let s := { s with connections := s.connections.set pipe_nr connection,
                      nrf24 := connection.flush s.nrf24 }
    (true, s.start_waiting)

/-- `void nrf::discovery_accept_received(mesh::message &origin)`, for a sender that some
pipe has as connected node.  When no pipe has it the index is 6, and the source stores
through `connections[6]`, outside the array of six pipes: that store has no counterpart in
the embedding, which returns the adapter as it was.  For such a call the definition says
which index the source uses (`getPipeByNodeId` is 6) and nothing about the state after the
call; `nrf.reachable_in_range` is the set of states reached without such a call. -/
def nrf.discovery_accept_received (s : nrf) (origin : message) : nrf :=
  let i := s.getPipeByNodeId origin.sender
  let connection := s.connections.getD i default
  let connection := { connection with connection_state := mesh_connection_state.ACCEPTED }
  { s with connections := s.connections.set i connection }

/-- `size_t nrf::get_neighbour_count()`. -/
def nrf.get_neighbour_count (s : nrf) : Nat :=
  ((List.range' 1 (s.connections.length - 1)).filter (fun i =>
    (s.connections.getD i default).connection_state == mesh_connection_state.ACCEPTED)).length

/-- `void nrf::get_neighbours(uint8_t *data)`: the bytes written from `data` on. -/
def nrf.get_neighbours (s : nrf) : List Nat :=
  ((List.range' 1 (s.connections.length - 1)).filter (fun i =>
    (s.connections.getD i default).connection_state == mesh_connection_state.ACCEPTED)).map
    (fun i => (s.connections.getD i default).connected_node)

/-! ## `connectivity_adapter::send` on the NRF adapter -/

/-- The retry loop of `connectivity_adapter::send`: up to `attempts` calls of
`send_implementation` with the same bytes, each failed one followed by
`hwlib::wait_ms(1)` (no effect on the state) and `has_message()`. -/
def nrf.send_loop : Nat → nrf → Nat → List Nat → Nat → Bool × nrf
  | 0, s, _, _, _ => (false, s)
  | attempts + 1, s, next_hop, message_bytes, size =>
    let r := s.send_implementation next_hop message_bytes size
    if r.1 then (true, r.2)
    else nrf.send_loop attempts r.2.has_message.2 next_hop message_bytes size

/-- `bool connectivity_adapter::send(mesh::message &message, mesh::node_id next_hop)` with
the virtual calls bound to the NRF adapter: returns the result, the message after the
call and the adapter.  `LOG` and `status()` only print.  The local array
`message_bytes[message.size()]` starts out uninitialised (taken as zeroes) and is filled
by `to_byte_array`. -/
def nrf.send (s : nrf) (message : message) (next_hop : Nat) : Bool × mesh.message × nrf :=
  let next_hop := if next_hop = 0 then message.receiver else next_hop
  let state := s.connection_state next_hop
  if state = mesh_connection_state.DISCONNECTED then (false, message, s)
  else if message.receiver ≠ 0 ∧ state ≠ mesh_connection_state.ACCEPTED
      ∧ message.type ≠ DISCOVERY.RESPOND ∧ message.type ≠ DISCOVERY.ACCEPT
      ∧ message.type ≠ DISCOVERY.DENY then (false, message, s)
  else
    let (message, s) := s.add_message_id message
    let message := s.add_connection_data message next_hop
    let message_bytes := message.to_byte_array (List.replicate message.size 0)
    let r := nrf.send_loop 5 s next_hop message_bytes message.size
    (r.1, message, r.2)

/-- What one transmission through the pipe `p` leaves in the radio log: the buffer, the
byte count, the no-acknowledge flag of the broadcast pipe, and for another connected pipe
its radio address. -/
def sent_through (p : nrf_pipe) (data : List Nat) (size : Nat) (rec : tx_record) : Prop :=
  rec.data = data ∧ rec.n = size % 256 ∧ rec.no_ack = (p.pipe_number == 0) ∧
  (p.pipe_number ≠ 0 → p.connection_state ≠ mesh_connection_state.DISCONNECTED →
    rec.address = p.nrf_address)

/-! ## `mesh/router.hpp` -/

/-- The virtual methods of `class router`, for a router whose own data has type `ρ`.  A
router holds a reference to the connectivity adapter, so every method may use and change
the adapter; `on_routing_message` takes the message by reference and returns it. -/
structure router (ρ : Type) where
  update_neighbours : ρ → nrf → ρ × nrf
  send_update : ρ → nrf → ρ × nrf
  initial_update : ρ → nrf → ρ × nrf
  on_routing_message : ρ → nrf → message → message × ρ × nrf
  get_next_hop : ρ → nrf → Nat → Nat × ρ × nrf

/-- The base class `router` used as a router: every method has the empty body, and
`get_next_hop` returns 0. -/
def router.base : router Unit :=
  { update_neighbours := fun r c => (r, c),
    send_update := fun r c => (r, c),
    initial_update := fun r c => (r, c),
    on_routing_message := fun r c message => (message, r, c),
    get_next_hop := fun r c _ => (0, r, c) }

/-! ## `mesh/mesh_network.hpp` -/

/-- The data members of `class mesh_network`, for a router with data of type `ρ`. -/
structure mesh_network (ρ : Type) where
  connection : nrf
  network_router : ρ
  blacklist : List Nat
  blacklist_size : Nat
  update_count : Nat
  keepalive_interval : Nat

/-- The constructor `mesh_network(connection, networkrouter)`: empty blacklist,
`update_count = 0`, `keepalive_interval = 1000`. -/
def mesh_network.init {ρ : Type} (connection : nrf) (networkrouter : ρ) : mesh_network ρ :=
  { connection := connection, network_router := networkrouter,
    blacklist := List.replicate 10 0, blacklist_size := 0,
    update_count := 0, keepalive_interval := 1000 }

/-- The range-for loop of `is_blacklisted` over the blacklist array. -/
def is_blacklisted_loop (id : Nat) : List Nat → Bool
  | [] => false
  | checkid :: rest =>
    if id = checkid then true
    else if checkid = 0 then false
    else is_blacklisted_loop id rest

/-- `bool is_blacklisted(const node_id &id)`. -/
def mesh_network.is_blacklisted {ρ : Type} (st : mesh_network ρ) (id : Nat) : Bool :=
  is_blacklisted_loop id st.blacklist

/-- `void unicast_close_if_fail(message &msg, const node_id &next_hop = 0)`. -/
def mesh_network.unicast_close_if_fail {ρ : Type} (R : router ρ) (st : mesh_network ρ)
    (msg : message) (next_hop : Nat) : message × mesh_network ρ :=
  let r := st.connection.send msg next_hop
  let msg := r.2.1
  let st := { st with connection := r.2.2 }
  if !r.1 then
    let st := { st with connection :=
      st.connection.remove_direct_connection (if next_hop ≠ 0 then next_hop else msg.receiver) }
    let u := R.send_update st.network_router st.connection
    (msg, { st with network_router := u.1, connection := u.2 })
  else (msg, st)

/-- The `switch (msg.type)` of `handleMessage`, reached for a message without bit 0x20
from a sender that is not blacklisted. -/
def mesh_network.handle_discovery {ρ : Type} (R : router ρ) (st : mesh_network ρ)
    (msg : message) : Bool × mesh_network ρ :=
  if msg.type = DISCOVERY.PRESENT then
    if st.connection.connection_state msg.sender = mesh_connection_state.DISCONNECTED then
      let r := st.connection.discovery_present_received msg
      let st := { st with connection := r.2 }
      if r.1 then
        let connectMessage := message.mk5 DISCOVERY.RESPOND 0 st.connection.id msg.sender 0
        (true, (st.unicast_close_if_fail R connectMessage 0).2)
      else (true, st)
    else (true, st)
  else if msg.type = DISCOVERY.RESPOND then
    let r := st.connection.discovery_respond_received msg
    let st := { st with connection := r.2 }
    if r.1 then
      let finishMessage := message.mk5 DISCOVERY.ACCEPT 0 st.connection.id msg.sender 0
      let t := st.connection.send finishMessage 0
      let st := { st with connection := t.2.2 }
      if t.1 then
        let u := R.update_neighbours st.network_router st.connection
        (true, { st with network_router := u.1, connection := u.2 })
      else (true, st)
    else
      let finishMessage := message.mk5 DISCOVERY.DENY 0 st.connection.id msg.sender 0
      let t := st.connection.send finishMessage 0
      (true, { st with connection := t.2.2 })
  else if msg.type = DISCOVERY.ACCEPT then
    let st := { st with connection := st.connection.discovery_accept_received msg }
    let u := R.initial_update st.network_router st.connection
    (true, { st with network_router := u.1, connection := u.2 })
  else if msg.type = DISCOVERY.DENY then
    if msg.receiver = st.connection.id then
      (true, { st with connection := st.connection.remove_direct_connection msg.sender })
    else (true, st)
  else if msg.type = DISCOVERY.NO_OPERATION then (true, st)
  else (false, st)

/-- `bool handleMessage(message &msg)`: returns the result, the message after the call
and the network. -/
def mesh_network.handleMessage {ρ : Type} (R : router ρ) (st : mesh_network ρ)
    (msg : message) : Bool × message × mesh_network ρ :=
  let (msg, st) :=
    if (msg.type &&& 0x10) > 0 then
      let r := R.on_routing_message st.network_router st.connection msg
      (r.1, { st with network_router := r.2.1, connection := r.2.2 })
    else (msg, st)
  if (msg.type &&& 0x20) > 0 then (false, msg, st)
  else if st.is_blacklisted msg.sender then (true, msg, st)
  else
    let r := st.handle_discovery R msg
    (r.1, msg, r.2)

/-- The body of the `while` loop of `check_new_messages` for the message `msg` returned by
`connection.next_message()`: the network, the `uncaught` array and `index` (a `uint8_t`)
after the round.  A store to `uncaught[index]` with `index ≥ 10` lies outside the array;
the embedding drops it. -/
def mesh_network.check_new_messages_body {ρ : Type} (R : router ρ) (st : mesh_network ρ)
    (uncaught : List message) (index : Nat) (msg : message) :
    mesh_network ρ × List message × Nat :=
  let n := st.connection.is_new_message msg
  let st := { st with connection := n.2 }
  if !n.1 then (st, uncaught, index)
  else if msg.receiver = st.connection.id ∨ msg.receiver = 0 then
    let h := st.handleMessage R msg
    if !h.1 then (h.2.2, uncaught.set index h.2.1, (index + 1) % 256)
    else (h.2.2, uncaught, index)
  else
    let g : Nat × ρ × nrf :=
      if st.connection.connection_state msg.receiver ≠ mesh_connection_state.ACCEPTED then
        R.get_next_hop st.network_router st.connection msg.receiver
      else (0, st.network_router, st.connection)
    let st := { st with network_router := g.2.1, connection := g.2.2 }
    let t := st.connection.send msg g.1
    let st := { st with connection := t.2.2 }
    if !t.1 then
      let u := R.update_neighbours st.network_router st.connection
      ({ st with network_router := u.1, connection := u.2 }, uncaught, index)
    else (st, uncaught, index)

/-- The `while (connection.has_message())` loop of `check_new_messages`, run for at most
`rounds` rounds; `none` when the loop has not ended by then. -/
def mesh_network.check_new_messages_loop {ρ : Type} (R : router ρ) :
    Nat → mesh_network ρ → List message → Nat → Option (mesh_network ρ × List message × Nat)
  | 0, _, _, _ => none
  | rounds + 1, st, uncaught, index =>
    let h := st.connection.has_message
    if h.1 then
      let m := h.2.next_message
      let r := mesh_network.check_new_messages_body R { st with connection := m.2 }
        uncaught index m.1
      mesh_network.check_new_messages_loop R rounds r.1 r.2.1 r.2.2
    else some ({ st with connection := h.2 }, uncaught, index)

/-- `uint8_t check_new_messages(std::array<message, 10> &uncaught)`: the returned count,
the `uncaught` array and the network, when the loop ends within `rounds` rounds. -/
def mesh_network.check_new_messages {ρ : Type} (R : router ρ) (rounds : Nat)
    (st : mesh_network ρ) (uncaught : List message) :
    Option (Nat × List message × mesh_network ρ) :=
  (mesh_network.check_new_messages_loop R rounds st uncaught 0).map
    (fun r => (r.2.2, r.2.1, r.1))

/-- The rounds of the `check_new_messages` loop for the messages `msgs` taken from the
inbound buffer one after the other. -/
def mesh_network.process_messages {ρ : Type} (R : router ρ) :
    mesh_network ρ × List message × Nat → List message → mesh_network ρ × List message × Nat
  | r, [] => r
  | r, msg :: rest =>
    mesh_network.process_messages R
      (mesh_network.check_new_messages_body R r.1 r.2.1 r.2.2 msg) rest

/-- The number of messages of `msgs` that `is_new_message` finds new while the rounds of
`check_new_messages` run over them from the state `r`. -/
def mesh_network.new_pairs {ρ : Type} (R : router ρ) :
    mesh_network ρ × List message × Nat → List message → Nat
  | _, [] => 0
  | r, msg :: rest =>
    (if (r.1.connection.is_new_message msg).1 then 1 else 0) +
      mesh_network.new_pairs R
        (mesh_network.check_new_messages_body R r.1 r.2.1 r.2.2 msg) rest

/-- No round over `msgs` from the state `r` changes the message history beyond the entry
`is_new_message` itself records: handling the messages never reaches
`forget_message_history_for`. -/
def mesh_network.history_kept {ρ : Type} (R : router ρ) :
    mesh_network ρ × List message × Nat → List message → Prop
  | _, [] => True
  | r, msg :: rest =>
    (mesh_network.check_new_messages_body R r.1 r.2.1 r.2.2 msg).1.connection.previous_messages
      = (r.1.connection.is_new_message msg).2.previous_messages ∧
    (mesh_network.check_new_messages_body R r.1 r.2.1
        r.2.2 msg).1.connection.previous_messages_count
      = (r.1.connection.is_new_message msg).2.previous_messages_count ∧
    mesh_network.history_kept R
      (mesh_network.check_new_messages_body R r.1 r.2.1 r.2.2 msg) rest

instance mesh_network.history_kept_decidable {ρ : Type} (R : router ρ) :
    ∀ (r : mesh_network ρ × List message × Nat) (msgs : List message),
      Decidable (mesh_network.history_kept R r msgs)
  | _, [] => isTrue trivial
  | r, msg :: rest =>
    @instDecidableAnd _ _ _
      (@instDecidableAnd _ _ _
        (mesh_network.history_kept_decidable R
          (mesh_network.check_new_messages_body R r.1 r.2.1 r.2.2 msg) rest))

/-- The history is a well-formed array of 20 holding `key` with at most `a` newer entries
behind it. -/
def connectivity_adapter.holds_recent (c : connectivity_adapter) (key a : Nat) : Prop :=
  c.previous_messages.length = 20 ∧ c.previous_messages_count ≤ 20 ∧
  ∃ pre post, c.history = pre ++ key :: post ∧ post.length ≤ a

/-! ## `connectivity_adapter::send_all` on the NRF adapter -/

/-- The `for` loop of `send_all` from index `i` on.  `neighbours` is the local array filled
by `get_neighbours`, `failed` the ids stored so far through `*failed_addresses++`,
`has_failed_addresses` tells whether the pointer is not null.  The loop test
`i < get_neighbour_count()` is evaluated on every round; the count is below the number of
pipes, which bounds the rounds (first argument). -/
def nrf.send_all_loop (neighbours : List Nat) (msg : message) (has_failed_addresses : Bool) :
    Nat → Nat → nrf → List Nat → Bool → Bool × List Nat × nrf
  | 0, _, s, failed, all_successful => (all_successful, failed, s)
  | rounds + 1, i, s, failed, all_successful =>
    if i < s.get_neighbour_count then
      if s.connection_state (neighbours.getD i 0) = mesh_connection_state.ACCEPTED
          ∧ msg.sender ≠ neighbours.getD i 0 then
        let copy_msg := msg
        let r := s.send copy_msg (neighbours.getD i 0)
        if !r.1 then
          nrf.send_all_loop neighbours msg has_failed_addresses rounds (i + 1) r.2.2
            (if has_failed_addresses then failed ++ [neighbours.getD i 0] else failed) false
        else
          nrf.send_all_loop neighbours msg has_failed_addresses rounds (i + 1) r.2.2
            failed all_successful
      else
        nrf.send_all_loop neighbours msg has_failed_addresses rounds (i + 1) s
          failed all_successful
    else (all_successful, failed, s)

/-- `bool connectivity_adapter::send_all(message &msg, node_id *failed_addresses)` with the
virtual calls bound to the NRF adapter: the result, the message after the call, the ids
written from `failed_addresses` on, and the adapter. -/
def nrf.send_all (s : nrf) (msg : message) (has_failed_addresses : Bool) :
    Bool × message × List Nat × nrf :=
  let neighbours := s.get_neighbours
  let a := s.add_message_id msg
  let r := nrf.send_all_loop neighbours a.1 has_failed_addresses a.2.connections.length 0 a.2
    [] true
  (r.1, a.1, r.2.1, r.2.2)

/-- One `send` of a copy of `msg` to each node of `targets` in turn: every target with the
result of its send, and the adapter afterwards. -/
def nrf.send_each (msg : message) : List Nat → nrf → List (Nat × Bool) × nrf
  | [], s => ([], s)
  | target :: rest, s =>
    let r := s.send msg target
    let t := nrf.send_each msg rest r.2.2
    ((target, r.1) :: t.1, t.2)

/-- The ids `send_all` sends to: the ids written by `get_neighbours` (connected nodes of the
ACCEPTED pipes 1 to 5 in pipe order) whose `connection_state` is ACCEPTED and that differ
from the sender of the message. -/
def nrf.send_all_targets (s : nrf) (msg : message) : List Nat :=
  s.get_neighbours.filter (fun n =>
    decide (s.connection_state n = mesh_connection_state.ACCEPTED ∧ msg.sender ≠ n))

/-! ## States of the NRF adapter -/

/-- The number of pipes in state WAITING. -/
def nrf.waiting_count (s : nrf) : Nat :=
  s.connections.countP (fun p => p.connection_state == mesh_connection_state.WAITING)

/-- The states of the adapter of a node with a non-zero id that can be reached from
construction by calls of its public methods. -/
inductive nrf.reachable : nrf → Prop
  | construct (address : Nat) (radio : nrf24l01plus) (h : address ≠ 0) :
      nrf.reachable (nrf.init address radio)
  | discovery_present_received (s : nrf) (origin : message) :
      nrf.reachable s → nrf.reachable (s.discovery_present_received origin).2
  | discovery_respond_received (s : nrf) (origin : message) :
      nrf.reachable s → nrf.reachable (s.discovery_respond_received origin).2
  | discovery_accept_received (s : nrf) (origin : message) :
      nrf.reachable s → nrf.reachable (s.discovery_accept_received origin)
  | remove_direct_connection (s : nrf) (id : Nat) :
      nrf.reachable s → nrf.reachable (s.remove_direct_connection id)
  | send (s : nrf) (message : message) (next_hop : Nat) :
      nrf.reachable s → nrf.reachable (s.send message next_hop).2.2
  | send_all (s : nrf) (msg : message) (has_failed_addresses : Bool) :
      nrf.reachable s → nrf.reachable (s.send_all msg has_failed_addresses).2.2.2
  | is_new_message (s : nrf) (msg : message) :
      nrf.reachable s → nrf.reachable (s.is_new_message msg).2
  | has_message (s : nrf) :
      nrf.reachable s → nrf.reachable s.has_message.2
  | next_message (s : nrf) :
      nrf.reachable s → nrf.reachable s.next_message.2

/-- `void discover()`. -/
def mesh_network.discover {ρ : Type} (st : mesh_network ρ) : mesh_network ρ :=
  let message := message.mk5 DISCOVERY.PRESENT 0 st.connection.id 0 0
  { st with connection := (st.connection.send message 0).2.2 }

/-- The message a peer decodes from the frame the adapter wrote to its radio last: the
radio delivers the first `n` bytes of the buffer, and `buffer_messages` parses them into a
message object. -/
def nrf.last_frame (s : nrf) : message :=
  match s.nrf24.tx_log.getLast? with
  | none => message.empty
  | some rec => (message.empty.parse rec.n (rec.data.take rec.n)).2

/-- The handshake of two networks `A` and `B`: `A` broadcasts PRESENT, `B` handles it,
`A` handles the frame `B` sent in reply, and `B` handles the frame `A` sent in reply. -/
def handshake {ρ σ : Type} (RA : router ρ) (RB : router σ) (A : mesh_network ρ)
    (B : mesh_network σ) : mesh_network ρ × mesh_network σ :=
  let A := A.discover
  let B := (B.handleMessage RB A.connection.last_frame).2.2
  let A := (A.handleMessage RA B.connection.last_frame).2.2
  let B := (B.handleMessage RB A.connection.last_frame).2.2
  (A, B)

/-! ## The attempts of the retry loop of `send` -/

/-- The adapter before attempt `j` (counted from 0) of the retry loop of `send` that starts
in `s`, when the attempts before it failed: each failed `send_implementation` is followed
by `has_message()`. -/
def nrf.before_attempt (next_hop : Nat) (message_bytes : List Nat) (size : Nat) :
    Nat → nrf → nrf
  | 0, s => s
  | j + 1, s =>
    nrf.before_attempt next_hop message_bytes size j
      (s.send_implementation next_hop message_bytes size).2.has_message.2

/-- The result and the adapter of attempt `j` of the retry loop of `send` that starts in
`s`: the call `send_implementation(next_hop, message_bytes, size)`. -/
def nrf.attempt (s : nrf) (next_hop : Nat) (message_bytes : List Nat) (size : Nat) (j : Nat) :
    Bool × nrf :=
  (nrf.before_attempt next_hop message_bytes size j s).send_implementation next_hop
    message_bytes size

/-! ## The pipe invariant -/

/-- The invariant of the pipe array: six pipes, pipe 0 ACCEPTED with connected node 0, and
no two different pipes in state WAITING. -/
def pipes_inv (c : List nrf_pipe) : Prop :=
  c.length = 6 ∧
  (c.getD 0 default).connection_state = mesh_connection_state.ACCEPTED ∧
  (c.getD 0 default).connected_node = 0 ∧
  ∀ i, i < 6 → ∀ j, j < 6 →
    (c.getD i default).connection_state = mesh_connection_state.WAITING →
    (c.getD j default).connection_state = mesh_connection_state.WAITING → i = j

/-! ## The inbound ring of the NRF adapter -/

/-- The declared sizes of the inbound ring: `message_buffer` has 100 elements and both
indices lie below 100. -/
def nrf.ring_ok (s : nrf) : Prop :=
  s.message_buffer.length = 100 ∧ s.buffer_start < 100 ∧ s.buffer_end < 100

instance (s : nrf) : Decidable s.ring_ok := by
  unfold nrf.ring_ok; infer_instance

/-- The messages waiting in the ring, oldest first: the slots from `buffer_start` up to
`buffer_end`, wrapping at 100. -/
def nrf.pending (s : nrf) : List message :=
  (List.range ((s.buffer_end + 100 - s.buffer_start) % 100)).map
    (fun i => s.message_buffer.getD ((s.buffer_start + i) % 100) message.empty)

/-- The message `buffer_messages` makes of a radio payload of at least 7 bytes: `parse`
with the payload width on a ring slot (every field of the slot is overwritten). -/
def decode_payload (data : List Nat) : message :=
  (message.empty.parse (data.length % 256) data).2

/-- A radio payload that `message::parse` accepts: at least 7 bytes, and at most the 32
bytes of a radio payload. -/
def valid_payload (data : List Nat) : Prop := 7 ≤ data.length ∧ data.length ≤ 32

instance (data : List Nat) : Decidable (valid_payload data) := by
  unfold valid_payload; infer_instance

/-- The results of `n` calls of `next_message` one after the other, and the adapter
afterwards. -/
def nrf.next_messages : Nat → nrf → List message × nrf
  | 0, s => ([], s)
  | n + 1, s =>
    let r := s.next_message
    let t := nrf.next_messages n r.2
    (r.1 :: t.1, t.2)

/-! ## `mesh_network::add_blacklist` and `mesh_network::unicast_all_close_if_fail` -/

/-- `template<size_t n> void add_blacklist(std::array<node_id, n> list)`.  A store to
`blacklist[blacklist_size]` with `blacklist_size ≥ 10` lies outside the array; the
embedding drops it. -/
def mesh_network.add_blacklist {ρ : Type} (st : mesh_network ρ) (list : List Nat) :
    mesh_network ρ :=
  list.foldl (fun st node =>
    { st with blacklist := st.blacklist.set st.blacklist_size node,
              blacklist_size := st.blacklist_size + 1 }) st

/-- The `for` loop of `unicast_all_close_if_fail` over the array `failed`, from index `i`
on.  The loop test `i < connection.get_neighbour_count()` is evaluated on every round
against the adapter as the removals so far have left it; the count is below the number of
pipes, which bounds the rounds (first argument). -/
def nrf.remove_failed_loop (failed : List Nat) : Nat → Nat → nrf → nrf
  | 0, _, s => s
  | rounds + 1, i, s =>
    if i < s.get_neighbour_count then
      if failed.getD i 0 = 0 then nrf.remove_failed_loop failed rounds (i + 1) s
      else
        nrf.remove_failed_loop failed rounds (i + 1)
          (s.remove_direct_connection (failed.getD i 0))
    else s

/-- `void unicast_all_close_if_fail(message &msg)`: the message after the call and the
network.  The local array `failed[count]` is zeroed, then `send_all` writes the ids of the
failed sends from its start on. -/
def mesh_network.unicast_all_close_if_fail {ρ : Type} (R : router ρ) (st : mesh_network ρ)
    (msg : message) : message × mesh_network ρ :=
  let count := st.connection.get_neighbour_count
  let failed := List.replicate count 0
  let r := st.connection.send_all msg true
  let failed := (r.2.2.1 ++ failed.drop r.2.2.1.length).take count
  let st := { st with connection := r.2.2.2 }
  if !r.1 then
    let connection :=
      nrf.remove_failed_loop failed st.connection.connections.length 0 st.connection
    let u := R.send_update st.network_router connection
    (r.2.1, { st with network_router := u.1, connection := u.2 })
  else (r.2.1, st)


/-! ## `mesh_network::update` -/

/-- `void update()`.  The test `update_count++ > keepalive_interval` compares the value
before the increment; `update_count` is a `uint32_t`. -/
def mesh_network.update {ρ : Type} (R : router ρ) (st : mesh_network ρ) : mesh_network ρ :=
  let old := st.update_count
  let st := { st with update_count := (st.update_count + 1) % 4294967296 }
  let st : mesh_network ρ :=
    if old > st.keepalive_interval then
      let st := { st with update_count := 0 }
      let keepalive := message.mk5 DISCOVERY.NO_OPERATION 0 st.connection.id 0 0
      (st.unicast_all_close_if_fail R keepalive).2
    else st
  if st.update_count = st.keepalive_interval / 2 then st.discover else st

/-- The network after `n` calls of `update()`. -/
def mesh_network.updates {ρ : Type} (R : router ρ) : Nat → mesh_network ρ → mesh_network ρ
  | 0, st => st
  | n + 1, st => (mesh_network.updates R n st).update R

/-! ## Array accesses -/

/-- The elements of `previous_messages` that `forget_message_history_for` accesses, in
order, from index `i` of the outer loop on (the rounds are those of `forget_loop`): the
outer loop reads `previous_messages[i]` for its test; on a match every round of the inner
loop reads `previous_messages[i + 1]` and writes `previous_messages[i]`. -/
def connectivity_adapter.forget_accesses (id : Nat) :
    Nat → Nat → connectivity_adapter → List Nat
  | 0, _, _ => []
  | rounds + 1, i, c =>
    if i < c.previous_messages_count then
      if c.previous_messages.getD i 0 >>> 8 = id then
        i :: ((List.range (c.previous_messages_count - i)).flatMap (fun _ => [i + 1, i]) ++
          connectivity_adapter.forget_accesses id rounds (i + 1)
            { c with
              previous_messages :=
                (List.range (c.previous_messages_count - i)).foldl
                  (fun pm _ => pm.set i (pm.getD (i + 1) 0)) c.previous_messages,
              previous_messages_count := c.previous_messages_count - 1 })
      else i :: connectivity_adapter.forget_accesses id rounds (i + 1) c
    else []

/-- The index at which `add_connection_data` reads `connections`, for the message types
that make it read. -/
def nrf.add_connection_data_index (s : nrf) (message : message) (next_hop : Nat) :
    Option Nat :=
  if message.type = DISCOVERY.RESPOND then some (s.getPipeByNodeId next_hop)
  else if message.type = DISCOVERY.PRESENT then some (s.getPipeByNodeId s.id)
  else none

/-! ## `mesh/router/link_state_router.hpp`, `link_state_router.cpp` -/

/-- Modelled from the spec: a row of the neighbour graph, `link_state::node` of the
`link_state` library (`link_state/calculator.hpp`, not part of the repository):
`{id, edges: [NodeId; K], costs: [u8; K], edge_count}` with `K = 5`. -/
structure node where
  id : Nat
  edges : List Nat
  edge_costs : List Nat
  edge_count : Nat
deriving DecidableEq, Repr

instance : Inhabited node :=
  ⟨{ id := 0, edges := List.replicate 5 0, edge_costs := List.replicate 5 0, edge_count := 0 }⟩

/-- Modelled from the spec: the operations of `link_state::calculator<node_id, uint8_t, 5,
10>` (`link_state/calculator.hpp`, not part of the repository) that the router calls, for
a calculator whose data has type `κ`.  `init` is the constructor `ls_calc(connectivity.id)`;
`get_node` returns a reference, and `set_node` stores back the row written through it;
`insert_replace` receives the members of the row `{other, edges, costs}` the router
builds. -/
structure calculator (κ : Type) where
  init : Nat → κ
  get_node : κ → Nat → node
  set_node : κ → Nat → node → κ
  insert_replace : κ → Nat → List Nat → List Nat → κ
  setup : κ → κ
  loop : κ → κ
  cleanup : κ → κ
  get_next_hop : κ → Nat → Nat × κ

/-- The data members of `class link_state`: the dirty bit and the calculator. -/
structure link_state (κ : Type) where
  is_updated : Bool
  ls_calc : κ

/-- The loop of `graph_update_other` on the local arrays `edges` and `costs`, five zeroed
elements each.  A store at an index above 4 lies outside the arrays; the embedding drops
it.  A read of `message.data` above index 24 yields 0. -/
def link_state.graph_update_other_loop (message : message) : List Nat × List Nat :=
  (List.range (message.dataSize / 2)).foldl
    (fun (row : List Nat × List Nat) i =>
      (row.1.set i (message.data.getD (i * 2) 0),
       row.2.set i (message.data.getD (i * 2 + 1) 0)))
    (List.replicate 5 0, List.replicate 5 0)

/-- The indices `i` of the stores `edges[i] = ...` and `costs[i] = ...` in the loop of
`graph_update_other`, in order. -/
def link_state.graph_update_other_indices (message : message) : List Nat :=
  List.range (message.dataSize / 2)

/-- `void link_state::graph_update_other(const node_id &other, const message &message)`. -/
def link_state.graph_update_other {κ : Type} (C : calculator κ) (r : link_state κ)
    (other : Nat) (message : message) : link_state κ :=
  let row := link_state.graph_update_other_loop message
  { is_updated := false, ls_calc := C.insert_replace r.ls_calc other row.1 row.2 }

/-- `void link_state::fill_update_message(message &message)`: `dataSize` is the `uint8_t`
of `edge_count * 2`.  Reads of `edges` and `edge_costs` above index 4 yield 0 and stores
to `data` above index 24 are dropped. -/
def link_state.fill_update_message {κ : Type} (C : calculator κ) (r : link_state κ)
    (message : message) : mesh.message × link_state κ :=
  let me := C.get_node r.ls_calc 0
  let message := { message with dataSize := (me.edge_count * 2) % 256 }
  let message := { message with
    data := (List.range me.edge_count).foldl
      (fun d i => (d.set (i * 2) (me.edges.getD i 0)).set (i * 2 + 1) (me.edge_costs.getD i 0))
      message.data }
  (message, { r with is_updated := false })

/-- `void link_state::update_neighbours()`: the row of this node takes the neighbours of
the adapter, each at cost 1. -/
def link_state.update_neighbours {κ : Type} (C : calculator κ) (r : link_state κ)
    (connectivity : nrf) : link_state κ × nrf :=
  let count := connectivity.get_neighbour_count
  let neighbours := connectivity.get_neighbours
  let me := C.get_node r.ls_calc 0
  let me := { me with edge_count := count % 256 }
  let me := (List.range count).foldl
    (fun (me : node) i =>
      { me with edges := me.edges.set i (neighbours.getD i 0),
                edge_costs := me.edge_costs.set i 1 }) me
  ({ r with ls_calc := C.set_node r.ls_calc 0 me }, connectivity)

/-- The constructor `link_state(connectivity)`. -/
def link_state.init {κ : Type} (C : calculator κ) (connectivity : nrf) : link_state κ × nrf :=
  link_state.update_neighbours C { is_updated := false, ls_calc := C.init connectivity.id }
    connectivity

/-- `void link_state::send_update()`. -/
def link_state.send_update {κ : Type} (C : calculator κ) (r : link_state κ)
    (connectivity : nrf) : link_state κ × nrf :=
  let u := link_state.update_neighbours C r connectivity
  let update_message := message.mk5 LINK_STATE_ROUTING.UPDATE 0 u.2.id 0 0
  let f := link_state.fill_update_message C u.1 update_message
  (f.2, (u.2.send_all f.1 false).2.2.2)

/-- `void link_state::initial_update()`. -/
def link_state.initial_update {κ : Type} (C : calculator κ) (r : link_state κ)
    (connectivity : nrf) : link_state κ × nrf :=
  let u := link_state.update_neighbours C r connectivity
  let message := message.mk5 LINK_STATE_ROUTING.UPDATE_REQUEST 0 u.2.id 0 0
  let f := link_state.fill_update_message C u.1 message
  (f.2, (u.2.send_all f.1 false).2.2.2)

/-- `void link_state::on_routing_message(message &message)`. -/
def link_state.on_routing_message {κ : Type} (C : calculator κ) (r : link_state κ)
    (connectivity : nrf) (message : message) : mesh.message × link_state κ × nrf :=
  let (r, connectivity) :=
    if message.type = LINK_STATE_ROUTING.UPDATE_REQUEST then
      link_state.send_update C (link_state.graph_update_other C r message.sender message)
        connectivity
    else if message.type = LINK_STATE_ROUTING.UPDATE then
      (link_state.graph_update_other C r message.sender message, connectivity)
    else (r, connectivity)
  let s := connectivity.send_all message false
  (s.2.1, r, s.2.2.2)

/-- `node_id link_state::get_next_hop(const node_id &receiver)`. -/
def link_state.get_next_hop {κ : Type} (C : calculator κ) (r : link_state κ)
    (connectivity : nrf) (receiver : Nat) : Nat × link_state κ × nrf :=
  let r :=
    if !r.is_updated then
      { is_updated := true, ls_calc := C.cleanup (C.loop (C.setup r.ls_calc)) }
    else r
  let h := C.get_next_hop r.ls_calc receiver
  (h.1, { r with ls_calc := h.2 }, connectivity)

/-- The class `link_state` used as a router. -/
def link_state.router {κ : Type} (C : calculator κ) : router (link_state κ) :=
  { update_neighbours := link_state.update_neighbours C,
    send_update := link_state.send_update C,
    initial_update := link_state.initial_update C,
    on_routing_message := link_state.on_routing_message C,
    get_next_hop := link_state.get_next_hop C }


/-! ## The shortest-path calculator of the link-state router -/

/-- Modelled from the spec: an entry of the node array of the shortest-path calculator
(`link_state/calculator.hpp`, not part of the repository) during the computation of
section 4.6: the row of the graph, the distance from this node (`none` is ∞), the
predecessor (the id of a node, `none` when there is none) and whether Dijkstra has settled
the entry. -/
structure calc_node where
  row : node
  distance : Option Nat
  previous : Option Nat
  settled : Bool
deriving DecidableEq, Repr

instance : Inhabited calc_node :=
  ⟨{ row := default, distance := none, previous := none, settled := false }⟩

/-- Modelled from the spec: `setup()` of the calculator, "initialize per-node distance=∞,
predecessor=none, self.distance=0"; entry 0 is this node. -/
def calc_setup : List calc_node → List calc_node
  | [] => []
  | self :: rest =>
    { self with distance := some 0, previous := none, settled := false } ::
      rest.map (fun n => { n with distance := none, previous := none, settled := false })

/-- Modelled from the spec: the choice of the next node of Dijkstra among the entries
from index `i` on: the entry not yet settled with the least finite distance, "ties are
broken by insertion order (lowest array index wins)"; the index and the distance. -/
def calc_select_from : List calc_node → Nat → Option (Nat × Nat)
  | [], _ => none
  | n :: rest, i =>
    if n.settled then calc_select_from rest (i + 1)
    else
      match n.distance, calc_select_from rest (i + 1) with
      | none, best => best
      | some d, none => some (i, d)
      | some d, some (j, e) => if d ≤ e then some (i, d) else some (j, e)

/-- Modelled from the spec: whether the distance `d` improves on the distance held. -/
def calc_improves (d : Nat) : Option Nat → Bool
  | none => true
  | some old => d < old

/-- Modelled from the spec: one relaxation of Dijkstra, of the edge from the settled node
`source` at distance `d` to the node with id `target` at cost `cost`: an entry of the
target not yet settled whose distance improves takes the distance `d + cost` and the
predecessor `source`. -/
def calc_relax (source d target cost : Nat) (k : List calc_node) : List calc_node :=
  k.map (fun n =>
    if n.row.id = target ∧ n.settled = false ∧ calc_improves (d + cost) n.distance = true then
      { n with distance := some (d + cost), previous := some source }
    else n)

/-- Modelled from the spec: one round of Dijkstra: entry `i` is settled and its first
`edge_count` edges are relaxed. -/
def calc_visit (k : List calc_node) (i : Nat) : List calc_node :=
  let u := k.getD i default
  (List.range u.row.edge_count).foldl
    (fun k j =>
      calc_relax u.row.id (u.distance.getD 0) (u.row.edges.getD j 0)
        (u.row.edge_costs.getD j 0) k)
    (k.set i { u with settled := true })

/-- Modelled from the spec: `loop()` of the calculator, "relax until converged": rounds of
Dijkstra until no entry with a finite distance is left to settle, at most `rounds` of
them (every round settles one entry, so the number of entries is enough). -/
def calc_loop : Nat → List calc_node → List calc_node
  | 0, k => k
  | rounds + 1, k =>
    match calc_select_from k 0 with
    | none => k
    | some best => calc_loop rounds (calc_visit k best.1)

/-- Modelled from the spec: `cleanup()` of the calculator, "trim unreachable rows": the
entries with a finite distance stay. -/
def calc_cleanup (k : List calc_node) : List calc_node :=
  k.filter (fun n => n.distance.isSome)

/-- Modelled from the spec: the walk of `get_next_hop` from the entry with id `current`
along the predecessors back to this node (id `self`), "return the first hop on the
shortest path from self to receiver, or 0 if unreachable": the id of the entry whose
predecessor is this node.  The walk passes every entry at most once, so `steps` is the
number of entries at the call. -/
def calc_first_hop (k : List calc_node) (self : Nat) : Nat → Nat → Nat
  | 0, _ => 0
  | steps + 1, current =>
    match k.find? (fun n => n.row.id == current) with
    | none => 0
    | some n =>
      match n.distance, n.previous with
      | some _, some p => if p = self then current else calc_first_hop k self steps p
      | _, _ => 0

/-- Modelled from the spec: `get_next_hop(receiver)` of the calculator. -/
def calc_get_next_hop (k : List calc_node) (receiver : Nat) : Nat :=
  calc_first_hop k (k.getD 0 default).row.id k.length receiver

/-- Modelled from the spec: `insert_replace` of the calculator, "either overwrites an
existing entry with the same id or appends at the first free slot, evicting no-one if
full" (capacity 10).  The edges of the new row are its non-zero leading entries. -/
def calc_insert_replace (k : List calc_node) (other : Nat) (edges costs : List Nat) :
    List calc_node :=
  let entry : calc_node :=
    { row := { id := other, edges := edges, edge_costs := costs,
               edge_count := (edges.takeWhile (fun e => e != 0)).length },
      distance := none, previous := none, settled := false }
  if k.any (fun n => n.row.id == other) then
    k.map (fun n => if n.row.id = other then entry else n)
  else if k.length < 10 then k ++ [entry] else k

/-- Modelled from the spec: the shortest-path calculator of sections 4.6 and 4.6.1
(`link_state::calculator<node_id, uint8_t, 5, 10>`, not part of the repository), Dijkstra
over the node array: its data is the list of the entries in use, entry 0 that of this
node. -/
def dijkstra : calculator (List calc_node) :=
  { init := fun id =>
      [{ row := { id := id, edges := List.replicate 5 0, edge_costs := List.replicate 5 0,
                  edge_count := 0 },
         distance := none, previous := none, settled := false }],
    get_node := fun k i => (k.getD i default).row,
    set_node := fun k i n => k.set i { k.getD i default with row := n },
    insert_replace := calc_insert_replace,
    setup := calc_setup,
    loop := fun k => calc_loop k.length k,
    cleanup := calc_cleanup,
    get_next_hop := fun k receiver => (calc_get_next_hop k receiver, k) }

/-- The rows of a graph are well formed: there is the row of this node, no two rows have
the same id (insertion is replace-by-id) and no row has the id 0, which stands for "no
node". -/
def graph_ok (rows : List node) : Prop :=
  rows ≠ [] ∧ (rows.map (fun n => n.id)).Nodup ∧ ∀ n ∈ rows, n.id ≠ 0

/-- An application frame from node 0x20 to node 0x10 with id 7, three payload bytes and
stale bytes behind them in the payload array. -/
def sample_frame : message :=
  { type := 0x20, message_id := 7, sender := 0x20, receiver := 0x10, dataSize := 3,
    data := [1, 2, 3] ++ List.replicate 22 9, connectionData := [5, 6] }

/-- A history holding one message of each of the nodes 1, 2 and 3. -/
def sample_history : connectivity_adapter :=
  { previous_messages := [0x0101, 0x0201, 0x0301] ++ List.replicate 17 0,
    previous_messages_count := 3, current_message_id := 0, id := 0x10 }

/-- A history holding two messages of node 1. -/
def sample_history_pair : connectivity_adapter :=
  { previous_messages := [0x0101, 0x0102] ++ List.replicate 18 0,
    previous_messages_count := 2, current_message_id := 0, id := 0x10 }

/-- A radio as handed to the constructor: nothing received, nothing sent, and the coming
transmissions acknowledged. -/
def sample_radio : nrf24l01plus :=
  { mode := nrf_mode.MODE_NONE, rx_address := List.replicate 6 [0, 0, 0, 0, 0],
    rx_en := List.replicate 6 false, tx_address := [0, 0, 0, 0, 0],
    rx_fifo := [], tx_results := [true, true, true], tx_log := [] }

/-- The freshly constructed adapter of node 0x10. -/
def sample_node : nrf := nrf.init 0x10 sample_radio

/-- A network on the fresh adapter of node 0x10 with the base router. -/
def sample_network : mesh_network Unit := mesh_network.init sample_node ()

/-- The RESPOND of node 0x20 to the PRESENT of node 0x10, naming the listen address 0x12. -/
def sample_respond : message :=
  { message.mk5 DISCOVERY.RESPOND 1 0x20 0x10 0 with connectionData := [0x12, 0] }

/-- The network of node 0x10 after the RESPOND of node 0x20 went through
`check_new_messages`: pipe 1 is ACCEPTED with node 0x20. -/
def sample_linked_network : mesh_network Unit :=
  (mesh_network.check_new_messages_body router.base sample_network
    (List.replicate 10 message.empty) 0 sample_respond).1

/-- The PRESENT broadcast built by `discover()` on node 0x10. -/
def sample_present : message := message.mk5 DISCOVERY.PRESENT 0 0x10 0 0

/-- A transit frame of node 0x30 for node 0x20. -/
def sample_transit : message :=
  { type := 0x20, message_id := 9, sender := 0x30, receiver := 0x20, dataSize := 0,
    data := List.replicate 25 0, connectionData := [0, 0] }

/-- An application frame of node 0x20 for node 0x10, earlier than `sample_frame`. -/
def sample_frame_5 : message := { sample_frame with message_id := 5 }

/-- A second earlier application frame of node 0x20 for node 0x10. -/
def sample_frame_6 : message := { sample_frame with message_id := 6 }

/-- A DENY of node 0x20 addressed to node 0x10. -/
def sample_deny : message := message.mk5 DISCOVERY.DENY 8 0x20 0x10 0

/-- The network of node 0x10, freshly constructed on a radio that delivers six frames
of node 0x20: its RESPOND, the application frames 5, 6 and 7, a DENY, and frame 7 again. -/
def sample_inbound_network : mesh_network Unit :=
  mesh_network.init
    (nrf.init 0x10 { sample_radio with
      rx_fifo := [[0x02, 1, 0x20, 0x10, 0, 0x12, 0],
                  [0x20, 5, 0x20, 0x10, 3, 1, 2, 3, 5, 6],
                  [0x20, 6, 0x20, 0x10, 3, 1, 2, 3, 5, 6],
                  [0x20, 7, 0x20, 0x10, 3, 1, 2, 3, 5, 6],
                  [0x04, 8, 0x20, 0x10, 0, 0, 0],
                  [0x20, 7, 0x20, 0x10, 3, 1, 2, 3, 5, 6]] }) ()

/-- The application frame 7 of node 0x20 as `parse` decodes it. -/
def sample_frame_parsed : message :=
  { type := 0x20, message_id := 7, sender := 0x20, receiver := 0x10, dataSize := 3,
    data := [1, 2, 3] ++ List.replicate 22 0, connectionData := [5, 6] }

/-- A radio on which the first two transmissions fail and the third is acknowledged. -/
def sample_lossy_radio : nrf24l01plus := { sample_radio with tx_results := [false, false, true] }

/-- A radio as handed to the constructor on which every coming transmission (eight of
them) is acknowledged. -/
def sample_reliable_radio : nrf24l01plus :=
  { sample_radio with tx_results := List.replicate 8 true }

/-- A network with the base router on the freshly constructed adapter of node `id`, on a
radio that acknowledges the coming transmissions. -/
def fresh_network (id : Nat) : mesh_network Unit :=
  mesh_network.init (nrf.init id sample_reliable_radio) ()

/-- The RESPOND of node 0x30 naming the listen address 0x14. -/
def sample_respond_30 : message :=
  { message.mk5 DISCOVERY.RESPOND 1 0x30 0x10 0 with connectionData := [0x14, 0] }

/-- The freshly constructed adapter of node 0x10 after the RESPOND of node 0x20 and then
the RESPOND of node 0x30: pipes 1 and 2 are ACCEPTED with the nodes 0x20 and 0x30. -/
def sample_two_neighbours : nrf :=
  (((nrf.init 0x10 sample_reliable_radio).discovery_respond_received sample_respond).2
    |>.discovery_respond_received sample_respond_30).2

/-- A message originated by node 0x10 for all its neighbours, without an id yet. -/
def sample_broadcast : message := message.mk5 DOMOTICA.DATA 0 0x10 0 0

/-- The PRESENT broadcast of node 0x20, naming its listen discriminator 0x22. -/
def sample_present_20 : message :=
  { message.mk5 DISCOVERY.PRESENT 0 0x20 0 0 with connectionData := [0x22, 0] }

/-- The PRESENT broadcast of node 0x30, naming its listen discriminator 0x32. -/
def sample_present_30 : message :=
  { message.mk5 DISCOVERY.PRESENT 0 0x30 0 0 with connectionData := [0x32, 0] }

/-- An ACCEPT of node 0x20 addressed to node 0x10. -/
def sample_accept : message := message.mk5 DISCOVERY.ACCEPT 2 0x20 0x10 0

/-- The adapter of node 0x10 after `discovery_present_received` for node 0x30 and for node
0x20, `discovery_accept_received` for node 0x20, `remove_direct_connection(0x30)` and
`discovery_present_received` for node 0x20 again: pipe 2 is RESPONDED and pipe 3 is
ACCEPTED, both with connected node 0x20. -/
def sample_duplicate : nrf :=
  (((((sample_node.discovery_present_received sample_present_30).2
    |>.discovery_present_received sample_present_20).2
    |>.discovery_accept_received sample_accept)
    |>.remove_direct_connection 0x30)
    |>.discovery_present_received sample_present_20).2

/-- A RESPOND of node 0x20 naming the discriminator 0x70. -/
def sample_respond_70 : message :=
  { message.mk5 DISCOVERY.RESPOND 1 0x20 0x6E 0 with connectionData := [0x70, 0] }

/-- An ACCEPT that carries the id 0x10 of the receiving node as its sender. -/
def sample_accept_own : message := message.mk5 DISCOVERY.ACCEPT 2 0x10 0x10 0

/-- A router that counts the calls of its methods: its data is the number of calls of
`on_routing_message` and the number of calls of `send_update`; no method touches the
adapter or the message, and `get_next_hop` returns 0. -/
def router.counting : router (Nat × Nat) :=
  { update_neighbours := fun r c => (r, c),
    send_update := fun r c => ((r.1, r.2 + 1), c),
    initial_update := fun r c => (r, c),
    on_routing_message := fun r c message => (message, (r.1 + 1, r.2), c),
    get_next_hop := fun r c _ => (0, r, c) }

/-- The radio receives the payloads `payloads`: they wait in its FIFO behind those
already there until `buffer_messages` reads them. -/
def nrf.radio_receives (s : nrf) (payloads : List (List Nat)) : nrf :=
  { s with nrf24 := { s.nrf24 with rx_fifo := s.nrf24.rx_fifo ++ payloads } }


/-- A radio on which no transmission is acknowledged. -/
def sample_silent_radio : nrf24l01plus := { sample_radio with tx_results := [] }

/-- The network of node 0x10 with the counting router, linked to the nodes 0x20 and
0x30 (pipes 1 and 2 ACCEPTED), on a radio that acknowledges nothing. -/
def sample_lost_network : mesh_network (Nat × Nat) :=
  mesh_network.init
    (((nrf.init 0x10 sample_silent_radio).discovery_respond_received sample_respond).2
      |>.discovery_respond_received sample_respond_30).2 (0, 0)

/-- The keepalive built by `update()` on node 0x10. -/
def sample_keepalive : message := message.mk5 DISCOVERY.NO_OPERATION 0 0x10 0 0

/-- A link-state UPDATE of node 0x20 addressed to node 0x10. -/
def sample_update : message :=
  { type := LINK_STATE_ROUTING.UPDATE, message_id := 3, sender := 0x20, receiver := 0x10,
    dataSize := 0, data := List.replicate 25 0, connectionData := [0, 0] }

/-- The network of node 0x10 with the counting router, freshly constructed. -/
def sample_counting_network : mesh_network (Nat × Nat) := mesh_network.init sample_node (0, 0)

/-- A radio payload of three bytes. -/
def sample_short_payload : List Nat := [1, 2, 3]

/-- The payload of the application frame 7 of node 0x20 for node 0x10. -/
def sample_payload : List Nat := [0x20, 7, 0x20, 0x10, 3, 1, 2, 3, 5, 6]

/-- The payload of a NO_OPERATION frame of node 0x20 for node 0x10 with message id `i`. -/
def sample_noop_payload (i : Nat) : List Nat := [0x00, i, 0x20, 0x10, 0, 0, 0]

/-- The payloads of `n` NO_OPERATION frames of node 0x20 with the message ids 1 to `n`. -/
def sample_stream (n : Nat) : List (List Nat) :=
  (List.range n).map (fun i => sample_noop_payload (i + 1))

/-- The freshly constructed adapter of node 0x10 on a radio that holds the `n` payloads of
`sample_stream n`. -/
def sample_flooded_node (n : Nat) : nrf :=
  nrf.init 0x10 { sample_radio with rx_fifo := sample_stream n }

/-- The network of node 0x10, freshly constructed on a radio that holds one payload of
three bytes. -/
def sample_short_network : mesh_network Unit :=
  mesh_network.init (nrf.init 0x10 { sample_radio with rx_fifo := [sample_short_payload] }) ()

/-- The network of node 0x10, freshly constructed on a radio that holds 99 frames of node
0x20: the application frame 7 and 98 NO_OPERATION frames with the message ids 100 to
197. -/
def sample_busy_network : mesh_network Unit :=
  mesh_network.init
    (nrf.init 0x10 { sample_radio with
      rx_fifo := sample_payload :: (List.range 98).map (fun i => sample_noop_payload (i + 100)) })
    ()

/-- The run of `check_new_messages` on `sample_busy_network`, and a second run after the
radio has received a NO_OPERATION frame with message id 250 and a payload of three
bytes. -/
def sample_ghost_run : Option (Nat × List message × mesh_network Unit) :=
  (mesh_network.check_new_messages router.base 200 sample_busy_network
    (List.replicate 10 message.empty)).bind (fun r =>
      mesh_network.check_new_messages router.base 200
        { r.2.2 with connection :=
            r.2.2.connection.radio_receives [sample_noop_payload 250, sample_short_payload] }
        (List.replicate 10 message.empty))


/-- The network of node 0x10 with node 0x20 on its blacklist, freshly constructed on a
radio that holds the application frame 7 of node 0x20. -/
def sample_blacklisting_network : mesh_network Unit :=
  (mesh_network.init (nrf.init 0x10 { sample_radio with rx_fifo := [sample_payload] }) ()
    ).add_blacklist [0x20]


/-- A history of 20 entries: 19 messages of node 2 (ids 1 to 19), then message 1 of
node 1. -/
def sample_full_history : connectivity_adapter :=
  { previous_messages := (List.range 19).map (fun i => 0x0200 + (i + 1)) ++ [0x0101],
    previous_messages_count := 20, current_message_id := 0, id := 0x10 }

/-- The PRESENT broadcast of node 0x10, naming its listen discriminator 0x12. -/
def sample_present_10 : message :=
  { message.mk5 DISCOVERY.PRESENT 0 0x10 0 0 with connectionData := [0x12, 0] }

/-- The PRESENT broadcast of node 0x40, naming its listen discriminator 0x42. -/
def sample_present_40 : message :=
  { message.mk5 DISCOVERY.PRESENT 0 0x40 0 0 with connectionData := [0x42, 0] }

/-- The PRESENT broadcast of node 0x50, naming its listen discriminator 0x52. -/
def sample_present_50 : message :=
  { message.mk5 DISCOVERY.PRESENT 0 0x50 0 0 with connectionData := [0x52, 0] }

/-- The RESPOND of node 0x60 to the PRESENT of node 0x10, naming the listen address
0x12. -/
def sample_respond_60 : message :=
  { message.mk5 DISCOVERY.RESPOND 1 0x60 0x10 0 with connectionData := [0x12, 0] }

/-- The adapter of node 0x10 after the PRESENTs of the nodes 0x20, 0x30, 0x40 and 0x50
(pipes 2 to 5 RESPONDED) and the RESPOND of node 0x60 on the listen pipe (pipe 1
ACCEPTED): no pipe is left to listen on. -/
def sample_full_node : nrf :=
  (((((sample_node.discovery_present_received sample_present_20).2
    |>.discovery_present_received sample_present_30).2
    |>.discovery_present_received sample_present_40).2
    |>.discovery_present_received sample_present_50).2
    |>.discovery_respond_received sample_respond_60).2

/-- The payload of an application frame of node 0x20 for node 0x10 with message id `i`
and no data. -/
def sample_application_payload (i : Nat) : List Nat := [0x20, i, 0x20, 0x10, 0, 0, 0]

/-- The network of node 0x10, freshly constructed on a radio that holds `n` application
frames of node 0x20 with the message ids 1 to `n`. -/
def sample_crowded_network (n : Nat) : mesh_network Unit :=
  mesh_network.init
    (nrf.init 0x10 { sample_radio with
      rx_fifo := (List.range n).map (fun i => sample_application_payload (i + 1)) })
    ()

/-- A link-state UPDATE of node 0x20 that announces six neighbours (`dataSize = 12`). -/
def sample_long_update : message :=
  { type := LINK_STATE_ROUTING.UPDATE, message_id := 4, sender := 0x20, receiver := 0,
    dataSize := 12,
    data := [0x30, 1, 0x31, 1, 0x32, 1, 0x33, 1, 0x34, 1, 0x35, 1] ++ List.replicate 13 0,
    connectionData := [0, 0] }

/-- A calculator that knows the rows it was given and routes to direct neighbours only:
its data is the list of rows, row 0 that of this node; `insert_replace` overwrites the row
with the same id or appends while fewer than 10 rows are held; `get_next_hop` returns the
receiver when it is among the edges of row 0, else 0. -/
def sample_calculator : calculator (List node) :=
  { init := fun id =>
      [{ id := id, edges := List.replicate 5 0, edge_costs := List.replicate 5 0,
         edge_count := 0 }],
    get_node := fun k i => k.getD i default,
    set_node := fun k i n => k.set i n,
    insert_replace := fun k other edges costs =>
      let row : node :=
        { id := other, edges := edges, edge_costs := costs,
          edge_count := (edges.filter (fun e => e != 0)).length }
      if k.any (fun n => n.id == other) then
        k.map (fun n => if n.id = other then row else n)
      else if k.length < 10 then k ++ [row] else k,
    setup := fun k => k,
    loop := fun k => k,
    cleanup := fun k => k,
    get_next_hop := fun k receiver =>
      (if receiver ∈ (k.getD 0 default).edges.take (k.getD 0 default).edge_count then receiver
        else 0, k) }

/-- The link-state router of node 0x10 with the sample calculator, whose own row holds the
neighbours 0x20 and 0x30 at cost 1. -/
def sample_link_state : link_state (List node) :=
  { is_updated := false,
    ls_calc :=
      [{ id := 0x10, edges := [0x20, 0x30, 0, 0, 0], edge_costs := [1, 1, 0, 0, 0],
         edge_count := 2 }] }

end mesh

/-! # Theorems -/

namespace mesh

/-! ## Array loops -/

theorem foldl_set_range (g : Nat → Nat) (a : Nat) :
    ∀ (k : Nat) (out : List Nat), a + k ≤ out.length →
      (List.range k).foldl (fun o i => o.set (i + a) (g i)) out =
        out.take a ++ (List.range k).map g ++ out.drop (a + k) := by
  intro k
  induction k with
  | zero => intro out _; simp
  | succ k ih =>
    intro out h
    have hk : a + k < out.length := by omega
    rw [List.range_succ, List.foldl_append, ih out (by omega)]
    simp only [List.foldl_cons, List.foldl_nil, List.map_append, List.map_cons, List.map_nil]
    have hlen : (List.take a out ++ List.map g (List.range k)).length = k + a := by
      simp; omega
    rw [List.set_append_right _ _ (by rw [hlen]), hlen, Nat.sub_self,
      List.drop_eq_getElem_cons hk]
    simp [Nat.add_assoc]

theorem map_getD_range (l : List Nat) (k : Nat) (h : k ≤ l.length) :
    (List.range k).map (fun i => l.getD i 0) = l.take k := by
  apply List.ext_getElem
  · simp; omega
  · intro n h1 h2
    simp at h1 h2
    simp [List.getD_eq_getElem?_getD, List.getElem?_eq_getElem (show n < l.length by omega)]

theorem set_header (out : List Nat) (h : 5 ≤ out.length) (t i s r d : Nat) :
    ((((out.set 0 t).set 1 i).set 2 s).set 3 r).set 4 d = [t, i, s, r, d] ++ out.drop 5 := by
  match out, h with
  | _ :: _ :: _ :: _ :: _ :: rest, _ => simp

theorem set_trailer (pre rest : List Nat) (n x y : Nat) (hn : pre.length = n)
    (h : 2 ≤ rest.length) :
    ((pre ++ rest).set n x).set (n + 1) y = pre ++ [x, y] ++ rest.drop 2 := by
  subst hn
  match rest, h with
  | _ :: _ :: rest, _ =>
    rw [List.set_append_right _ _ (Nat.le_refl _), Nat.sub_self]
    rw [List.set_append_right _ _ (by simp)]
    simp

theorem to_byte_array_layout (m : message) (out : List Nat) (hd : m.dataSize ≤ m.data.length)
    (hc : m.connectionData.length = 2) (hout : m.size ≤ out.length) :
    m.to_byte_array out =
      [m.type, m.message_id, m.sender, m.receiver, m.dataSize] ++ m.data.take m.dataSize
        ++ m.connectionData ++ out.drop m.size := by
  unfold message.size at hout
  unfold message.to_byte_array message.size
  simp only []
  rw [set_header out (by omega)]
  rw [foldl_set_range (fun i => m.data.getD i 0) 5 m.dataSize _ (by simp; omega)]
  rw [map_getD_range _ _ hd]
  have e1 : m.dataSize + 7 - 2 = m.dataSize + 5 := by omega
  have e2 : m.dataSize + 7 - 1 = m.dataSize + 5 + 1 := by omega
  have e3 : List.take 5 ([m.type, m.message_id, m.sender, m.receiver, m.dataSize] ++
      List.drop 5 out) = [m.type, m.message_id, m.sender, m.receiver, m.dataSize] := by
    simp
  have e4 : List.drop (5 + m.dataSize) ([m.type, m.message_id, m.sender, m.receiver,
      m.dataSize] ++ List.drop 5 out) = List.drop (5 + m.dataSize) out := by
    rw [show 5 + m.dataSize = [m.type, m.message_id, m.sender, m.receiver,
      m.dataSize].length + m.dataSize by simp, List.drop_append, List.drop_drop]
    simp [Nat.add_comm]
  rw [e1, e2, e3, e4,
    set_trailer _ _ (m.dataSize + 5) _ _ (by simp; omega) (by simp; omega), List.drop_drop]
  match m.connectionData, hc with
  | [c0, c1], _ =>
    have e5 : 5 + m.dataSize + 2 = m.dataSize + 7 := by omega
    simp [e5]


theorem getD_drop_add (l : List Nat) (a i : Nat) : (l.drop a).getD i 0 = l.getD (i + a) 0 := by
  simp [List.getD_eq_getElem?_getD, List.getElem?_drop, Nat.add_comm]

theorem parse_frame (t : message) (n : Nat) (inp : List Nat) (h7 : 7 ≤ n) (h32 : n ≤ 32)
    (hlen : n ≤ inp.length) :
    t.parse n inp = (true,
      { type := inp.getD 0 0, message_id := inp.getD 1 0, sender := inp.getD 2 0,
        receiver := inp.getD 3 0, dataSize := inp.getD 4 0,
        data := (inp.drop 5).take (n - 7) ++ List.replicate (32 - n) 0,
        connectionData := [inp.getD (n - 2) 0, inp.getD (n - 1) 0] }) := by
  unfold message.parse
  have hn : ¬ n < 7 := by omega
  simp only [hn, if_false]
  have h0 := foldl_set_range (fun i => inp.getD (i + 5) 0) 0 (n - 7) (List.replicate 25 0)
    (by simp; omega)
  simp only [Nat.add_zero, List.take_zero, List.nil_append, Nat.zero_add] at h0
  rw [h0]
  have h1 : (List.range (n - 7)).map (fun i => inp.getD (i + 5) 0) =
      (inp.drop 5).take (n - 7) := by
    rw [← map_getD_range (inp.drop 5) (n - 7) (by simp; omega)]
    apply List.map_congr_left
    intro i _
    rw [getD_drop_add]
  have h2 : 25 - (n - 7) = 32 - n := by omega
  rw [h1, List.drop_replicate, h2]
  rfl

theorem parse_short (t : message) (n : Nat) (inp : List Nat) (h : n < 7) :
    t.parse n inp = (false,
      { t with data := List.replicate 25 0, connectionData := List.replicate 2 0 }) := by
  unfold message.parse
  simp [h]

/-! ## Duplicate history -/

theorem check_value_eq (msg : message) (hs : msg.sender < 256) (hm : msg.message_id < 256) :
    check_value msg = msg.sender * 256 + msg.message_id := by
  unfold check_value
  have h1 : 2 ^ 8 * msg.sender + msg.message_id = 2 ^ 8 * msg.sender ||| msg.message_id :=
    Nat.mul_add_lt_is_or (by simpa using hm) msg.sender
  rw [Nat.shiftLeft_eq, Nat.mul_comm, ← h1]
  omega

theorem shift_left_20 (pm : List Nat) (h : pm.length = 20) :
    (List.range 19).foldl (fun pm i => pm.set i (pm.getD (i + 1) 0)) pm =
      pm.drop 1 ++ [pm.getD 19 0] := by
  match pm, h with
  | [_, _, _, _, _, _, _, _, _, _, _, _, _, _, _, _, _, _, _, _], _ =>
    simp [List.range, List.range.loop]

theorem any_range_getD (l : List Nat) (k v : Nat) (h : k ≤ l.length) :
    (List.range k).any (fun i => l.getD i 0 == v) = true ↔ v ∈ l.take k := by
  rw [List.any_eq_true]
  constructor
  · rintro ⟨i, hi, he⟩
    rw [List.mem_range] at hi
    have hil : i < l.length := by omega
    rw [List.mem_take_iff_getElem]
    refine ⟨i, by omega, ?_⟩
    simpa [List.getD_eq_getElem?_getD, List.getElem?_eq_getElem hil] using he
  · intro hv
    rw [List.mem_take_iff_getElem] at hv
    obtain ⟨i, hi, he⟩ := hv
    have hil : i < l.length := by omega
    refine ⟨i, by rw [List.mem_range]; omega, ?_⟩
    simpa [List.getD_eq_getElem?_getD, List.getElem?_eq_getElem hil] using he

theorem take_set_succ (l : List Nat) (n v : Nat) (h : n < l.length) :
    (l.set n v).take (n + 1) = l.take n ++ [v] := by
  induction l generalizing n with
  | nil => simp at h
  | cons a l ih =>
    cases n with
    | zero => simp
    | succ n =>
      simp at h
      simp [ih n h]

/-- What `is_new_message` does when the key is absent, in terms of the history. -/
theorem is_new_message_insert (c : connectivity_adapter) (msg : message)
    (hlen : c.previous_messages.length = 20) (hcount : c.previous_messages_count ≤ 20)
    (hnew : check_value msg ∉ c.history) :
    (c.is_new_message msg).1 = true ∧
    (c.is_new_message msg).2.history =
      (if c.previous_messages_count = 20 then c.history.drop 1 else c.history)
        ++ [check_value msg] ∧
    (c.is_new_message msg).2.previous_messages.length = 20 ∧
    (c.is_new_message msg).2.previous_messages_count =
      (if c.previous_messages_count = 20 then 20 else c.previous_messages_count + 1) ∧
    (c.is_new_message msg).2.current_message_id = c.current_message_id ∧
    (c.is_new_message msg).2.id = c.id := by
  have hany : ¬ ((List.range c.previous_messages_count).any
      (fun i => c.previous_messages.getD i 0 == check_value msg) = true) := by
    rw [any_range_getD _ _ _ (by omega)]; exact hnew
  unfold connectivity_adapter.is_new_message
  rw [if_neg hany]
  by_cases h20 : c.previous_messages_count = 20
  · simp only [h20, if_true, connectivity_adapter.history]
    rw [shift_left_20 _ hlen]
    have hl19 : (List.drop 1 c.previous_messages).length = 19 := by simp [hlen]
    refine ⟨trivial, ?_, by simp [hlen], by norm_num, trivial, trivial⟩
    show List.take (19 + 1) _ = _
    rw [List.set_append_right _ _ (by omega), hl19]
    simp [List.take_of_length_le, hlen, hl19]
  · simp only [h20, if_false, connectivity_adapter.history]
    have hlt : c.previous_messages_count < 20 := by omega
    refine ⟨trivial, ?_, by simp [hlen], ?_, trivial, trivial⟩
    · rw [Nat.mod_eq_of_lt (by omega), take_set_succ _ _ _ (by omega)]
    · exact Nat.mod_eq_of_lt (by omega)

theorem is_new_message_duplicate (c : connectivity_adapter) (msg : message)
    (hcount : c.previous_messages_count ≤ c.previous_messages.length)
    (hold : check_value msg ∈ c.history) :
    c.is_new_message msg = (false, c) := by
  unfold connectivity_adapter.is_new_message
  rw [if_pos ((any_range_getD _ _ _ hcount).mpr hold)]

/-! ## Message codec (C1 to C5) -/

/-- C1. Round trip: for a message `m` with `dataSize ≤ 25`, parsing the `m.size()` bytes
written by `to_byte_array` into any message object `t` returns true and gives a message
with the header fields and `connectionData` of `m`, the first `dataSize` payload bytes of
`m`, and zeroes in the rest of the 25-byte payload array. -/
theorem parse_to_byte_array_roundtrip (m t : message) (out : List Nat)
    (hsz : m.dataSize ≤ 25) (ha : m.arrays_ok) (hout : m.size ≤ out.length) :
    (t.parse m.size (m.to_byte_array out)).1 = true ∧
    (t.parse m.size (m.to_byte_array out)).2.type = m.type ∧
    (t.parse m.size (m.to_byte_array out)).2.message_id = m.message_id ∧
    (t.parse m.size (m.to_byte_array out)).2.sender = m.sender ∧
    (t.parse m.size (m.to_byte_array out)).2.receiver = m.receiver ∧
    (t.parse m.size (m.to_byte_array out)).2.dataSize = m.dataSize ∧
    (t.parse m.size (m.to_byte_array out)).2.connectionData = m.connectionData ∧
    (t.parse m.size (m.to_byte_array out)).2.data.take m.dataSize = m.data.take m.dataSize ∧
    (t.parse m.size (m.to_byte_array out)).2.data.drop m.dataSize =
      List.replicate (25 - m.dataSize) 0 := by
  obtain ⟨hd, hc⟩ := ha
  have hlay := to_byte_array_layout m out (by omega) hc hout
  have hsize : m.size = m.dataSize + 7 := rfl
  have hk : (m.data.take m.dataSize).length = m.dataSize := by simp; omega
  have hlen : m.size ≤ (m.to_byte_array out).length := by
    rw [hlay]; simp [hc, hsize]; omega
  rw [parse_frame t m.size _ (by omega) (by omega) hlen]
  have hdata : List.take (m.size - 7) (List.drop 5 (m.to_byte_array out)) =
      m.data.take m.dataSize := by
    rw [hlay, hsize]
    simp only [List.append_assoc]
    rw [show (5 : Nat) = [m.type, m.message_id, m.sender, m.receiver, m.dataSize].length by rfl,
      List.drop_left]
    rw [show m.dataSize + 7 - 7 = (m.data.take m.dataSize).length by omega, List.take_left]
  have hg : ∀ j, (m.to_byte_array out).getD (m.dataSize + 5 + j) 0 =
      (m.connectionData ++ out.drop m.size).getD j 0 := by
    intro j
    rw [hlay, List.append_assoc,
      List.getD_append_right _ _ _ _ (by simp; omega)]
    congr 1
    simp; omega
  have h0 := hg 0
  have h1 := hg 1
  have e0 : m.size - 2 = m.dataSize + 5 + 0 := by omega
  have e1 : m.size - 1 = m.dataSize + 5 + 1 := by omega
  simp only [hdata, e0, e1, h0, h1]
  match hcd : m.connectionData, hc with
  | [c0, c1], _ =>
    refine ⟨trivial, ?_, ?_, ?_, ?_, ?_, ?_, ?_, ?_⟩
    all_goals first
      | (rw [hlay]; rfl)
      | (simp [hk]; done)
      | (simp [hk]; omega)

theorem parse_to_byte_array_roundtrip_witness :
    sample_frame.dataSize ≤ 25 ∧ sample_frame.arrays_ok ∧
    sample_frame.size ≤ (List.replicate 10 0).length ∧
    (message.empty.parse sample_frame.size
      (sample_frame.to_byte_array (List.replicate 10 0))).2.data.drop sample_frame.dataSize =
      List.replicate (25 - sample_frame.dataSize) 0 :=
  ⟨by decide, by decide, by decide,
    (parse_to_byte_array_roundtrip sample_frame message.empty (List.replicate 10 0)
      (by decide) (by decide) (by decide)).2.2.2.2.2.2.2.2⟩

/-- C2. For a message with `dataSize ≤ 25`, `to_byte_array` writes exactly
`size() = 7 + dataSize` bytes: type, message_id, sender, receiver, dataSize, then
`data[0..dataSize)`, then `connectionData[0]` and `connectionData[1]`; the buffer behind
these bytes is left as it was. -/
theorem to_byte_array_writes_size_bytes (m : message) (out : List Nat)
    (hsz : m.dataSize ≤ 25) (ha : m.arrays_ok) (hout : m.size ≤ out.length) :
    m.size = 7 + m.dataSize ∧
    m.to_byte_array out =
      [m.type, m.message_id, m.sender, m.receiver, m.dataSize] ++ m.data.take m.dataSize
        ++ [m.connectionData.getD 0 0, m.connectionData.getD 1 0] ++ out.drop m.size ∧
    ((m.to_byte_array out).take m.size).length = 7 + m.dataSize := by
  obtain ⟨hd, hc⟩ := ha
  have hlay := to_byte_array_layout m out (by omega) hc hout
  have hsize : m.size = 7 + m.dataSize := by unfold message.size; omega
  refine ⟨hsize, ?_, ?_⟩
  · rw [hlay]
    match m.connectionData, hc with
    | [c0, c1], _ => rfl
  · rw [hlay]
    simp [hc, hsize]
    omega

theorem to_byte_array_writes_size_bytes_witness :
    sample_frame.dataSize ≤ 25 ∧ sample_frame.arrays_ok ∧
    sample_frame.size ≤ (List.replicate 12 0xFF).length ∧
    sample_frame.to_byte_array (List.replicate 12 0xFF) =
      [0x20, 7, 0x20, 0x10, 3, 1, 2, 3, 5, 6, 0xFF, 0xFF] :=
  ⟨by decide, by decide, by decide,
    (to_byte_array_writes_size_bytes sample_frame (List.replicate 12 0xFF)
      (by decide) (by decide) (by decide)).2.1⟩

/-- C3 (code at the failing input). Parsing a 3-byte input into `sample_frame` returns
false, yet the payload array and `connectionData` of the message have been zeroed: the
two `fill(0)` calls of `parse` come before the length test. -/
theorem parse_short_input_zeroes_arrays :
    sample_frame.parse 3 [1, 2, 3] =
      (false, { sample_frame with data := List.replicate 25 0,
                                  connectionData := List.replicate 2 0 }) ∧
    (sample_frame.parse 3 [1, 2, 3]).2.data ≠ sample_frame.data ∧
    (sample_frame.parse 3 [1, 2, 3]).2.connectionData ≠ sample_frame.connectionData := by
  decide

/-- C4 (counterexample). The 8-byte frame `[0x20, 7, 0x20, 0x10, 0, 9, 5, 6]` declares
`dataSize = 0` but carries one byte between offset 5 and the two trailing bytes; `parse`
stores that byte in `data[0]`, so not every `data[i]` with `i ≥ dataSize` is 0. -/
theorem parse_keeps_residual_payload :
    (message.empty.parse 8 [0x20, 7, 0x20, 0x10, 0, 9, 5, 6]).1 = true ∧
    ¬ (∀ i, (message.empty.parse 8 [0x20, 7, 0x20, 0x10, 0, 9, 5, 6]).2.dataSize ≤ i →
        (message.empty.parse 8 [0x20, 7, 0x20, 0x10, 0, 9, 5, 6]).2.data.getD i 0 = 0) :=
  ⟨by decide, fun h => absurd (h 0 (by decide)) (by decide)⟩

/-- C4 (amended). For an input of `n` bytes with `7 ≤ n ≤ 32`, `parse` returns true, takes
the header from bytes 0 to 4, copies all `n - 7` bytes from offset 5 on into
`data[0 .. n-7)` whatever the size byte says, leaves `data[i] = 0` for `i ≥ n - 7`, and sets
`connectionData` to the last two input bytes. -/
theorem parse_copies_frame_payload (t : message) (n : Nat) (inp : List Nat)
    (h7 : 7 ≤ n) (h32 : n ≤ 32) (hlen : inp.length = n) :
    t.parse n inp = (true,
      { type := inp.getD 0 0, message_id := inp.getD 1 0, sender := inp.getD 2 0,
        receiver := inp.getD 3 0, dataSize := inp.getD 4 0,
        data := (inp.drop 5).take (n - 7) ++ List.replicate (32 - n) 0,
        connectionData := [inp.getD (n - 2) 0, inp.getD (n - 1) 0] }) :=
  parse_frame t n inp h7 h32 (by omega)

theorem parse_copies_frame_payload_witness :
    7 ≤ 8 ∧ 8 ≤ 32 ∧ [0x20, 7, 0x20, 0x10, 0, 9, 5, 6].length = 8 ∧
    sample_frame.parse 8 [0x20, 7, 0x20, 0x10, 0, 9, 5, 6] = (true,
      { type := 0x20, message_id := 7, sender := 0x20, receiver := 0x10, dataSize := 0,
        data := [9] ++ List.replicate 24 0, connectionData := [5, 6] }) :=
  ⟨by decide, by decide, by decide,
    parse_copies_frame_payload sample_frame 8 [0x20, 7, 0x20, 0x10, 0, 9, 5, 6]
      (by decide) (by decide) (by decide)⟩

/-- C5 (counterexample). The 7-byte frame `[0x20, 7, 0x20, 0x10, 200, 5, 6]` parses
successfully into a message with `dataSize = 200 > 25`. -/
theorem parse_accepts_oversized_dataSize :
    (message.empty.parse 7 [0x20, 7, 0x20, 0x10, 200, 5, 6]).1 = true ∧
    ¬ (message.empty.parse 7 [0x20, 7, 0x20, 0x10, 200, 5, 6]).2.dataSize ≤ 25 := by
  decide

/-- C5 (amended). A successful parse of a radio payload (`7 ≤ n ≤ 32`) sets
`dataSize = in[4]` without bounding it and leaves `data` a 25-byte array; when `in[4] ≤ 25`
every index below `dataSize` (the indices a later `to_byte_array` reads) is below 25, and
`in[4] ≤ n - 7` (the size byte fits the frame) is enough for `dataSize ≤ 25`. -/
theorem parse_dataSize_is_size_byte (t : message) (n : Nat) (inp : List Nat)
    (h7 : 7 ≤ n) (h32 : n ≤ 32) (hlen : inp.length = n) :
    (t.parse n inp).1 = true ∧
    (t.parse n inp).2.dataSize = inp.getD 4 0 ∧
    (t.parse n inp).2.data.length = 25 ∧
    (inp.getD 4 0 ≤ 25 →
      ∀ i ∈ List.range (t.parse n inp).2.dataSize, i < (t.parse n inp).2.data.length) ∧
    (inp.getD 4 0 ≤ n - 7 → (t.parse n inp).2.dataSize ≤ 25) := by
  rw [parse_frame t n inp h7 h32 (by omega)]
  refine ⟨rfl, rfl, ?_, ?_, ?_⟩
  · simp; omega
  · intro h i hi
    have hi2 : i < inp.getD 4 0 := by simpa using hi
    simp; omega
  · intro h
    show inp.getD 4 0 ≤ 25
    omega

theorem parse_dataSize_is_size_byte_witness :
    7 ≤ 10 ∧ 10 ≤ 32 ∧ [0x20, 7, 0x20, 0x10, 3, 1, 2, 3, 5, 6].length = 10 ∧
    (message.empty.parse 10 [0x20, 7, 0x20, 0x10, 3, 1, 2, 3, 5, 6]).2.dataSize =
      [0x20, 7, 0x20, 0x10, 3, 1, 2, 3, 5, 6].getD 4 0 :=
  ⟨by decide, by decide, by decide,
    (parse_dataSize_is_size_byte message.empty 10 [0x20, 7, 0x20, 0x10, 3, 1, 2, 3, 5, 6]
      (by decide) (by decide) (by decide)).2.1⟩

/-! ## Duplicate filter (C6, C8) -/

/-- C6. For a history of at most 20 entries and a message with key
`sender * 256 + message_id`: `is_new_message` returns false and changes nothing when the
key is in the history; otherwise it returns true and the new history is the old one,
without its first entry when it already held 20, with the key appended.  The history
keeps at most 20 entries, and a history without repeated keys stays so. -/
theorem is_new_message_spec (c : connectivity_adapter) (msg : message)
    (hlen : c.previous_messages.length = 20) (hcount : c.previous_messages_count ≤ 20)
    (hs : msg.sender < 256) (hm : msg.message_id < 256) :
    (msg.sender * 256 + msg.message_id ∈ c.history → c.is_new_message msg = (false, c)) ∧
    (msg.sender * 256 + msg.message_id ∉ c.history →
      (c.is_new_message msg).1 = true ∧
      (c.is_new_message msg).2.history =
        (if c.history.length = 20 then c.history.drop 1 else c.history)
          ++ [msg.sender * 256 + msg.message_id]) ∧
    (c.is_new_message msg).2.previous_messages.length = 20 ∧
    (c.is_new_message msg).2.previous_messages_count ≤ 20 ∧
    (c.is_new_message msg).2.history.length ≤ 20 ∧
    (c.history.Nodup → (c.is_new_message msg).2.history.Nodup) := by
  have hkey := check_value_eq msg hs hm
  have hhl : c.history.length = c.previous_messages_count := by
    simp [connectivity_adapter.history, hlen, hcount]
  rw [← hkey, hhl]
  by_cases hin : check_value msg ∈ c.history
  · have hd := is_new_message_duplicate c msg (by omega) hin
    rw [hd]
    refine ⟨fun _ => rfl, fun h => absurd hin h, hlen, hcount, ?_, fun h => h⟩
    show c.history.length ≤ 20
    omega
  · obtain ⟨h1, h2, h3, h4, _, _⟩ := is_new_message_insert c msg hlen hcount hin
    have h5 : (c.is_new_message msg).2.previous_messages_count ≤ 20 := by
      rw [h4]; split <;> omega
    refine ⟨fun h => absurd h hin, fun _ => ⟨h1, h2⟩, h3, h5, ?_, ?_⟩
    · simp only [connectivity_adapter.history, List.length_take]; omega
    · intro hnd
      rw [h2]
      split
      · exact List.Nodup.append (hnd.sublist (List.drop_sublist 1 _)) (List.nodup_singleton _)
          (by
            simp only [List.disjoint_singleton]
            exact fun h => hin (List.mem_of_mem_drop h))
      · exact List.Nodup.append hnd (List.nodup_singleton _)
          (by simpa only [List.disjoint_singleton] using hin)

theorem is_new_message_spec_witness :
    sample_history.previous_messages.length = 20 ∧
    sample_history.previous_messages_count ≤ 20 ∧
    sample_frame.sender < 256 ∧ sample_frame.message_id < 256 ∧
    sample_frame.sender * 256 + sample_frame.message_id ∉ sample_history.history ∧
    (sample_history.is_new_message sample_frame).1 = true ∧
    (sample_history.is_new_message sample_frame).2.history =
      (if sample_history.history.length = 20 then sample_history.history.drop 1
        else sample_history.history)
        ++ [sample_frame.sender * 256 + sample_frame.message_id] :=
  ⟨by decide, by decide, by decide, by decide, by decide,
    (is_new_message_spec sample_history sample_frame (by decide) (by decide) (by decide)
      (by decide)).2.1 (by decide)⟩

/-- The rounds given to `forget_loop` by `forget_message_history_for` are enough: once
`previous_messages_count - i` rounds are available, further rounds change nothing, since
the loop test has failed by then. -/
theorem forget_loop_rounds (id : Nat) (rounds : Nat) :
    ∀ (i : Nat) (c : connectivity_adapter) (extra : Nat),
      c.previous_messages_count - i ≤ rounds →
      connectivity_adapter.forget_loop id (rounds + extra) i c =
        connectivity_adapter.forget_loop id rounds i c := by
  induction rounds with
  | zero =>
    intro i c extra h
    cases extra with
    | zero => rfl
    | succ k =>
      have hi : ¬ i < c.previous_messages_count := by omega
      simp [connectivity_adapter.forget_loop, hi]
  | succ n ih =>
    intro i c extra h
    rw [show n + 1 + extra = (n + extra) + 1 by omega]
    unfold connectivity_adapter.forget_loop
    by_cases hi : i < c.previous_messages_count
    · simp only [hi, if_true]
      apply ih
      split <;> (try simp only []) <;> omega
    · simp only [hi, if_false]

/-- C8 (code at the failing input). With the history `[0x0101, 0x0201, 0x0301]`,
`forget_message_history_for(1)` leaves `[0x0201, 0x0201]`: the entry of node 3 is lost and
the entry of node 2 is held twice, where removing the entries of node 1 would leave
`[0x0201, 0x0301]`.  With the history `[0x0101, 0x0102]` it leaves `[0x0102]`, and
`is_new_message` still returns false for message 2 of node 1. -/
theorem forget_message_history_for_failing_input :
    (sample_history.forget_message_history_for 1).history = [0x0201, 0x0201] ∧
    sample_history.history.filter (fun k => k >>> 8 ≠ 1) = [0x0201, 0x0301] ∧
    (sample_history_pair.forget_message_history_for 1).history = [0x0102] ∧
    ((sample_history_pair.forget_message_history_for 1).is_new_message
      { message.empty with sender := 1, message_id := 2 }).1 = false := by
  decide

/-! ## The radio during a send -/

theorem flush_frame (p : nrf_pipe) (r : nrf24l01plus) :
    (p.flush r).tx_log = r.tx_log ∧ (p.flush r).tx_results = r.tx_results ∧
    (p.flush r).rx_fifo = r.rx_fifo ∧ (p.flush r).mode = r.mode := by
  unfold nrf_pipe.flush
  cases p.connection_state <;>
    simp only [nrf24l01plus.rx_enabled, nrf24l01plus.rx_set_address,
      nrf24l01plus.tx_set_address] <;>
    (try split) <;> simp

theorem flush_tx_log (p : nrf_pipe) (r : nrf24l01plus) : (p.flush r).tx_log = r.tx_log :=
  (flush_frame p r).1

theorem flush_rx_fifo (p : nrf_pipe) (r : nrf24l01plus) : (p.flush r).rx_fifo = r.rx_fifo :=
  (flush_frame p r).2.2.1

theorem transmit_tx_log (r : nrf24l01plus) (data : List Nat) (n : Nat) (no_ack : Bool) :
    (r.transmit data n no_ack).2.tx_log =
      r.tx_log ++ [{ address := r.tx_address, data := data, n := n, no_ack := no_ack }] := by
  unfold nrf24l01plus.transmit
  cases r.tx_results <;> simp

theorem transmit_rx_fifo (r : nrf24l01plus) (data : List Nat) (n : Nat) (no_ack : Bool) :
    (r.transmit data n no_ack).2.rx_fifo = r.rx_fifo := by
  unfold nrf24l01plus.transmit
  cases r.tx_results <;> simp

theorem flush_tx_address (p : nrf_pipe) (r : nrf24l01plus) (h0 : p.pipe_number = 0)
    (hs : p.connection_state ≠ mesh_connection_state.DISCONNECTED) :
    (p.flush r).tx_address = p.nrf_address := by
  unfold nrf_pipe.flush
  cases hc : p.connection_state <;>
    simp [hc, h0, nrf24l01plus.rx_enabled, nrf24l01plus.rx_set_address,
      nrf24l01plus.tx_set_address] at hs ⊢

theorem send_message_spec (p : nrf_pipe) (all_pipes : List nrf_pipe) (r : nrf24l01plus)
    (n : Nat) (data : List Nat) :
    (p.send_message all_pipes r n data).2.1 = p ∧
    (p.send_message all_pipes r n data).2.2.rx_fifo = r.rx_fifo ∧
    ∃ rec : tx_record,
      (p.send_message all_pipes r n data).2.2.tx_log = r.tx_log ++ [rec] ∧
      rec.data = data ∧ rec.n = n % 256 ∧ rec.no_ack = (p.pipe_number == 0) ∧
      (p.pipe_number ≠ 0 → p.connection_state ≠ mesh_connection_state.DISCONNECTED →
        rec.address = p.nrf_address) := by
  unfold nrf_pipe.send_message
  by_cases h0 : p.pipe_number = 0
  · simp only [h0, ne_eq, not_true_eq_false, if_false]
    refine ⟨trivial, ?_, ?_⟩
    · simp only [transmit_rx_fifo]
    · simp only [transmit_tx_log]
      exact ⟨_, rfl, rfl, rfl, by simp, fun h => h.elim⟩
  · simp only [h0, ne_eq, not_false_eq_true, if_true]
    refine ⟨trivial, ?_, ?_⟩
    · simp only [flush_rx_fifo, transmit_rx_fifo]; rfl
    · simp only [flush_tx_log, transmit_tx_log]
      exact ⟨_, rfl, rfl, rfl, by simp [h0], fun _ hs => flush_tx_address _ _ rfl hs⟩

theorem set_getD_self (l : List nrf_pipe) (k : Nat) : l.set k (l.getD k default) = l := by
  induction l generalizing k with
  | nil => rfl
  | cons a l ih =>
    cases k with
    | zero => rfl
    | succ k => simpa using ih k

theorem send_implementation_spec (s : nrf) (id : Nat) (data : List Nat) (size : Nat)
    (hk : s.getPipeByNodeId id ≠ 6) :
    (s.send_implementation id data size).2.connections = s.connections ∧
    (s.send_implementation id data size).2.toconnectivity_adapter = s.toconnectivity_adapter ∧
    ∃ rec : tx_record,
      (s.send_implementation id data size).2.nrf24.tx_log = s.nrf24.tx_log ++ [rec] ∧
      sent_through (s.connections.getD (s.getPipeByNodeId id) default) data size rec := by
  unfold nrf.send_implementation
  simp only [hk, if_false]
  have h := send_message_spec (s.connections.getD (s.getPipeByNodeId id) default)
    s.connections s.nrf24 size data
  obtain ⟨h1, _, rec, h3, h4⟩ := h
  refine ⟨?_, trivial, rec, h3, h4⟩
  show s.connections.set _ _ = _
  rw [h1, set_getD_self]

theorem has_message_frame (s : nrf) :
    s.has_message.2.connections = s.connections ∧
    s.has_message.2.toconnectivity_adapter = s.toconnectivity_adapter ∧
    s.has_message.2.nrf24.tx_log = s.nrf24.tx_log :=
  ⟨rfl, rfl, rfl⟩

theorem getPipeByNodeId_congr (s t : nrf) (h : t.connections = s.connections) (id : Nat) :
    t.getPipeByNodeId id = s.getPipeByNodeId id := by
  unfold nrf.getPipeByNodeId
  rw [h]

theorem send_loop_spec (attempts : Nat) (s : nrf) (next_hop : Nat) (data : List Nat)
    (size : Nat) (hk : s.getPipeByNodeId next_hop ≠ 6) :
    (nrf.send_loop attempts s next_hop data size).2.connections = s.connections ∧
    (nrf.send_loop attempts s next_hop data size).2.toconnectivity_adapter =
      s.toconnectivity_adapter ∧
    ∃ recs : List tx_record,
      (nrf.send_loop attempts s next_hop data size).2.nrf24.tx_log = s.nrf24.tx_log ++ recs ∧
      (∀ rec ∈ recs,
        sent_through (s.connections.getD (s.getPipeByNodeId next_hop) default) data size rec) ∧
      recs.length ≤ attempts ∧ (0 < attempts → recs ≠ []) := by
  induction attempts generalizing s with
  | zero => exact ⟨rfl, rfl, [], by simp [nrf.send_loop], by simp, by simp, by simp⟩
  | succ n ih =>
    obtain ⟨hc, hb, rec, hl, hd⟩ := send_implementation_spec s next_hop data size hk
    unfold nrf.send_loop
    by_cases hs : (s.send_implementation next_hop data size).1 = true
    · rw [if_pos hs]
      exact ⟨hc, hb, [rec], hl, by simpa using hd, by simp, by simp⟩
    · rw [if_neg hs]
      have hf := has_message_frame (s.send_implementation next_hop data size).2
      have hk2 : (s.send_implementation next_hop data size).2.has_message.2.getPipeByNodeId
          next_hop ≠ 6 := by
        rw [getPipeByNodeId_congr s _ (by rw [hf.1, hc])]; exact hk
      obtain ⟨ic, ib, recs, il, id', ilen, _⟩ := ih _ hk2
      refine ⟨by rw [ic, hf.1, hc], by rw [ib, hf.2.1, hb], rec :: recs, ?_, ?_, ?_, by simp⟩
      · rw [il, hf.2.2, hl]; simp
      · intro r hr
        rcases List.mem_cons.mp hr with h | h
        · rw [h]; exact hd
        · have := id' r h
          rwa [getPipeByNodeId_congr s _ (by rw [hf.1, hc]), hf.1, hc] at this
      · simp; omega

/-! ## Reliable send (C9, C10) -/

theorem to_byte_array_header (m : message) (out : List Nat) (hout : m.size ≤ out.length)
    (j : Nat) (hj : j < 5) :
    (m.to_byte_array out).getD j 0 =
      [m.type, m.message_id, m.sender, m.receiver, m.dataSize].getD j 0 := by
  unfold message.size at hout
  unfold message.to_byte_array message.size
  simp only []
  rw [set_header out (by omega),
    foldl_set_range (fun i => m.data.getD i 0) 5 m.dataSize _ (by simp; omega)]
  simp only [List.getD_eq_getElem?_getD]
  rw [List.getElem?_set_ne (by omega), List.getElem?_set_ne (by omega), List.append_assoc,
    List.getElem?_append_left (by simp; omega)]
  simp

theorem connection_state_found (s : nrf) (id : Nat)
    (h : s.connection_state id ≠ mesh_connection_state.DISCONNECTED) :
    s.getPipeByNodeId id ≠ 6 ∧
    (s.connections.getD (s.getPipeByNodeId id) default).connection_state ≠
      mesh_connection_state.DISCONNECTED := by
  unfold nrf.connection_state at h
  by_cases hk : s.getPipeByNodeId id = 6
  · simp [hk] at h
  · simp only [hk, if_false] at h
    exact ⟨hk, h⟩

/-- The message and the adapter when `send` has passed its state check and is about to
encode: after `add_message_id` and `add_connection_data`. -/
theorem send_pass (s : nrf) (message : message) (next_hop : Nat)
    (h1 : s.connection_state (if next_hop = 0 then message.receiver else next_hop) ≠
      mesh_connection_state.DISCONNECTED)
    (h2 : ¬ (message.receiver ≠ 0 ∧
      s.connection_state (if next_hop = 0 then message.receiver else next_hop) ≠
        mesh_connection_state.ACCEPTED ∧
      message.type ≠ DISCOVERY.RESPOND ∧ message.type ≠ DISCOVERY.ACCEPT ∧
      message.type ≠ DISCOVERY.DENY)) :
    s.send message next_hop =
      ((nrf.send_loop 5 (s.add_message_id message).2
          (if next_hop = 0 then message.receiver else next_hop)
          (((s.add_message_id message).2.add_connection_data (s.add_message_id message).1
              (if next_hop = 0 then message.receiver else next_hop)).to_byte_array
            (List.replicate ((s.add_message_id message).2.add_connection_data
              (s.add_message_id message).1
              (if next_hop = 0 then message.receiver else next_hop)).size 0))
          ((s.add_message_id message).2.add_connection_data (s.add_message_id message).1
              (if next_hop = 0 then message.receiver else next_hop)).size).1,
       (s.add_message_id message).2.add_connection_data (s.add_message_id message).1
              (if next_hop = 0 then message.receiver else next_hop),
       (nrf.send_loop 5 (s.add_message_id message).2
          (if next_hop = 0 then message.receiver else next_hop)
          (((s.add_message_id message).2.add_connection_data (s.add_message_id message).1
              (if next_hop = 0 then message.receiver else next_hop)).to_byte_array
            (List.replicate ((s.add_message_id message).2.add_connection_data
              (s.add_message_id message).1
              (if next_hop = 0 then message.receiver else next_hop)).size 0))
          ((s.add_message_id message).2.add_connection_data (s.add_message_id message).1
              (if next_hop = 0 then message.receiver else next_hop)).size).2) := by
  unfold nrf.send
  simp only []
  rw [if_neg h1, if_neg h2]

theorem add_message_id_frame (s : nrf) (msg : message) :
    (s.add_message_id msg).2.connections = s.connections ∧
    (s.add_message_id msg).2.nrf24 = s.nrf24 ∧
    (s.add_message_id msg).2.id = s.id ∧
    (s.add_message_id msg).1.sender = msg.sender ∧
    (s.add_message_id msg).1.message_id =
      (if msg.sender = s.id ∧ msg.message_id = 0 then s.current_message_id
        else msg.message_id) := by
  unfold nrf.add_message_id connectivity_adapter.add_message_id
  split <;> simp

theorem add_connection_data_header (s : nrf) (msg : message) (next_hop : Nat) :
    (s.add_connection_data msg next_hop).sender = msg.sender ∧
    (s.add_connection_data msg next_hop).message_id = msg.message_id ∧
    (s.add_connection_data msg next_hop).type = msg.type ∧
    (s.add_connection_data msg next_hop).receiver = msg.receiver ∧
    (s.add_connection_data msg next_hop).dataSize = msg.dataSize ∧
    (s.add_connection_data msg next_hop).data = msg.data := by
  unfold nrf.add_connection_data
  split
  · simp
  · split <;> simp

/-- What `send` leaves in the radio log once its state check has passed: between one and
five records, each carrying the encoded message through the pipe of the hop. -/
theorem send_pass_log (s : nrf) (message : message) (next_hop : Nat)
    (h1 : s.connection_state (if next_hop = 0 then message.receiver else next_hop) ≠
      mesh_connection_state.DISCONNECTED)
    (h2 : ¬ (message.receiver ≠ 0 ∧
      s.connection_state (if next_hop = 0 then message.receiver else next_hop) ≠
        mesh_connection_state.ACCEPTED ∧
      message.type ≠ DISCOVERY.RESPOND ∧ message.type ≠ DISCOVERY.ACCEPT ∧
      message.type ≠ DISCOVERY.DENY)) :
    (s.send message next_hop).2.1.sender = message.sender ∧
    (s.send message next_hop).2.1.message_id =
      (if message.sender = s.id ∧ message.message_id = 0 then s.current_message_id
        else message.message_id) ∧
    ∃ recs : List tx_record, recs ≠ [] ∧ recs.length ≤ 5 ∧
      (s.send message next_hop).2.2.nrf24.tx_log = s.nrf24.tx_log ++ recs ∧
      ∀ rec ∈ recs,
        sent_through
          (s.connections.getD
            (s.getPipeByNodeId (if next_hop = 0 then message.receiver else next_hop)) default)
          ((s.send message next_hop).2.1.to_byte_array
            (List.replicate (s.send message next_hop).2.1.size 0))
          (s.send message next_hop).2.1.size rec := by
  rw [send_pass s message next_hop h1 h2]
  obtain ⟨hk, _⟩ := connection_state_found s _ h1
  obtain ⟨fc, fr, _, fs, fi⟩ := add_message_id_frame s message
  obtain ⟨ds, di, _⟩ := add_connection_data_header (s.add_message_id message).2
    (s.add_message_id message).1 (if next_hop = 0 then message.receiver else next_hop)
  have hk' : (s.add_message_id message).2.getPipeByNodeId
      (if next_hop = 0 then message.receiver else next_hop) ≠ 6 := by
    rw [getPipeByNodeId_congr s _ fc]; exact hk
  obtain ⟨_, _, recs, hl, hr, hlen, hne⟩ := send_loop_spec 5 (s.add_message_id message).2
    (if next_hop = 0 then message.receiver else next_hop)
    (((s.add_message_id message).2.add_connection_data (s.add_message_id message).1
        (if next_hop = 0 then message.receiver else next_hop)).to_byte_array
      (List.replicate ((s.add_message_id message).2.add_connection_data
        (s.add_message_id message).1
        (if next_hop = 0 then message.receiver else next_hop)).size 0))
    ((s.add_message_id message).2.add_connection_data (s.add_message_id message).1
        (if next_hop = 0 then message.receiver else next_hop)).size hk'
  refine ⟨by rw [ds, fs], by rw [di, fi], recs, hne (by norm_num), hlen, ?_, ?_⟩
  · rw [hl, fr]
  · intro rec hrec
    have := hr rec hrec
    rwa [getPipeByNodeId_congr s _ fc, fc] at this

/-- C10. With `hop = next_hop` if `next_hop ≠ 0`, else `message.receiver`, and
`st = connection_state(hop)`: when `st` is DISCONNECTED, or `message.receiver ≠ 0`, `st` is
not ACCEPTED and the type is none of RESPOND, ACCEPT, DENY, `send` returns false and the
message, the adapter (message-id counter included) and the radio are as before, nothing
having been transmitted; in every other case the radio log grows by at least one (and at
most five) transmissions of the encoded message through the pipe of `hop`: without
acknowledgement when that is pipe 0, else to the radio address of that pipe. -/
theorem send_state_check (s : nrf) (message : message) (next_hop hop : Nat)
    (st : mesh_connection_state)
    (hhop : hop = if next_hop ≠ 0 then next_hop else message.receiver)
    (hst : st = s.connection_state hop) :
    ((st = mesh_connection_state.DISCONNECTED ∨
        (message.receiver ≠ 0 ∧ st ≠ mesh_connection_state.ACCEPTED ∧
          message.type ≠ DISCOVERY.RESPOND ∧ message.type ≠ DISCOVERY.ACCEPT ∧
          message.type ≠ DISCOVERY.DENY)) →
      s.send message next_hop = (false, message, s)) ∧
    (¬ (st = mesh_connection_state.DISCONNECTED ∨
        (message.receiver ≠ 0 ∧ st ≠ mesh_connection_state.ACCEPTED ∧
          message.type ≠ DISCOVERY.RESPOND ∧ message.type ≠ DISCOVERY.ACCEPT ∧
          message.type ≠ DISCOVERY.DENY)) →
      ∃ recs : List tx_record, recs ≠ [] ∧ recs.length ≤ 5 ∧
        (s.send message next_hop).2.2.nrf24.tx_log = s.nrf24.tx_log ++ recs ∧
        ∀ rec ∈ recs,
          rec.data = (s.send message next_hop).2.1.to_byte_array
            (List.replicate (s.send message next_hop).2.1.size 0) ∧
          rec.n = (s.send message next_hop).2.1.size % 256 ∧
          rec.no_ack =
            ((s.connections.getD (s.getPipeByNodeId hop) default).pipe_number == 0) ∧
          ((s.connections.getD (s.getPipeByNodeId hop) default).pipe_number ≠ 0 →
            rec.address = (s.connections.getD (s.getPipeByNodeId hop) default).nrf_address))
    := by
  have hhop' : hop = if next_hop = 0 then message.receiver else next_hop := by
    rw [hhop]; by_cases h : next_hop = 0 <;> simp [h]
  subst hst
  rw [hhop']
  constructor
  · intro h
    unfold nrf.send
    simp only []
    rcases h with h | h
    · rw [if_pos h]
    · by_cases hd : s.connection_state (if next_hop = 0 then message.receiver else next_hop) =
          mesh_connection_state.DISCONNECTED
      · rw [if_pos hd]
      · rw [if_neg hd, if_pos h]
  · intro h
    have h1 : s.connection_state (if next_hop = 0 then message.receiver else next_hop) ≠
        mesh_connection_state.DISCONNECTED := fun hd => h (Or.inl hd)
    have h2 : ¬ (message.receiver ≠ 0 ∧
        s.connection_state (if next_hop = 0 then message.receiver else next_hop) ≠
          mesh_connection_state.ACCEPTED ∧
        message.type ≠ DISCOVERY.RESPOND ∧ message.type ≠ DISCOVERY.ACCEPT ∧
        message.type ≠ DISCOVERY.DENY) := fun hb => h (Or.inr hb)
    obtain ⟨_, _, recs, hne, hlen, hl, hr⟩ := send_pass_log s message next_hop h1 h2
    refine ⟨recs, hne, hlen, hl, ?_⟩
    intro rec hrec
    obtain ⟨r1, r2, r3, r4⟩ := hr rec hrec
    exact ⟨r1, r2, r3, fun hp => r4 hp (connection_state_found s _ h1).2⟩

theorem send_state_check_witness :
    (0 = if (0 : Nat) ≠ 0 then 0 else sample_present.receiver) ∧
    mesh_connection_state.ACCEPTED = sample_node.connection_state 0 ∧
    ∃ recs : List tx_record, recs ≠ [] ∧ recs.length ≤ 5 ∧
      (sample_node.send sample_present 0).2.2.nrf24.tx_log = sample_node.nrf24.tx_log ++ recs ∧
      ∀ rec ∈ recs,
        rec.data = (sample_node.send sample_present 0).2.1.to_byte_array
          (List.replicate (sample_node.send sample_present 0).2.1.size 0) ∧
        rec.n = (sample_node.send sample_present 0).2.1.size % 256 ∧
        rec.no_ack =
          ((sample_node.connections.getD (sample_node.getPipeByNodeId 0)
            default).pipe_number == 0) ∧
        ((sample_node.connections.getD (sample_node.getPipeByNodeId 0) default).pipe_number ≠ 0 →
          rec.address =
            (sample_node.connections.getD (sample_node.getPipeByNodeId 0) default).nrf_address) :=
  ⟨by decide, by decide,
    (send_state_check sample_node sample_present 0 0 mesh_connection_state.ACCEPTED
      (by decide) (by decide)).2 (by decide)⟩

/-- C9 (counterexample). On the freshly constructed adapter of node 0x10 the PRESENT
broadcast is sent successfully with `message_id = 0` in byte 1; and on the adapter linked
to node 0x20 a transit frame of node 0x30 is sent successfully with sender byte 0x30, not
the adapter's own id 0x10. -/
theorem send_frame_not_own_nonzero :
    ((sample_node.send sample_present 0).1 = true ∧
      (sample_node.send sample_present 0).2.2.nrf24.tx_log.map (fun r => r.data.getD 1 0) =
        sample_node.nrf24.tx_log.map (fun r => r.data.getD 1 0) ++ [0]) ∧
    ((sample_linked_network.connection.send sample_transit 0).1 = true ∧
      sample_linked_network.connection.id = 0x10 ∧
      (sample_linked_network.connection.send sample_transit 0).2.2.nrf24.tx_log.map
          (fun r => r.data.getD 2 0) =
        sample_linked_network.connection.nrf24.tx_log.map (fun r => r.data.getD 2 0)
          ++ [0x30]) := by
  decide

/-- C9 (amended). When `send` returns true, every frame it handed to the radio carries in
byte 2 the sender field of the message as passed in (so the adapter's own id exactly for
messages the node originated) and in byte 1 a non-zero message id whenever the message
came with a non-zero id, or came from this node without an id while the message-id counter
was non-zero. -/
theorem send_frame_header (s : nrf) (message : message) (next_hop : Nat)
    (hsent : (s.send message next_hop).1 = true) :
    ∃ recs : List tx_record, recs ≠ [] ∧
      (s.send message next_hop).2.2.nrf24.tx_log = s.nrf24.tx_log ++ recs ∧
      ∀ rec ∈ recs,
        rec.data.getD 2 0 = message.sender ∧
        (message.sender = s.id → rec.data.getD 2 0 = s.id) ∧
        (message.message_id ≠ 0 → rec.data.getD 1 0 = message.message_id) ∧
        (message.message_id ≠ 0 ∨ (message.sender = s.id ∧ s.current_message_id ≠ 0) →
          rec.data.getD 1 0 ≠ 0) := by
  by_cases h1 : s.connection_state (if next_hop = 0 then message.receiver else next_hop) =
      mesh_connection_state.DISCONNECTED
  · exfalso
    unfold nrf.send at hsent
    simp only [] at hsent
    rw [if_pos h1] at hsent
    exact Bool.false_ne_true hsent
  by_cases h2 : (message.receiver ≠ 0 ∧
      s.connection_state (if next_hop = 0 then message.receiver else next_hop) ≠
        mesh_connection_state.ACCEPTED ∧
      message.type ≠ DISCOVERY.RESPOND ∧ message.type ≠ DISCOVERY.ACCEPT ∧
      message.type ≠ DISCOVERY.DENY)
  · exfalso
    unfold nrf.send at hsent
    simp only [] at hsent
    rw [if_neg h1, if_pos h2] at hsent
    exact Bool.false_ne_true hsent
  obtain ⟨hs, hi, recs, hne, _, hl, hr⟩ := send_pass_log s message next_hop h1 h2
  refine ⟨recs, hne, hl, ?_⟩
  intro rec hrec
  obtain ⟨hd, _⟩ := hr rec hrec
  have hb2 := to_byte_array_header (s.send message next_hop).2.1
    (List.replicate (s.send message next_hop).2.1.size 0) (by simp) 2 (by norm_num)
  have hb1 := to_byte_array_header (s.send message next_hop).2.1
    (List.replicate (s.send message next_hop).2.1.size 0) (by simp) 1 (by norm_num)
  rw [← hd] at hb1 hb2
  have e2 : rec.data.getD 2 0 = message.sender := by rw [hb2]; simpa using hs
  have e1 : rec.data.getD 1 0 =
      (if message.sender = s.id ∧ message.message_id = 0 then s.current_message_id
        else message.message_id) := by rw [hb1]; simpa using hi
  refine ⟨e2, fun h => by rw [e2, h], ?_, ?_⟩
  · intro hm
    rw [e1, if_neg (fun h => hm h.2)]
  · intro h
    rw [e1]
    split
    · rename_i hc
      rcases h with h | h
      · exact absurd hc.2 h
      · exact h.2
    · rename_i hc
      rcases h with h | h
      · exact h
      · intro hz
        exact hc ⟨h.1, hz⟩

theorem send_frame_header_witness :
    (sample_linked_network.connection.send sample_transit 0).1 = true ∧
    ∃ recs : List tx_record, recs ≠ [] ∧
      (sample_linked_network.connection.send sample_transit 0).2.2.nrf24.tx_log =
        sample_linked_network.connection.nrf24.tx_log ++ recs ∧
      ∀ rec ∈ recs,
        rec.data.getD 2 0 = sample_transit.sender ∧
        (sample_transit.sender = sample_linked_network.connection.id →
          rec.data.getD 2 0 = sample_linked_network.connection.id) ∧
        (sample_transit.message_id ≠ 0 → rec.data.getD 1 0 = sample_transit.message_id) ∧
        (sample_transit.message_id ≠ 0 ∨
          (sample_transit.sender = sample_linked_network.connection.id ∧
            sample_linked_network.connection.current_message_id ≠ 0) →
          rec.data.getD 1 0 ≠ 0) :=
  ⟨by decide, send_frame_header sample_linked_network.connection sample_transit 0 (by decide)⟩

/-! ## Duplicate suppression in `check_new_messages` (C7) -/

theorem holds_recent_step (c : connectivity_adapter) (key a : Nat) (f : message)
    (h : c.holds_recent key a) (ha : (c.is_new_message f).1 = true → a < 19) :
    (c.is_new_message f).2.holds_recent key
      (a + if (c.is_new_message f).1 then 1 else 0) := by
  obtain ⟨hlen, hcount, pre, post, hh, hp⟩ := h
  by_cases hin : check_value f ∈ c.history
  · rw [is_new_message_duplicate c f (by omega) hin]
    exact ⟨hlen, hcount, pre, post, hh, by simpa using hp⟩
  · obtain ⟨h1, h2, h3, h4, _, _⟩ := is_new_message_insert c f hlen hcount hin
    have ha' := ha h1
    have hhl : c.history.length = c.previous_messages_count := by
      simp [connectivity_adapter.history, hlen, hcount]
    refine ⟨h3, by rw [h4]; split <;> omega, ?_⟩
    rw [h2, h1]
    by_cases h20 : c.previous_messages_count = 20
    · rw [if_pos h20]
      have hpl : pre.length + 1 + post.length = 20 := by
        have := congrArg List.length hh
        simp at this
        omega
      cases pre with
      | nil => simp at hpl; omega
      | cons x pre' =>
        refine ⟨pre', post ++ [check_value f], ?_, by simp; omega⟩
        rw [hh]; simp
    · rw [if_neg h20]
      refine ⟨pre, post ++ [check_value f], ?_, by simp; omega⟩
      rw [hh]; simp

theorem holds_recent_congr (c d : connectivity_adapter) (key a : Nat)
    (h1 : d.previous_messages = c.previous_messages)
    (h2 : d.previous_messages_count = c.previous_messages_count)
    (h : c.holds_recent key a) : d.holds_recent key a := by
  unfold connectivity_adapter.holds_recent connectivity_adapter.history at *
  rw [h1, h2]; exact h

theorem holds_recent_mem (c : connectivity_adapter) (key a : Nat) (h : c.holds_recent key a) :
    key ∈ c.history := by
  obtain ⟨_, _, pre, post, hh, _⟩ := h
  rw [hh]; simp

theorem holds_recent_process {ρ : Type} (R : router ρ) (key : Nat) (msgs : List message) :
    ∀ (r : mesh_network ρ × List message × Nat) (a : Nat),
      r.1.connection.toconnectivity_adapter.holds_recent key a →
      mesh_network.history_kept R r msgs →
      a + mesh_network.new_pairs R r msgs ≤ 19 →
      (mesh_network.process_messages R r msgs).1.connection.toconnectivity_adapter.holds_recent
        key (a + mesh_network.new_pairs R r msgs) := by
  induction msgs with
  | nil => intro r a h _ _; simpa [mesh_network.process_messages, mesh_network.new_pairs] using h
  | cons f rest ih =>
    intro r a h hk hn
    obtain ⟨k1, k2, k3⟩ := hk
    unfold mesh_network.new_pairs at hn ⊢
    unfold mesh_network.process_messages
    have hstep := holds_recent_step r.1.connection.toconnectivity_adapter key a f h
      (by
        intro hnew
        have : (r.1.connection.is_new_message f).1 = true := hnew
        rw [this] at hn
        simp at hn
        omega)
    have hstep' := holds_recent_congr _
      (mesh_network.check_new_messages_body R r.1 r.2.1
        r.2.2 f).1.connection.toconnectivity_adapter key _ k1 k2 hstep
    have := ih _ _ hstep' k3 (by
      have e : (r.1.connection.toconnectivity_adapter.is_new_message f).1 =
        (r.1.connection.is_new_message f).1 := rfl
      rw [e]; omega)
    have e : (r.1.connection.toconnectivity_adapter.is_new_message f).1 =
        (r.1.connection.is_new_message f).1 := rfl
    rw [e, Nat.add_assoc] at this
    exact this

theorem is_new_message_id (c : connectivity_adapter) (msg : message) :
    (c.is_new_message msg).2.id = c.id := by
  unfold connectivity_adapter.is_new_message
  split
  · rfl
  · simp only []
    split <;> rfl

theorem check_new_messages_body_duplicate {ρ : Type} (R : router ρ) (st : mesh_network ρ)
    (uncaught : List message) (index : Nat) (msg : message)
    (hcount : st.connection.previous_messages_count ≤ st.connection.previous_messages.length)
    (hold : check_value msg ∈ st.connection.history) :
    mesh_network.check_new_messages_body R st uncaught index msg = (st, uncaught, index) := by
  have hd := is_new_message_duplicate st.connection.toconnectivity_adapter msg hcount hold
  unfold mesh_network.check_new_messages_body nrf.is_new_message
  simp only [hd]
  rfl

theorem handleMessage_application {ρ : Type} (R : router ρ) (st : mesh_network ρ)
    (msg : message) (htype : msg.type = DOMOTICA.DATA) :
    st.handleMessage R msg = (false, msg, st) := by
  have h1 : ¬ (msg.type &&& 0x10) > 0 := by rw [htype]; decide
  have h2 : (msg.type &&& 0x20) > 0 := by rw [htype]; decide
  unfold mesh_network.handleMessage
  rw [if_neg h1]
  simp only []
  rw [if_pos h2]

theorem check_new_messages_body_application {ρ : Type} (R : router ρ) (st : mesh_network ρ)
    (uncaught : List message) (index : Nat) (msg : message)
    (hnew : (st.connection.is_new_message msg).1 = true)
    (htype : msg.type = DOMOTICA.DATA) (hrecv : msg.receiver = st.connection.id) :
    mesh_network.check_new_messages_body R st uncaught index msg =
      ({ st with connection := (st.connection.is_new_message msg).2 },
        uncaught.set index msg, (index + 1) % 256) := by
  have hid : (st.connection.is_new_message msg).2.id = st.connection.id :=
    is_new_message_id st.connection.toconnectivity_adapter msg
  unfold mesh_network.check_new_messages_body
  simp only [hnew, hrecv, hid, handleMessage_application R _ msg htype]
  simp

/-- C7 (counterexample). Node 0x10 receives from its neighbour 0x20 the application frame
7 (type 0x20, addressed to node 0x10), then a DENY, then frame 7 again: one other new
pair lies in between.  Handling the DENY calls `remove_direct_connection`, which forgets
the history of node 0x20, and `check_new_messages` places frame 7 in the `uncaught` array
twice (entries 2 and 3 of the four it returns). -/
theorem check_new_messages_surfaces_frame_twice :
    (mesh_network.check_new_messages router.base 7 sample_inbound_network
        (List.replicate 10 message.empty)).map (fun r => (r.1, r.2.1.drop 2 |>.take 2)) =
      some (4, [sample_frame_parsed, sample_frame_parsed]) := by
  decide

/-- C7 (amended). In a round of `check_new_messages`, a message whose pair
`(sender, message_id)` is in the duplicate history is dropped: nothing is handled,
forwarded, sent or stored, and the network is unchanged.  A new application frame (type
0x20) addressed to this node is stored in `uncaught[index]` and counted, as long as
`index < 10`; and when the same frame arrives again after rounds for messages `mid` that
brought fewer than 20 new pairs and in which no handler changed the history (no
`remove_direct_connection` forgot it), the second arrival is dropped, so the frame is in
the `uncaught` array exactly once. -/
theorem check_new_messages_duplicate_dropped {ρ : Type} (R : router ρ)
    (st : mesh_network ρ) (uncaught : List message) (index : Nat) (msg : message)
    (hlen : st.connection.previous_messages.length = 20)
    (hcount : st.connection.previous_messages_count ≤ 20) :
    (check_value msg ∈ st.connection.history →
      mesh_network.check_new_messages_body R st uncaught index msg = (st, uncaught, index)) ∧
    (check_value msg ∉ st.connection.history → msg.type = DOMOTICA.DATA →
      msg.receiver = st.connection.id → uncaught.length = 10 → index < 10 →
      (mesh_network.check_new_messages_body R st uncaught index msg).2.1 =
        uncaught.set index msg ∧
      (mesh_network.check_new_messages_body R st uncaught index msg).2.1[index]? = some msg ∧
      (mesh_network.check_new_messages_body R st uncaught index msg).2.2 = index + 1 ∧
      ∀ mid : List message,
        mesh_network.history_kept R
          (mesh_network.check_new_messages_body R st uncaught index msg) mid →
        mesh_network.new_pairs R
          (mesh_network.check_new_messages_body R st uncaught index msg) mid < 20 →
        mesh_network.check_new_messages_body R
          (mesh_network.process_messages R
            (mesh_network.check_new_messages_body R st uncaught index msg) mid).1
          (mesh_network.process_messages R
            (mesh_network.check_new_messages_body R st uncaught index msg) mid).2.1
          (mesh_network.process_messages R
            (mesh_network.check_new_messages_body R st uncaught index msg) mid).2.2 msg =
        mesh_network.process_messages R
          (mesh_network.check_new_messages_body R st uncaught index msg) mid) := by
  refine ⟨fun h => check_new_messages_body_duplicate R st uncaught index msg (by omega) h, ?_⟩
  intro hnew htype hrecv hul hidx
  obtain ⟨h1, h2, h3, h4, _, _⟩ :=
    is_new_message_insert st.connection.toconnectivity_adapter msg hlen hcount hnew
  have hb := check_new_messages_body_application R st uncaught index msg h1 htype hrecv
  rw [hb]
  refine ⟨rfl, ?_, Nat.mod_eq_of_lt (by omega), ?_⟩
  · show (uncaught.set index msg)[index]? = some msg
    rw [List.getElem?_set_self (by omega)]
  intro mid hk hn
  have h0 : (st.connection.is_new_message msg).2.toconnectivity_adapter.holds_recent
      (check_value msg) 0 :=
    ⟨h3, by
      show (st.connection.toconnectivity_adapter.is_new_message msg).2.previous_messages_count
        ≤ 20
      rw [h4]; split <;> omega, _, [], h2, by simp⟩
  have hr := holds_recent_process R (check_value msg) mid
    ({ st with connection := (st.connection.is_new_message msg).2 },
      uncaught.set index msg, (index + 1) % 256) 0 h0 hk (by omega)
  have hmem := holds_recent_mem _ _ _ hr
  obtain ⟨hl', hc', _⟩ := hr
  exact check_new_messages_body_duplicate R _ _ _ msg (by omega) hmem

theorem check_new_messages_duplicate_dropped_witness :
    sample_linked_network.connection.previous_messages.length = 20 ∧
    sample_linked_network.connection.previous_messages_count ≤ 20 ∧
    check_value sample_frame ∉ sample_linked_network.connection.history ∧
    sample_frame.type = DOMOTICA.DATA ∧
    sample_frame.receiver = sample_linked_network.connection.id ∧
    mesh_network.history_kept router.base
      (mesh_network.check_new_messages_body router.base sample_linked_network
        (List.replicate 10 message.empty) 0 sample_frame) [sample_frame_5, sample_frame_6] ∧
    mesh_network.new_pairs router.base
      (mesh_network.check_new_messages_body router.base sample_linked_network
        (List.replicate 10 message.empty) 0 sample_frame) [sample_frame_5, sample_frame_6]
      < 20 ∧
    mesh_network.check_new_messages_body router.base
      (mesh_network.process_messages router.base
        (mesh_network.check_new_messages_body router.base sample_linked_network
          (List.replicate 10 message.empty) 0 sample_frame)
        [sample_frame_5, sample_frame_6]).1
      (mesh_network.process_messages router.base
        (mesh_network.check_new_messages_body router.base sample_linked_network
          (List.replicate 10 message.empty) 0 sample_frame)
        [sample_frame_5, sample_frame_6]).2.1
      (mesh_network.process_messages router.base
        (mesh_network.check_new_messages_body router.base sample_linked_network
          (List.replicate 10 message.empty) 0 sample_frame)
        [sample_frame_5, sample_frame_6]).2.2 sample_frame =
    mesh_network.process_messages router.base
      (mesh_network.check_new_messages_body router.base sample_linked_network
        (List.replicate 10 message.empty) 0 sample_frame)
      [sample_frame_5, sample_frame_6] :=
  ⟨by decide, by decide, by decide, by decide, by decide, by decide, by decide,
    ((check_new_messages_duplicate_dropped router.base sample_linked_network
      (List.replicate 10 message.empty) 0 sample_frame (by decide) (by decide)).2
        (by decide) (by decide) (by decide) (by decide) (by decide)).2.2.2
        [sample_frame_5, sample_frame_6] (by decide) (by decide)⟩

/-! ## The listen address search of `start_waiting` -/

theorem listen_candidate_succ (b : List Nat) (hb : 5 ≤ b.length) (j : Nat) :
    listen_candidate (b.set 4 ((b.getD 4 0 + 2) % 256)) j = listen_candidate b (j + 1) := by
  unfold listen_candidate
  have h4 : (b.set 4 ((b.getD 4 0 + 2) % 256)).getD 4 0 = (b.getD 4 0 + 2) % 256 := by
    simp [List.getD_eq_getElem?_getD, List.getElem?_set_self (show 4 < b.length by omega)]
  rw [h4, List.set_set]
  congr 1
  omega

theorem listen_candidate_one (b : List Nat) :
    b.set 4 ((b.getD 4 0 + 2) % 256) = listen_candidate b 1 := rfl

/-- The search either ends on a candidate no pipe uses, or every candidate tried is in
use. -/
theorem next_listen_address_cases (connections : List nrf_pipe) :
    ∀ (rounds : Nat) (b : List Nat), 5 ≤ b.length →
      (¬ connections.any
          (fun p => p.nrf_address == nrf.next_listen_address connections (rounds + 1) b) = true ∧
        ∃ j, 1 ≤ j ∧ j ≤ rounds + 1 ∧
          nrf.next_listen_address connections (rounds + 1) b = listen_candidate b j) ∨
      (∀ j, 1 ≤ j → j ≤ rounds + 1 →
        connections.any (fun p => p.nrf_address == listen_candidate b j) = true) := by
  intro rounds
  induction rounds with
  | zero =>
    intro b _
    unfold nrf.next_listen_address
    simp only []
    by_cases hc : connections.any
        (fun p => p.nrf_address == b.set 4 ((b.getD 4 0 + 2) % 256)) = true
    · right
      intro j h1 h2
      have : j = 1 := by omega
      subst this
      exact hc
    · left
      rw [if_neg hc]
      exact ⟨hc, 1, by omega, by omega, rfl⟩
  | succ n ih =>
    intro b hb
    unfold nrf.next_listen_address
    simp only []
    by_cases hc : connections.any
        (fun p => p.nrf_address == b.set 4 ((b.getD 4 0 + 2) % 256)) = true
    · rw [if_pos hc]
      rcases ih (b.set 4 ((b.getD 4 0 + 2) % 256)) (by simpa using hb) with h | h
      · left
        obtain ⟨h1, j, hj1, hj2, hj3⟩ := h
        refine ⟨h1, j + 1, by omega, by omega, ?_⟩
        rw [hj3, listen_candidate_succ b hb]
      · right
        intro j h1 h2
        by_cases hj : j = 1
        · subst hj; exact hc
        · have := h (j - 1) (by omega) (by omega)
          rw [listen_candidate_succ b hb, show j - 1 + 1 = j by omega] at this
          exact this
    · left
      rw [if_neg hc]
      exact ⟨hc, 1, by omega, by omega, rfl⟩

/-- With fewer than 128 pipes (there are 6) the search of `start_waiting` ends within its
128 rounds on an address that no pipe uses. -/
theorem next_listen_address_free (connections : List nrf_pipe) (b : List Nat)
    (hb : 5 ≤ b.length) (hn : connections.length < 128) :
    ¬ connections.any
      (fun p => p.nrf_address == nrf.next_listen_address connections 128 b) = true := by
  rcases next_listen_address_cases connections 127 b hb with h | h
  · exact h.1
  · exfalso
    have hsub : (List.range 128).map (fun j => listen_candidate b (j + 1)) ⊆
        connections.map (fun p => p.nrf_address) := by
      intro a ha
      obtain ⟨j, hj, rfl⟩ := List.mem_map.mp ha
      have hj' : j < 128 := List.mem_range.mp hj
      have := h (j + 1) (by omega) (by omega)
      obtain ⟨p, hp, he⟩ := List.any_eq_true.mp this
      exact List.mem_map.mpr ⟨p, hp, by simpa using he⟩
    have hnd : ((List.range 128).map (fun j => listen_candidate b (j + 1))).Nodup := by
      apply List.Nodup.map_on _ (List.nodup_range 128)
      intro i hi j hj he
      have hi' : i < 128 := List.mem_range.mp hi
      have hj' : j < 128 := List.mem_range.mp hj
      have hg := congrArg (fun l => l.getD 4 0) he
      simp only [listen_candidate, List.getD_eq_getElem?_getD,
        List.getElem?_set_self (show 4 < b.length by omega), Option.getD_some] at hg
      omega
    have hle := (hnd.subperm hsub).length_le
    simp at hle
    omega

/-! ## The retry loop of `send` (C11) -/

theorem send_loop_attempts (attempts : Nat) (s : nrf) (next_hop : Nat) (data : List Nat)
    (size : Nat) (hk : s.getPipeByNodeId next_hop ≠ 6) :
    ∃ k, k ≤ attempts ∧ (0 < attempts → 1 ≤ k) ∧
      (∀ j, j + 1 < k → (s.attempt next_hop data size j).1 = false) ∧
      (0 < attempts →
        (nrf.send_loop attempts s next_hop data size).1 =
          (s.attempt next_hop data size (k - 1)).1) ∧
      ((nrf.send_loop attempts s next_hop data size).1 = false → k = attempts) ∧
      (nrf.send_loop attempts s next_hop data size).2 =
        (if (nrf.send_loop attempts s next_hop data size).1
          then (s.attempt next_hop data size (k - 1)).2
          else nrf.before_attempt next_hop data size attempts s) ∧
      ∃ recs : List tx_record, recs.length = k ∧
        (nrf.send_loop attempts s next_hop data size).2.nrf24.tx_log = s.nrf24.tx_log ++ recs ∧
        ∀ rec ∈ recs, rec.data = data ∧ rec.n = size % 256 := by
  induction attempts generalizing s with
  | zero =>
    exact ⟨0, Nat.le_refl _, fun h => absurd h (by decide), fun j hj => absurd hj (by omega),
      fun h => absurd h (by decide), fun _ => rfl, by simp [nrf.send_loop, nrf.before_attempt],
      [], rfl, by simp [nrf.send_loop], by simp⟩
  | succ n ih =>
    obtain ⟨hc, _, rec, hl, hd⟩ := send_implementation_spec s next_hop data size hk
    by_cases hs : (s.send_implementation next_hop data size).1 = true
    · have e : nrf.send_loop (n + 1) s next_hop data size =
          (true, (s.send_implementation next_hop data size).2) := by
        rw [nrf.send_loop, if_pos hs]
      rw [e]
      refine ⟨1, by omega, fun _ => Nat.le_refl _, fun j hj => absurd hj (by omega),
        fun _ => ?_, fun h => absurd h (by simp), ?_, [rec], rfl, hl, ?_⟩
      · simp only [nrf.attempt, nrf.before_attempt]; exact hs.symm
      · simp only [nrf.attempt, nrf.before_attempt, if_true]
      · intro r hr
        rw [List.mem_singleton.mp hr]; exact ⟨hd.1, hd.2.1⟩
    · have hf := has_message_frame (s.send_implementation next_hop data size).2
      have hk2 : (s.send_implementation next_hop data size).2.has_message.2.getPipeByNodeId
          next_hop ≠ 6 := by
        rw [getPipeByNodeId_congr s _ (by rw [hf.1, hc])]; exact hk
      have e : nrf.send_loop (n + 1) s next_hop data size =
          nrf.send_loop n (s.send_implementation next_hop data size).2.has_message.2
            next_hop data size := by
        rw [nrf.send_loop, if_neg hs]
      have ea : ∀ j, s.attempt next_hop data size (j + 1) =
          (s.send_implementation next_hop data size).2.has_message.2.attempt next_hop data
            size j := fun j => rfl
      obtain ⟨k, k1, k2, k3, k4, k5, k6, recs, r1, r2, r3⟩ := ih _ hk2
      rw [e]
      have hs' : (s.send_implementation next_hop data size).1 = false := by
        simpa using hs
      cases n with
      | zero =>
        have k0 : k = 0 := by omega
        subst k0
        refine ⟨1, by omega, fun _ => Nat.le_refl _, fun j hj => absurd hj (by omega),
          fun _ => ?_, fun _ => rfl, ?_, [rec], rfl, ?_, ?_⟩
        · simp only [nrf.send_loop, nrf.attempt, nrf.before_attempt]; exact hs'.symm
        · simp [nrf.send_loop, nrf.before_attempt]
        · simp only [nrf.send_loop]; rw [hf.2.2, hl]
        · intro r hr
          rw [List.mem_singleton.mp hr]; exact ⟨hd.1, hd.2.1⟩
      | succ m =>
        have kp := k2 (by omega)
        refine ⟨k + 1, by omega, fun _ => by omega, ?_, fun _ => ?_, fun h => ?_, ?_,
          rec :: recs, by simp [r1], ?_, ?_⟩
        · intro j hj
          cases j with
          | zero => simpa [nrf.attempt, nrf.before_attempt] using hs'
          | succ j => rw [ea]; exact k3 j (by omega)
        · rw [k4 (by omega)]
          have : k + 1 - 1 = (k - 1) + 1 := by omega
          rw [this, ea]
        · rw [k5 h]
        · rw [k6]
          have : k + 1 - 1 = (k - 1) + 1 := by omega
          rw [this, ea]
          rfl
        · rw [r2, hf.2.2, hl]; simp
        · intro r hr
          rcases List.mem_cons.mp hr with h | h
          · rw [h]; exact ⟨hd.1, hd.2.1⟩
          · exact r3 r h

/-- C11. When the state check of `send` passes (the state of the hop is not DISCONNECTED
and the second test does not refuse the message), `send` makes `k` calls of
`send_implementation`, `1 ≤ k ≤ 5`, all with the hop and the encoded bytes of the message
as `send` leaves it: every call before the last reports failure, the result of `send` is
the result of the last call, so `send` returns true exactly when one of the `k` calls
succeeded, a false result means that all 5 calls were made, and the radio log grows by
exactly `k` records holding those bytes. -/
theorem send_retries (s : nrf) (message : message) (next_hop hop : Nat) (m : mesh.message)
    (bytes : List Nat)
    (hhop : hop = if next_hop = 0 then message.receiver else next_hop)
    (hm : m = (s.send message next_hop).2.1)
    (hbytes : bytes = m.to_byte_array (List.replicate m.size 0))
    (h1 : s.connection_state hop ≠ mesh_connection_state.DISCONNECTED)
    (h2 : ¬ (message.receiver ≠ 0 ∧ s.connection_state hop ≠ mesh_connection_state.ACCEPTED ∧
      message.type ≠ DISCOVERY.RESPOND ∧ message.type ≠ DISCOVERY.ACCEPT ∧
      message.type ≠ DISCOVERY.DENY)) :
    ∃ k, 1 ≤ k ∧ k ≤ 5 ∧
      (∀ j, j + 1 < k →
        ((s.add_message_id message).2.attempt hop bytes m.size j).1 = false) ∧
      (s.send message next_hop).1 =
        ((s.add_message_id message).2.attempt hop bytes m.size (k - 1)).1 ∧
      ((s.send message next_hop).1 = true ↔
        ∃ j, j < k ∧ ((s.add_message_id message).2.attempt hop bytes m.size j).1 = true) ∧
      ((s.send message next_hop).1 = false → k = 5) ∧
      (s.send message next_hop).2.2 =
        (if (s.send message next_hop).1
          then ((s.add_message_id message).2.attempt hop bytes m.size (k - 1)).2
          else nrf.before_attempt hop bytes m.size 5 (s.add_message_id message).2) ∧
      ∃ recs : List tx_record, recs.length = k ∧
        (s.send message next_hop).2.2.nrf24.tx_log = s.nrf24.tx_log ++ recs ∧
        ∀ rec ∈ recs, rec.data = bytes ∧ rec.n = m.size % 256 := by
  subst hhop
  have hp := send_pass s message next_hop h1 h2
  obtain ⟨hk, _⟩ := connection_state_found s _ h1
  obtain ⟨fc, fr, _, _, _⟩ := add_message_id_frame s message
  have hk' : (s.add_message_id message).2.getPipeByNodeId
      (if next_hop = 0 then message.receiver else next_hop) ≠ 6 := by
    rw [getPipeByNodeId_congr s _ fc]; exact hk
  have hm' : m = (s.add_message_id message).2.add_connection_data (s.add_message_id message).1
      (if next_hop = 0 then message.receiver else next_hop) := by
    rw [hm, hp]
  subst hbytes
  obtain ⟨k, k1, k2, k3, k4, k5, k6, recs, r1, r2, r3⟩ :=
    send_loop_attempts 5 (s.add_message_id message).2
      (if next_hop = 0 then message.receiver else next_hop)
      (m.to_byte_array (List.replicate m.size 0)) m.size hk'
  have e1 : (s.send message next_hop).1 =
      (nrf.send_loop 5 (s.add_message_id message).2
        (if next_hop = 0 then message.receiver else next_hop)
        (m.to_byte_array (List.replicate m.size 0)) m.size).1 := by
    rw [hp, hm']
  have e2 : (s.send message next_hop).2.2 =
      (nrf.send_loop 5 (s.add_message_id message).2
        (if next_hop = 0 then message.receiver else next_hop)
        (m.to_byte_array (List.replicate m.size 0)) m.size).2 := by
    rw [hp, hm']
  rw [e1, e2]
  have kp := k2 (by norm_num)
  refine ⟨k, kp, k1, k3, k4 (by norm_num), ?_, k5, k6, recs, r1, ?_, r3⟩
  · rw [k4 (by norm_num)]
    constructor
    · intro h
      exact ⟨k - 1, by omega, h⟩
    · rintro ⟨j, hj, ht⟩
      by_cases hjk : j + 1 < k
      · rw [k3 j hjk] at ht
        exact absurd ht (by decide)
      · have : j = k - 1 := by omega
        rw [← this]; exact ht
  · rw [r2, fr]

theorem send_retries_witness :
    (0 = if (0 : Nat) = 0 then sample_present.receiver else 0) ∧
    ∃ k, 1 ≤ k ∧ k ≤ 5 ∧
      (∀ j, j + 1 < k →
        (((nrf.init 0x10 sample_lossy_radio).add_message_id sample_present).2.attempt 0
          (((nrf.init 0x10 sample_lossy_radio).send sample_present 0).2.1.to_byte_array
            (List.replicate ((nrf.init 0x10 sample_lossy_radio).send sample_present 0).2.1.size
              0))
          ((nrf.init 0x10 sample_lossy_radio).send sample_present 0).2.1.size j).1 = false) ∧
      ((nrf.init 0x10 sample_lossy_radio).send sample_present 0).1 =
        (((nrf.init 0x10 sample_lossy_radio).add_message_id sample_present).2.attempt 0
          (((nrf.init 0x10 sample_lossy_radio).send sample_present 0).2.1.to_byte_array
            (List.replicate ((nrf.init 0x10 sample_lossy_radio).send sample_present 0).2.1.size
              0))
          ((nrf.init 0x10 sample_lossy_radio).send sample_present 0).2.1.size (k - 1)).1 :=
  ⟨by decide,
    (send_retries (nrf.init 0x10 sample_lossy_radio) sample_present 0 0 _ _ (by decide) rfl rfl
      (by decide) (by decide)).imp (fun _ h => ⟨h.1, h.2.1, h.2.2.1, h.2.2.2.1⟩)⟩

/-! ## Pipe lookups -/

theorem find_range_from_spec (p : Nat → Bool) (n a : Nat) :
    ((List.range' a n).find? p = none ∧ ∀ i, a ≤ i → i < a + n → p i = false) ∨
    ∃ k, (List.range' a n).find? p = some k ∧ a ≤ k ∧ k < a + n ∧ p k = true ∧
      ∀ i, a ≤ i → i < k → p i = false := by
  induction n generalizing a with
  | zero =>
    left
    exact ⟨rfl, fun i h1 h2 => absurd h2 (by omega)⟩
  | succ n ih =>
    rw [List.range'_succ, List.find?_cons]
    cases hp : p a with
    | true =>
      right
      exact ⟨a, rfl, Nat.le_refl _, by omega, hp, fun i h1 h2 => absurd h2 (by omega)⟩
    | false =>
      rcases ih (a + 1) with ⟨h1, h2⟩ | ⟨k, h1, h2, h3, h4, h5⟩
      · left
        refine ⟨h1, fun i hi1 hi2 => ?_⟩
        by_cases e : i = a
        · rw [e]; exact hp
        · exact h2 i (by omega) (by omega)
      · right
        refine ⟨k, h1, by omega, by omega, h4, fun i hi1 hi2 => ?_⟩
        by_cases e : i = a
        · rw [e]; exact hp
        · exact h5 i (by omega) hi2

theorem find_range_spec (p : Nat → Bool) (n : Nat) :
    ((List.range n).find? p = none ∧ ∀ i, i < n → p i = false) ∨
    ∃ k, (List.range n).find? p = some k ∧ k < n ∧ p k = true ∧ ∀ i, i < k → p i = false := by
  rw [List.range_eq_range']
  rcases find_range_from_spec p n 0 with ⟨h1, h2⟩ | ⟨k, h1, _, h3, h4, h5⟩
  · left
    exact ⟨h1, fun i hi => h2 i (Nat.zero_le _) (by omega)⟩
  · right
    exact ⟨k, h1, by omega, h4, fun i hi => h5 i (Nat.zero_le _) hi⟩

/-- The pipe lookups of the adapter: the lowest index below 6 with the property, or 6. -/
theorem lookup_spec (p : Nat → Bool) :
    (((List.range 6).find? p).getD 6 = 6 ∧ ∀ i, i < 6 → p i = false) ∨
    (((List.range 6).find? p).getD 6 < 6 ∧ p (((List.range 6).find? p).getD 6) = true ∧
      ∀ i, i < ((List.range 6).find? p).getD 6 → p i = false) := by
  rcases find_range_spec p 6 with ⟨h1, h2⟩ | ⟨k, h1, h2, h3, h4⟩
  · left
    rw [h1]; exact ⟨rfl, h2⟩
  · right
    rw [h1]; exact ⟨h2, h3, h4⟩

theorem getFirstFreePipe_spec (s : nrf) :
    (s.getFirstFreePipe = 6 ∧ ∀ i, i < 6 →
      (s.connections.getD i default).connection_state ≠ mesh_connection_state.DISCONNECTED) ∨
    (s.getFirstFreePipe < 6 ∧
      (s.connections.getD s.getFirstFreePipe default).connection_state =
        mesh_connection_state.DISCONNECTED ∧
      ∀ i, i < s.getFirstFreePipe →
        (s.connections.getD i default).connection_state ≠
          mesh_connection_state.DISCONNECTED) := by
  unfold nrf.getFirstFreePipe
  rcases lookup_spec (fun i => (s.connections.getD i default).connection_state ==
    mesh_connection_state.DISCONNECTED) with ⟨h1, h2⟩ | ⟨h1, h2, h3⟩
  · left
    exact ⟨h1, fun i hi => by simpa using h2 i hi⟩
  · right
    exact ⟨h1, by simpa using h2, fun i hi => by simpa using h3 i hi⟩

theorem getPipeByNodeId_spec (s : nrf) (id : Nat) :
    (s.getPipeByNodeId id = 6 ∧ ∀ i, i < 6 →
      (s.connections.getD i default).connected_node ≠ id) ∨
    (s.getPipeByNodeId id < 6 ∧
      (s.connections.getD (s.getPipeByNodeId id) default).connected_node = id ∧
      ∀ i, i < s.getPipeByNodeId id → (s.connections.getD i default).connected_node ≠ id) := by
  unfold nrf.getPipeByNodeId
  rcases lookup_spec (fun i => (s.connections.getD i default).connected_node == id)
    with ⟨h1, h2⟩ | ⟨h1, h2, h3⟩
  · left
    exact ⟨h1, fun i hi => by simpa using h2 i hi⟩
  · right
    exact ⟨h1, by simpa using h2, fun i hi => by simpa using h3 i hi⟩

theorem getPipeByNRFAddress_spec (s : nrf) (a : Nat) :
    (s.getPipeByNRFAddress a = 6 ∧ ∀ i, i < 6 →
      (s.connections.getD i default).nrf_address.getD 4 0 ≠ a) ∨
    (s.getPipeByNRFAddress a < 6 ∧
      (s.connections.getD (s.getPipeByNRFAddress a) default).nrf_address.getD 4 0 = a ∧
      ∀ i, i < s.getPipeByNRFAddress a →
        (s.connections.getD i default).nrf_address.getD 4 0 ≠ a) := by
  unfold nrf.getPipeByNRFAddress
  rcases lookup_spec (fun i => (s.connections.getD i default).nrf_address.getD 4 0 == a)
    with ⟨h1, h2⟩ | ⟨h1, h2, h3⟩
  · left
    exact ⟨h1, fun i hi => by simpa using h2 i hi⟩
  · right
    exact ⟨h1, by simpa using h2, fun i hi => by simpa using h3 i hi⟩

/-! ## `discovery_present_received` (C16) -/

/-- C16. For every adapter (six pipes) and message `origin`, `discovery_present_received`
returns true exactly when some pipe is DISCONNECTED.  When it returns true, the pipe array
is the old one with the lowest-index DISCONNECTED pipe `k` replaced: connected node
`origin.sender`, address the base prefix 0x72 0x72 0x72 0x72 followed by
`origin.connectionData[0]`, state RESPONDED, so every other pipe is as before and pipe `k`
did change.  When it returns false, nothing changed. -/
theorem discovery_present_received_spec (s : nrf) (origin : message)
    (hlen : s.connections.length = 6) :
    ((s.discovery_present_received origin).1 = true ↔
      ∃ i, i < 6 ∧ (s.connections.getD i default).connection_state =
        mesh_connection_state.DISCONNECTED) ∧
    ((s.discovery_present_received origin).1 = true →
      ∃ k, k < 6 ∧
        (s.connections.getD k default).connection_state = mesh_connection_state.DISCONNECTED ∧
        (∀ i, i < k → (s.connections.getD i default).connection_state ≠
          mesh_connection_state.DISCONNECTED) ∧
        (s.discovery_present_received origin).2.connections =
          s.connections.set k
            { connection_state := mesh_connection_state.RESPONDED,
              pipe_number := (s.connections.getD k default).pipe_number,
              connected_node := origin.sender,
              nrf_address := [0x72, 0x72, 0x72, 0x72, origin.connectionData.getD 0 0] } ∧
        (∀ i, i ≠ k → (s.discovery_present_received origin).2.connections.getD i default =
          s.connections.getD i default) ∧
        (s.discovery_present_received origin).2.connections.getD k default ≠
          s.connections.getD k default) ∧
    ((s.discovery_present_received origin).1 = false →
      (s.discovery_present_received origin).2 = s) := by
  unfold nrf.discovery_present_received
  simp only []
  rcases getFirstFreePipe_spec s with ⟨h1, h2⟩ | ⟨h1, h2, h3⟩
  · rw [if_pos h1]
    refine ⟨⟨fun h => absurd h (by simp), fun ⟨i, hi, hd⟩ => absurd hd (h2 i hi)⟩,
      fun h => absurd h (by simp), fun _ => rfl⟩
  · rw [if_neg (by omega)]
    refine ⟨⟨fun _ => ⟨_, h1, h2⟩, fun _ => rfl⟩, fun _ => ⟨_, h1, h2, h3, rfl, ?_, ?_⟩,
      fun h => absurd h (by simp)⟩
    · intro i hi
      simp only [List.getD_eq_getElem?_getD]
      rw [List.getElem?_set_ne (Ne.symm hi)]
    · simp only [List.getD_eq_getElem?_getD]
      rw [List.getElem?_set_self (by omega)]
      intro h
      have := congrArg nrf_pipe.connection_state h
      simp only [List.getD_eq_getElem?_getD] at h2
      simp [h2] at this

theorem discovery_present_received_spec_witness :
    sample_node.connections.length = 6 ∧
    ((sample_node.discovery_present_received sample_present).1 = true ↔
      ∃ i, i < 6 ∧ (sample_node.connections.getD i default).connection_state =
        mesh_connection_state.DISCONNECTED) :=
  ⟨by decide, (discovery_present_received_spec sample_node sample_present (by decide)).1⟩

/-! ## The pipe invariant (C14) -/

theorem getD_set_pipe (c : List nrf_pipe) (k : Nat) (p : nrf_pipe) (i : Nat) :
    (c.set k p).getD i default = if i = k ∧ k < c.length then p else c.getD i default := by
  simp only [List.getD_eq_getElem?_getD]
  by_cases h : i = k
  · subst h
    by_cases hk : i < c.length
    · rw [List.getElem?_set_self hk, if_pos ⟨rfl, hk⟩]; rfl
    · rw [if_neg (fun h => hk h.2), List.getElem?_eq_none (by simp; omega),
        List.getElem?_eq_none (by omega)]
  · rw [if_neg (fun hh => h hh.1), List.getElem?_set_ne (Ne.symm h)]

theorem pipes_inv_set (c : List nrf_pipe) (k : Nat) (p : nrf_pipe) (h : pipes_inv c)
    (hp : p.connection_state ≠ mesh_connection_state.WAITING)
    (h0 : k = 0 → p.connection_state = mesh_connection_state.ACCEPTED ∧ p.connected_node = 0) :
    pipes_inv (c.set k p) := by
  obtain ⟨hlen, hs, hn, hw⟩ := h
  refine ⟨by simp [hlen], ?_, ?_, ?_⟩
  · rw [getD_set_pipe]
    split
    · rename_i hh; exact (h0 hh.1.symm).1
    · exact hs
  · rw [getD_set_pipe]
    split
    · rename_i hh; exact (h0 hh.1.symm).2
    · exact hn
  · intro i hi j hj
    rw [getD_set_pipe, getD_set_pipe]
    split
    · intro hh; exact absurd hh hp
    · split
      · intro _ hh; exact absurd hh hp
      · exact hw i hi j hj

theorem pipes_inv_set_waiting (c : List nrf_pipe) (k : Nat) (p : nrf_pipe) (h : pipes_inv c)
    (hk : k ≠ 0)
    (hnw : ∀ j, 1 ≤ j → j < 6 →
      (c.getD j default).connection_state ≠ mesh_connection_state.WAITING) :
    pipes_inv (c.set k p) := by
  obtain ⟨hlen, hs, hn, hw⟩ := h
  have old : ∀ j, j < 6 →
      (c.getD j default).connection_state ≠ mesh_connection_state.WAITING := by
    intro j hj
    by_cases e : j = 0
    · rw [e, hs]; decide
    · exact hnw j (by omega) hj
  refine ⟨by simp [hlen], ?_, ?_, ?_⟩
  · rw [getD_set_pipe, if_neg (fun hh => hk hh.1.symm)]; exact hs
  · rw [getD_set_pipe, if_neg (fun hh => hk hh.1.symm)]; exact hn
  · intro i hi j hj
    rw [getD_set_pipe, getD_set_pipe]
    split
    · rename_i hi'
      split
      · rename_i hj'
        intro _ _; rw [hi'.1, hj'.1]
      · intro _ hh; exact absurd hh (old j hj)
    · intro hh; exact absurd hh (old i hi)

/-- The three ways `start_waiting` ends: a pipe is WAITING already, no pipe is
DISCONNECTED, or the lowest-index DISCONNECTED pipe becomes the listen pipe. -/
theorem start_waiting_cases (s : nrf) :
    ((∃ j, 1 ≤ j ∧ j < 6 ∧
        (s.connections.getD j default).connection_state = mesh_connection_state.WAITING) ∧
      s.start_waiting = s) ∨
    ((∀ j, 1 ≤ j → j < 6 →
        (s.connections.getD j default).connection_state ≠ mesh_connection_state.WAITING) ∧
      (∀ j, j < s.connections.length →
        (s.connections.getD j default).connection_state ≠
          mesh_connection_state.DISCONNECTED) ∧
      s.start_waiting = s) ∨
    ((∀ j, 1 ≤ j → j < 6 →
        (s.connections.getD j default).connection_state ≠ mesh_connection_state.WAITING) ∧
      ∃ i, i < s.connections.length ∧
        (s.connections.getD i default).connection_state =
          mesh_connection_state.DISCONNECTED ∧
        (∀ j, j < i → (s.connections.getD j default).connection_state ≠
          mesh_connection_state.DISCONNECTED) ∧
        s.start_waiting.connections = s.connections.set i
          { connection_state := mesh_connection_state.WAITING,
            pipe_number := (s.connections.getD i default).pipe_number,
            connected_node := s.id,
            nrf_address :=
              nrf.next_listen_address s.connections 128 (address_with base_address s.id) } ∧
        s.start_waiting.toconnectivity_adapter = s.toconnectivity_adapter ∧
        s.start_waiting.nrf24.tx_log = s.nrf24.tx_log ∧
        s.start_waiting.nrf24.tx_results = s.nrf24.tx_results) := by
  unfold nrf.start_waiting
  by_cases hw : (List.range' 1 5).any (fun i =>
      (s.connections.getD i default).connection_state == mesh_connection_state.WAITING) = true
  · left
    rw [if_pos hw]
    refine ⟨?_, rfl⟩
    rw [List.any_eq_true] at hw
    obtain ⟨j, hj, hs⟩ := hw
    rw [List.mem_range'_1] at hj
    exact ⟨j, hj.1, by omega, by simpa using hs⟩
  · right
    rw [if_neg hw]
    have hnw : ∀ j, 1 ≤ j → j < 6 →
        (s.connections.getD j default).connection_state ≠ mesh_connection_state.WAITING := by
      intro j h1 h6 hs
      apply hw
      rw [List.any_eq_true]
      exact ⟨j, by rw [List.mem_range'_1]; omega, by simpa using hs⟩
    rcases find_range_spec (fun i => (s.connections.getD i default).connection_state ==
      mesh_connection_state.DISCONNECTED) s.connections.length with ⟨h1, h2⟩ | ⟨i, h1, h2, h3, h4⟩
    · left
      rw [h1]
      exact ⟨hnw, fun j hj => by simpa using h2 j hj, rfl⟩
    · right
      rw [h1]
      refine ⟨hnw, i, h2, by simpa using h3, fun j hj => by simpa using h4 j hj, rfl, rfl, ?_, ?_⟩
      · exact flush_tx_log _ _
      · exact (flush_frame _ _).2.1

theorem start_waiting_frame (s : nrf) :
    s.start_waiting.toconnectivity_adapter = s.toconnectivity_adapter ∧
    s.start_waiting.connections.length = s.connections.length := by
  rcases start_waiting_cases s with ⟨_, h⟩ | ⟨_, _, h⟩ | ⟨_, i, _, _, _, hc, ha, _⟩
  · rw [h]; exact ⟨rfl, rfl⟩
  · rw [h]; exact ⟨rfl, rfl⟩
  · rw [hc]; exact ⟨ha, by simp⟩

theorem start_waiting_id (s : nrf) : s.start_waiting.id = s.id :=
  congrArg connectivity_adapter.id (start_waiting_frame s).1

theorem start_waiting_inv (s : nrf) (h : pipes_inv s.connections) :
    pipes_inv s.start_waiting.connections := by
  rcases start_waiting_cases s with ⟨_, e⟩ | ⟨_, _, e⟩ | ⟨hnw, i, _, hd, _, hc, _⟩
  · rw [e]; exact h
  · rw [e]; exact h
  · rw [hc]
    apply pipes_inv_set_waiting _ _ _ h _ hnw
    intro e
    rw [e, h.2.1] at hd
    exact absurd hd (by decide)

theorem forget_loop_id (id rounds i : Nat) (c : connectivity_adapter) :
    (connectivity_adapter.forget_loop id rounds i c).id = c.id := by
  induction rounds generalizing i c with
  | zero => rfl
  | succ n ih =>
    unfold connectivity_adapter.forget_loop
    split
    · rw [ih]
      split <;> rfl
    · rfl

theorem remove_direct_connection_frame (s : nrf) (id : Nat) :
    (s.remove_direct_connection id).id = s.id ∧
    (s.remove_direct_connection id).connections.length = s.connections.length := by
  unfold nrf.remove_direct_connection
  simp only []
  split
  · exact ⟨rfl, rfl⟩
  · refine ⟨?_, ?_⟩
    · rw [start_waiting_id]
      exact forget_loop_id _ _ _ _
    · rw [(start_waiting_frame _).2]
      simp [nrf.forget_message_history_for]

theorem remove_direct_connection_inv (s : nrf) (id : Nat) (h : pipes_inv s.connections) :
    pipes_inv (s.remove_direct_connection id).connections := by
  unfold nrf.remove_direct_connection
  simp only []
  split
  · exact h
  · rename_i hp
    apply start_waiting_inv
    apply pipes_inv_set _ _ _ h (by simp)
    intro e
    exact absurd (Or.inr e) hp

theorem discovery_present_received_inv (s : nrf) (origin : message)
    (h : pipes_inv s.connections) :
    pipes_inv (s.discovery_present_received origin).2.connections ∧
    (s.discovery_present_received origin).2.id = s.id := by
  unfold nrf.discovery_present_received
  simp only []
  rcases getFirstFreePipe_spec s with ⟨h1, _⟩ | ⟨h1, h2, _⟩
  · rw [if_pos h1]; exact ⟨h, rfl⟩
  · rw [if_neg (by omega)]
    refine ⟨?_, rfl⟩
    apply pipes_inv_set _ _ _ h (by simp)
    intro e
    rw [e, h.2.1] at h2
    exact absurd h2 (by decide)

theorem discovery_respond_received_inv (s : nrf) (origin : message)
    (h : pipes_inv s.connections) (hid : s.id ≠ 0) :
    pipes_inv (s.discovery_respond_received origin).2.connections ∧
    (s.discovery_respond_received origin).2.id = s.id := by
  unfold nrf.discovery_respond_received
  simp only []
  split
  · exact ⟨h, rfl⟩
  · rename_i hg
    have hn : (s.connections.getD (s.getPipeByNRFAddress (origin.connectionData.getD 0 0))
        default).connected_node = s.id := by
      by_contra hc
      exact hg (Or.inr hc)
    have hk : s.getPipeByNRFAddress (origin.connectionData.getD 0 0) ≠ 0 := by
      intro e
      rw [e, h.2.2.1] at hn
      exact hid hn.symm
    have h1 : pipes_inv (if s.getPipeByNodeId origin.sender ≠ 6
        then s.remove_direct_connection origin.sender else s).connections := by
      split
      · exact remove_direct_connection_inv s _ h
      · exact h
    have h2 : (if s.getPipeByNodeId origin.sender ≠ 6
        then s.remove_direct_connection origin.sender else s).id = s.id := by
      split
      · exact (remove_direct_connection_frame s _).1
      · rfl
    refine ⟨?_, ?_⟩
    · apply start_waiting_inv
      exact pipes_inv_set _ _ _ h1 (by simp) (fun e => absurd e hk)
    · rw [start_waiting_id]
      exact h2

theorem discovery_accept_received_inv (s : nrf) (origin : message)
    (h : pipes_inv s.connections) :
    pipes_inv (s.discovery_accept_received origin).connections ∧
    (s.discovery_accept_received origin).id = s.id := by
  unfold nrf.discovery_accept_received
  refine ⟨?_, rfl⟩
  apply pipes_inv_set _ _ _ h (by simp)
  intro e
  rw [e]
  exact ⟨rfl, h.2.2.1⟩

theorem send_loop_frame (attempts : Nat) (s : nrf) (next_hop : Nat) (data : List Nat)
    (size : Nat) :
    (nrf.send_loop attempts s next_hop data size).2.connections = s.connections ∧
    (nrf.send_loop attempts s next_hop data size).2.toconnectivity_adapter =
      s.toconnectivity_adapter := by
  by_cases hk : s.getPipeByNodeId next_hop = 6
  · induction attempts generalizing s with
    | zero => exact ⟨rfl, rfl⟩
    | succ n ih =>
      have e : s.send_implementation next_hop data size = (false, s) := by
        unfold nrf.send_implementation
        simp only []
        rw [if_pos hk]
      rw [nrf.send_loop, e]
      simp only [Bool.false_eq_true, if_false]
      have := ih s.has_message.2 ((getPipeByNodeId_congr s s.has_message.2 rfl next_hop).trans hk)
      exact ⟨this.1, this.2⟩
  · obtain ⟨h1, h2, _⟩ := send_loop_spec attempts s next_hop data size hk
    exact ⟨h1, h2⟩

/-- The adapter after `send`: the pipes are as before, and of the base-class
members only the message-id counter can have changed. -/
theorem send_frame (s : nrf) (message : message) (next_hop : Nat) :
    (s.send message next_hop).2.2.connections = s.connections ∧
    (s.send message next_hop).2.2.id = s.id ∧
    (s.send message next_hop).2.2.previous_messages = s.previous_messages ∧
    (s.send message next_hop).2.2.previous_messages_count = s.previous_messages_count := by
  by_cases h1 : s.connection_state (if next_hop = 0 then message.receiver else next_hop) =
      mesh_connection_state.DISCONNECTED
  · have e : s.send message next_hop = (false, message, s) := by
      unfold nrf.send
      simp only []
      rw [if_pos h1]
    rw [e]
    exact ⟨rfl, rfl, rfl, rfl⟩
  by_cases h2 : (message.receiver ≠ 0 ∧
      s.connection_state (if next_hop = 0 then message.receiver else next_hop) ≠
        mesh_connection_state.ACCEPTED ∧
      message.type ≠ DISCOVERY.RESPOND ∧ message.type ≠ DISCOVERY.ACCEPT ∧
      message.type ≠ DISCOVERY.DENY)
  · have e : s.send message next_hop = (false, message, s) := by
      unfold nrf.send
      simp only []
      rw [if_neg h1, if_pos h2]
    rw [e]
    exact ⟨rfl, rfl, rfl, rfl⟩
  rw [send_pass s message next_hop h1 h2]
  obtain ⟨h1, h2⟩ := send_loop_frame 5 (s.add_message_id message).2
    (if next_hop = 0 then message.receiver else next_hop)
    (((s.add_message_id message).2.add_connection_data (s.add_message_id message).1
        (if next_hop = 0 then message.receiver else next_hop)).to_byte_array
      (List.replicate ((s.add_message_id message).2.add_connection_data
        (s.add_message_id message).1
        (if next_hop = 0 then message.receiver else next_hop)).size 0))
    ((s.add_message_id message).2.add_connection_data (s.add_message_id message).1
        (if next_hop = 0 then message.receiver else next_hop)).size
  have h3 := congrArg connectivity_adapter.id h2
  have h4 := congrArg connectivity_adapter.previous_messages h2
  have h5 := congrArg connectivity_adapter.previous_messages_count h2
  refine ⟨h1, h3.trans ?_, h4.trans ?_, h5.trans ?_⟩ <;>
  · unfold nrf.add_message_id connectivity_adapter.add_message_id
    split <;> rfl

/-! ## The radio outcome of a send -/

theorem transmit_result (r : nrf24l01plus) (data : List Nat) (n : Nat) (no_ack : Bool) :
    (r.transmit data n no_ack).1 = r.tx_results.headD false ∧
    (r.transmit data n no_ack).2.tx_results = r.tx_results.tail := by
  unfold nrf24l01plus.transmit
  cases r.tx_results <;> simp

theorem flush_tx_results (p : nrf_pipe) (r : nrf24l01plus) :
    (p.flush r).tx_results = r.tx_results :=
  (flush_frame p r).2.1

theorem send_message_result (p : nrf_pipe) (all_pipes : List nrf_pipe) (r : nrf24l01plus)
    (n : Nat) (data : List Nat) :
    (p.send_message all_pipes r n data).1 = r.tx_results.headD false ∧
    (p.send_message all_pipes r n data).2.2.tx_results = r.tx_results.tail := by
  unfold nrf_pipe.send_message
  by_cases h0 : p.pipe_number = 0
  · simp only [h0, ne_eq, not_true_eq_false, if_false]
    exact transmit_result _ _ _ _
  · simp only [h0, ne_eq, not_false_eq_true, if_true]
    constructor
    · rw [(transmit_result _ _ _ _).1, flush_tx_results]; rfl
    · show ((all_pipes.getD 0 default).flush _).tx_results = _
      rw [flush_tx_results, flush_tx_results, (transmit_result _ _ _ _).2, flush_tx_results]
      rfl

theorem send_implementation_result (s : nrf) (id : Nat) (data : List Nat) (size : Nat)
    (hk : s.getPipeByNodeId id ≠ 6) :
    (s.send_implementation id data size).1 = s.nrf24.tx_results.headD false ∧
    (s.send_implementation id data size).2.nrf24.tx_results = s.nrf24.tx_results.tail := by
  unfold nrf.send_implementation
  simp only [hk, if_false]
  exact send_message_result _ _ _ _ _

/-! ## A send acknowledged at the first attempt -/

theorem last_frame_of_log (s : nrf) (log : List tx_record) (rec : tx_record)
    (h : s.nrf24.tx_log = log ++ [rec]) :
    s.last_frame = (message.empty.parse rec.n (rec.data.take rec.n)).2 := by
  unfold nrf.last_frame
  rw [h, List.getLast?_concat]

/-- What `send` does when its state check passes and the radio acknowledges the first
transmission: one call of `send_implementation`, result true. -/
theorem send_first_try (s : nrf) (message : message) (next_hop : Nat) (rest : List Bool)
    (h1 : s.connection_state (if next_hop = 0 then message.receiver else next_hop) ≠
      mesh_connection_state.DISCONNECTED)
    (h2 : ¬ (message.receiver ≠ 0 ∧
      s.connection_state (if next_hop = 0 then message.receiver else next_hop) ≠
        mesh_connection_state.ACCEPTED ∧
      message.type ≠ DISCOVERY.RESPOND ∧ message.type ≠ DISCOVERY.ACCEPT ∧
      message.type ≠ DISCOVERY.DENY))
    (hr : s.nrf24.tx_results = true :: rest) :
    (s.send message next_hop).1 = true ∧
    (s.send message next_hop).2.1 =
      (s.add_message_id message).2.add_connection_data (s.add_message_id message).1
        (if next_hop = 0 then message.receiver else next_hop) ∧
    (s.send message next_hop).2.2.connections = s.connections ∧
    (s.send message next_hop).2.2.toconnectivity_adapter =
      (s.add_message_id message).2.toconnectivity_adapter ∧
    (s.send message next_hop).2.2.nrf24.tx_results = rest ∧
    (s.send message next_hop).2.2.last_frame =
      (mesh.message.empty.parse ((s.send message next_hop).2.1.size % 256)
        (((s.send message next_hop).2.1.to_byte_array
          (List.replicate (s.send message next_hop).2.1.size 0)).take
            ((s.send message next_hop).2.1.size % 256))).2 := by
  have hp := send_pass s message next_hop h1 h2
  obtain ⟨hk, _⟩ := connection_state_found s _ h1
  obtain ⟨fc, fr, _, _, _⟩ := add_message_id_frame s message
  have hk' : (s.add_message_id message).2.getPipeByNodeId
      (if next_hop = 0 then message.receiver else next_hop) ≠ 6 := by
    rw [getPipeByNodeId_congr s _ fc]; exact hk
  generalize hm : (s.add_message_id message).2.add_connection_data (s.add_message_id message).1
      (if next_hop = 0 then message.receiver else next_hop) = m at hp
  obtain ⟨r1, r2⟩ := send_implementation_result (s.add_message_id message).2
    (if next_hop = 0 then message.receiver else next_hop)
    (m.to_byte_array (List.replicate m.size 0)) m.size hk'
  obtain ⟨c1, c2, rec, c3, c4⟩ := send_implementation_spec (s.add_message_id message).2
    (if next_hop = 0 then message.receiver else next_hop)
    (m.to_byte_array (List.replicate m.size 0)) m.size hk'
  rw [fr, hr] at r1 r2
  have r1t : ((s.add_message_id message).2.send_implementation
      (if next_hop = 0 then message.receiver else next_hop)
      (m.to_byte_array (List.replicate m.size 0)) m.size).1 = true := r1
  have hl : nrf.send_loop 5 (s.add_message_id message).2
      (if next_hop = 0 then message.receiver else next_hop)
      (m.to_byte_array (List.replicate m.size 0)) m.size =
      (true, ((s.add_message_id message).2.send_implementation
        (if next_hop = 0 then message.receiver else next_hop)
        (m.to_byte_array (List.replicate m.size 0)) m.size).2) := by
    rw [nrf.send_loop, if_pos r1t]
  rw [hp, hl]
  refine ⟨rfl, rfl, c1.trans fc, c2, r2, ?_⟩
  rw [last_frame_of_log _ _ rec c3, c4.1, c4.2.1]

/-- The frame of a message without payload, as a peer decodes it. -/
theorem parse_empty_frame (t i a r c d : Nat) (m : message)
    (hm : m = { message.mk5 t i a r 0 with connectionData := [c, d] }) :
    (message.empty.parse (m.size % 256)
      ((m.to_byte_array (List.replicate m.size 0)).take (m.size % 256))).2 = m := by
  subst hm
  rfl

/-! ## The discovery handshake (C20) -/

theorem find_six (p : Nat → Bool) :
    ((List.range 6).find? p).getD 6 =
      if p 0 then 0 else if p 1 then 1 else if p 2 then 2 else if p 3 then 3
      else if p 4 then 4 else if p 5 then 5 else 6 := by
  have e : List.range 6 = [0, 1, 2, 3, 4, 5] := rfl
  rw [e]
  simp only [List.find?_cons, List.find?_nil]
  cases p 0 <;> cases p 1 <;> cases p 2 <;> cases p 3 <;> cases p 4 <;> cases p 5 <;> rfl

theorem getPipeByNodeId_six (s : nrf) (p0 p1 p2 p3 p4 p5 : nrf_pipe)
    (h : s.connections = [p0, p1, p2, p3, p4, p5]) (id : Nat) :
    s.getPipeByNodeId id =
      if p0.connected_node = id then 0 else if p1.connected_node = id then 1
      else if p2.connected_node = id then 2 else if p3.connected_node = id then 3
      else if p4.connected_node = id then 4 else if p5.connected_node = id then 5 else 6 := by
  unfold nrf.getPipeByNodeId
  rw [find_six, h]
  simp only [List.getD_cons_zero, List.getD_cons_succ, beq_iff_eq]

theorem getPipeByNRFAddress_six (s : nrf) (p0 p1 p2 p3 p4 p5 : nrf_pipe)
    (h : s.connections = [p0, p1, p2, p3, p4, p5]) (a : Nat) :
    s.getPipeByNRFAddress a =
      if p0.nrf_address.getD 4 0 = a then 0 else if p1.nrf_address.getD 4 0 = a then 1
      else if p2.nrf_address.getD 4 0 = a then 2 else if p3.nrf_address.getD 4 0 = a then 3
      else if p4.nrf_address.getD 4 0 = a then 4 else if p5.nrf_address.getD 4 0 = a then 5
      else 6 := by
  unfold nrf.getPipeByNRFAddress
  rw [find_six, h]
  simp only [List.getD_cons_zero, List.getD_cons_succ, beq_iff_eq]

theorem is_blacklisted_fresh {ρ : Type} (st : mesh_network ρ) (id : Nat)
    (hb : st.blacklist = List.replicate 10 0) (hid : id ≠ 0) : st.is_blacklisted id = false := by
  unfold mesh_network.is_blacklisted
  rw [hb]
  simp [List.replicate, is_blacklisted_loop, hid]

/-- The pipes of a freshly constructed adapter. -/
theorem init_connections (a : Nat) (radio : nrf24l01plus) :
    (nrf.init a radio).connections =
      [{ connection_state := mesh_connection_state.ACCEPTED, pipe_number := 0,
         connected_node := 0, nrf_address := discovery_address },
       { connection_state := mesh_connection_state.WAITING, pipe_number := 1,
         connected_node := a, nrf_address := [0x72, 0x72, 0x72, 0x72, (a + 2) % 256] },
       nrf_pipe.init 2, nrf_pipe.init 3, nrf_pipe.init 4, nrf_pipe.init 5] := rfl

theorem add_message_id_own (s : nrf) (msg : message) (h : msg.sender = s.id)
    (h0 : msg.message_id = 0) :
    (s.add_message_id msg).1 = { msg with message_id := s.current_message_id } ∧
    (s.add_message_id msg).2.connections = s.connections ∧
    (s.add_message_id msg).2.id = s.id ∧
    (s.add_message_id msg).2.current_message_id = (s.current_message_id + 1) % 256 := by
  unfold nrf.add_message_id connectivity_adapter.add_message_id
  rw [if_pos ⟨h, h0⟩]
  exact ⟨rfl, rfl, rfl, rfl⟩

theorem add_connection_data_present (s : nrf) (msg : message) (next_hop : Nat)
    (h : msg.type = DISCOVERY.PRESENT) :
    s.add_connection_data msg next_hop =
      { msg with
        connectionData :=
          msg.connectionData.set 0
            ((s.connections.getD (s.getPipeByNodeId s.id) default).nrf_address.getD 4 0) } := by
  unfold nrf.add_connection_data
  rw [if_neg (by rw [h]; decide), if_pos h]

theorem add_connection_data_respond (s : nrf) (msg : message) (next_hop : Nat)
    (h : msg.type = DISCOVERY.RESPOND) :
    s.add_connection_data msg next_hop =
      { msg with
        connectionData :=
          msg.connectionData.set 0
            ((s.connections.getD (s.getPipeByNodeId next_hop) default).nrf_address.getD 4 0) } := by
  unfold nrf.add_connection_data
  rw [if_pos h]

theorem add_connection_data_other (s : nrf) (msg : message) (next_hop : Nat)
    (h1 : msg.type ≠ DISCOVERY.RESPOND) (h2 : msg.type ≠ DISCOVERY.PRESENT) :
    s.add_connection_data msg next_hop = msg := by
  unfold nrf.add_connection_data
  rw [if_neg h1, if_neg h2]

/-- Stage 1 of the handshake: the PRESENT broadcast of `discover()` on an adapter whose
only peer pipe is the listen pipe carries the discriminator of that pipe. -/
theorem present_send (s : nrf) (a : Nat) (rest : List Bool) (l : List Nat) (p2 p3 p4 p5 : nrf_pipe)
    (hc : s.connections =
      [{ connection_state := mesh_connection_state.ACCEPTED, pipe_number := 0,
         connected_node := 0, nrf_address := discovery_address },
       { connection_state := mesh_connection_state.WAITING, pipe_number := 1,
         connected_node := a, nrf_address := l }, p2, p3, p4, p5])
    (hid : s.id = a) (hcur : s.current_message_id = 0) (ha : a ≠ 0)
    (hr : s.nrf24.tx_results = true :: rest) :
    (s.send (message.mk5 DISCOVERY.PRESENT 0 a 0 0) 0).2.2.connections = s.connections ∧
    (s.send (message.mk5 DISCOVERY.PRESENT 0 a 0 0) 0).2.2.id = a ∧
    (s.send (message.mk5 DISCOVERY.PRESENT 0 a 0 0) 0).2.2.current_message_id = 1 ∧
    (s.send (message.mk5 DISCOVERY.PRESENT 0 a 0 0) 0).2.2.nrf24.tx_results = rest ∧
    (s.send (message.mk5 DISCOVERY.PRESENT 0 a 0 0) 0).2.2.last_frame =
      { message.mk5 DISCOVERY.PRESENT 0 a 0 0 with connectionData := [l.getD 4 0, 0] } := by
  have hcs : s.connection_state 0 = mesh_connection_state.ACCEPTED := by
    unfold nrf.connection_state
    rw [getPipeByNodeId_six s _ _ _ _ _ _ hc, hc]
    rfl
  obtain ⟨s1, s2, s3, s4, s5, s6⟩ :=
    send_first_try s (message.mk5 DISCOVERY.PRESENT 0 a 0 0) 0 rest
      (by show s.connection_state 0 ≠ _; rw [hcs]; decide) (fun h => h.1 rfl) hr
  obtain ⟨m1, m2, m3, m4⟩ := add_message_id_own s (message.mk5 DISCOVERY.PRESENT 0 a 0 0)
    hid.symm rfl
  have hk : (s.add_message_id (message.mk5 DISCOVERY.PRESENT 0 a 0 0)).2.getPipeByNodeId
      (s.add_message_id (message.mk5 DISCOVERY.PRESENT 0 a 0 0)).2.id = 1 := by
    rw [getPipeByNodeId_congr s _ m2, m3, hid, getPipeByNodeId_six s _ _ _ _ _ _ hc]
    simp [Ne.symm ha]
  have s2' : (s.send (message.mk5 DISCOVERY.PRESENT 0 a 0 0) 0).2.1 =
      { message.mk5 DISCOVERY.PRESENT 0 a 0 0 with connectionData := [l.getD 4 0, 0] } := by
    rw [s2, add_connection_data_present _ _ _ (by rw [m1]; rfl), hk, m1, m2, hc, hcur]
    rfl
  rw [s2', parse_empty_frame DISCOVERY.PRESENT 0 a 0 (l.getD 4 0) 0 _ rfl] at s6
  refine ⟨s3, ?_, ?_, s5, s6⟩
  · exact (congrArg connectivity_adapter.id s4).trans (m3.trans hid)
  · exact (congrArg connectivity_adapter.current_message_id s4).trans (m4.trans (by rw [hcur]))

theorem getFirstFreePipe_six (s : nrf) (p0 p1 p2 p3 p4 p5 : nrf_pipe)
    (h : s.connections = [p0, p1, p2, p3, p4, p5]) :
    s.getFirstFreePipe =
      if p0.connection_state = mesh_connection_state.DISCONNECTED then 0
      else if p1.connection_state = mesh_connection_state.DISCONNECTED then 1
      else if p2.connection_state = mesh_connection_state.DISCONNECTED then 2
      else if p3.connection_state = mesh_connection_state.DISCONNECTED then 3
      else if p4.connection_state = mesh_connection_state.DISCONNECTED then 4
      else if p5.connection_state = mesh_connection_state.DISCONNECTED then 5 else 6 := by
  unfold nrf.getFirstFreePipe
  rw [find_six, h]
  simp only [List.getD_cons_zero, List.getD_cons_succ, beq_iff_eq]

theorem handleMessage_discovery {ρ : Type} (R : router ρ) (st : mesh_network ρ) (msg : message)
    (h1 : msg.type &&& 0x10 = 0) (h2 : msg.type &&& 0x20 = 0)
    (hb : st.is_blacklisted msg.sender = false) :
    (st.handleMessage R msg).2.2 = (st.handle_discovery R msg).2 := by
  unfold mesh_network.handleMessage
  simp only [h1, h2, hb, gt_iff_lt, Nat.lt_irrefl, if_false, Bool.false_eq_true]

theorem unicast_close_if_fail_sent {ρ : Type} (R : router ρ) (st : mesh_network ρ)
    (msg : message) (next_hop : Nat) (h : (st.connection.send msg next_hop).1 = true) :
    (st.unicast_close_if_fail R msg next_hop).2 =
      { st with connection := (st.connection.send msg next_hop).2.2 } := by
  unfold mesh_network.unicast_close_if_fail
  simp only [h, Bool.not_true, Bool.false_eq_true, if_false]

/-- Stage 2 of the handshake, in the adapter: a node whose only peer pipe is the listen
pipe takes pipe 2 for the sender of a PRESENT. -/
theorem present_received_fresh (s : nrf) (origin : message) (p1 : nrf_pipe)
    (hp1 : p1.connection_state ≠ mesh_connection_state.DISCONNECTED)
    (hc : s.connections =
      [{ connection_state := mesh_connection_state.ACCEPTED, pipe_number := 0,
         connected_node := 0, nrf_address := discovery_address },
       p1, nrf_pipe.init 2, nrf_pipe.init 3, nrf_pipe.init 4, nrf_pipe.init 5]) :
    (s.discovery_present_received origin).1 = true ∧
    (s.discovery_present_received origin).2.connections =
      [{ connection_state := mesh_connection_state.ACCEPTED, pipe_number := 0,
         connected_node := 0, nrf_address := discovery_address },
       p1,
       { connection_state := mesh_connection_state.RESPONDED, pipe_number := 2,
         connected_node := origin.sender,
         nrf_address := [0x72, 0x72, 0x72, 0x72, origin.connectionData.getD 0 0] },
       nrf_pipe.init 3, nrf_pipe.init 4, nrf_pipe.init 5] ∧
    (s.discovery_present_received origin).2.toconnectivity_adapter = s.toconnectivity_adapter ∧
    (s.discovery_present_received origin).2.nrf24.tx_results = s.nrf24.tx_results := by
  have hf : s.getFirstFreePipe = 2 := by
    rw [getFirstFreePipe_six s _ _ _ _ _ _ hc]
    simp [hp1, nrf_pipe.init]
  unfold nrf.discovery_present_received
  simp only [hf]
  rw [if_neg (by decide)]
  refine ⟨rfl, ?_, rfl, (flush_frame _ _).2.1⟩
  simp only [hc]
  rfl

/-- Stage 2 of the handshake, the reply: the RESPOND to the node of a RESPONDED pipe 2
carries the discriminator of that pipe. -/
theorem respond_send (s : nrf) (a b : Nat) (rest : List Bool) (l : List Nat)
    (p1 p3 p4 p5 : nrf_pipe)
    (hc : s.connections =
      [{ connection_state := mesh_connection_state.ACCEPTED, pipe_number := 0,
         connected_node := 0, nrf_address := discovery_address },
       p1,
       { connection_state := mesh_connection_state.RESPONDED, pipe_number := 2,
         connected_node := a, nrf_address := l }, p3, p4, p5])
    (hp1 : p1.connected_node = b)
    (hid : s.id = b) (hcur : s.current_message_id = 0) (ha : a ≠ 0) (hab : a ≠ b)
    (hr : s.nrf24.tx_results = true :: rest) :
    (s.send (message.mk5 DISCOVERY.RESPOND 0 b a 0) 0).1 = true ∧
    (s.send (message.mk5 DISCOVERY.RESPOND 0 b a 0) 0).2.2.connections = s.connections ∧
    (s.send (message.mk5 DISCOVERY.RESPOND 0 b a 0) 0).2.2.id = b ∧
    (s.send (message.mk5 DISCOVERY.RESPOND 0 b a 0) 0).2.2.last_frame =
      { message.mk5 DISCOVERY.RESPOND 0 b a 0 with connectionData := [l.getD 4 0, 0] } := by
  have hk : s.getPipeByNodeId a = 2 := by
    rw [getPipeByNodeId_six s _ _ _ _ _ _ hc]
    simp [Ne.symm ha, hp1, Ne.symm hab]
  have hcs : s.connection_state a = mesh_connection_state.RESPONDED := by
    unfold nrf.connection_state
    rw [hk, hc]
    rfl
  obtain ⟨s1, s2, s3, s4, s5, s6⟩ :=
    send_first_try s (message.mk5 DISCOVERY.RESPOND 0 b a 0) 0 rest
      (by show s.connection_state a ≠ _; rw [hcs]; decide) (fun h => h.2.2.1 rfl) hr
  obtain ⟨m1, m2, m3, m4⟩ := add_message_id_own s (message.mk5 DISCOVERY.RESPOND 0 b a 0)
    hid.symm rfl
  have hk' : (s.add_message_id (message.mk5 DISCOVERY.RESPOND 0 b a 0)).2.getPipeByNodeId a =
      2 := by
    rw [getPipeByNodeId_congr s _ m2, hk]
  have s2' : (s.send (message.mk5 DISCOVERY.RESPOND 0 b a 0) 0).2.1 =
      { message.mk5 DISCOVERY.RESPOND 0 b a 0 with connectionData := [l.getD 4 0, 0] } := by
    have hh : (if (0 : Nat) = 0 then (message.mk5 DISCOVERY.RESPOND 0 b a 0).receiver else 0) =
        a := rfl
    rw [s2, hh, add_connection_data_respond _ _ _ (by rw [m1]; rfl), hk', m1, m2, hc, hcur]
    rfl
  rw [s2', parse_empty_frame DISCOVERY.RESPOND 0 b a (l.getD 4 0) 0 _ rfl] at s6
  exact ⟨s1, s3, (congrArg connectivity_adapter.id s4).trans (m3.trans hid), s6⟩

theorem handle_discovery_present {ρ : Type} (R : router ρ) (st : mesh_network ρ) (msg : message)
    (ht : msg.type = DISCOVERY.PRESENT)
    (hs : st.connection.connection_state msg.sender = mesh_connection_state.DISCONNECTED)
    (hr : (st.connection.discovery_present_received msg).1 = true) :
    (st.handle_discovery R msg).2 =
      (mesh_network.unicast_close_if_fail R
        { st with connection := (st.connection.discovery_present_received msg).2 }
        (message.mk5 DISCOVERY.RESPOND 0 (st.connection.discovery_present_received msg).2.id
          msg.sender 0) 0).2 := by
  unfold mesh_network.handle_discovery
  rw [if_pos ht, if_pos hs]
  simp only [hr, if_true]

theorem handle_discovery_respond (st : mesh_network Unit) (msg : message)
    (ht : msg.type = DISCOVERY.RESPOND)
    (hr : (st.connection.discovery_respond_received msg).1 = true) :
    (st.handle_discovery router.base msg).2 =
      { st with connection :=
          ((st.connection.discovery_respond_received msg).2.send
            (message.mk5 DISCOVERY.ACCEPT 0 (st.connection.discovery_respond_received msg).2.id
              msg.sender 0) 0).2.2 } := by
  unfold mesh_network.handle_discovery
  rw [if_neg (by rw [ht]; decide), if_pos ht]
  simp only [hr, if_true]
  split <;> rfl

theorem handle_discovery_accept (st : mesh_network Unit) (msg : message)
    (ht : msg.type = DISCOVERY.ACCEPT) :
    (st.handle_discovery router.base msg).2 =
      { st with connection := st.connection.discovery_accept_received msg } := by
  unfold mesh_network.handle_discovery
  rw [if_neg (by rw [ht]; decide), if_neg (by rw [ht]; decide), if_pos ht]
  rfl

/-- Stage 2 of the handshake: a fresh node `b` handles the PRESENT of node `a`. -/
theorem present_handled (st : mesh_network Unit) (a b d : Nat) (rest : List Bool)
    (lb : List Nat)
    (hbl : st.blacklist = List.replicate 10 0)
    (hc : st.connection.connections =
      [{ connection_state := mesh_connection_state.ACCEPTED, pipe_number := 0,
         connected_node := 0, nrf_address := discovery_address },
       { connection_state := mesh_connection_state.WAITING, pipe_number := 1,
         connected_node := b, nrf_address := lb },
       nrf_pipe.init 2, nrf_pipe.init 3, nrf_pipe.init 4, nrf_pipe.init 5])
    (hid : st.connection.id = b) (hcur : st.connection.current_message_id = 0)
    (ha : a ≠ 0) (hab : a ≠ b) (hr : st.connection.nrf24.tx_results = true :: rest) :
    (st.handleMessage router.base
      { message.mk5 DISCOVERY.PRESENT 0 a 0 0 with connectionData := [d, 0] }).2.2.blacklist =
      List.replicate 10 0 ∧
    (st.handleMessage router.base
      { message.mk5 DISCOVERY.PRESENT 0 a 0 0 with
        connectionData := [d, 0] }).2.2.connection.connections =
      [{ connection_state := mesh_connection_state.ACCEPTED, pipe_number := 0,
         connected_node := 0, nrf_address := discovery_address },
       { connection_state := mesh_connection_state.WAITING, pipe_number := 1,
         connected_node := b, nrf_address := lb },
       { connection_state := mesh_connection_state.RESPONDED, pipe_number := 2,
         connected_node := a, nrf_address := [0x72, 0x72, 0x72, 0x72, d] },
       nrf_pipe.init 3, nrf_pipe.init 4, nrf_pipe.init 5] ∧
    (st.handleMessage router.base
      { message.mk5 DISCOVERY.PRESENT 0 a 0 0 with
        connectionData := [d, 0] }).2.2.connection.last_frame =
      { message.mk5 DISCOVERY.RESPOND 0 b a 0 with connectionData := [d, 0] } := by
  generalize hmsg : ({ message.mk5 DISCOVERY.PRESENT 0 a 0 0 with
    connectionData := [d, 0] } : message) = msg
  have hsender : msg.sender = a := by rw [← hmsg]; rfl
  have htype : msg.type = DISCOVERY.PRESENT := by rw [← hmsg]; rfl
  have hcd : msg.connectionData.getD 0 0 = d := by rw [← hmsg]; rfl
  have hk : st.connection.getPipeByNodeId a = 6 := by
    rw [getPipeByNodeId_six _ _ _ _ _ _ _ hc]
    simp [Ne.symm ha, Ne.symm hab, nrf_pipe.init]
  have hs : st.connection.connection_state msg.sender = mesh_connection_state.DISCONNECTED := by
    unfold nrf.connection_state
    rw [hsender, hk]
    rfl
  obtain ⟨q1, q2, q3, q4⟩ := present_received_fresh st.connection msg _ (by simp) hc
  rw [hsender, hcd] at q2
  have qid : (st.connection.discovery_present_received msg).2.id = b :=
    (congrArg connectivity_adapter.id q3).trans hid
  have qcur : (st.connection.discovery_present_received msg).2.current_message_id = 0 :=
    (congrArg connectivity_adapter.current_message_id q3).trans hcur
  obtain ⟨t1, t2, t3, t4⟩ := respond_send (st.connection.discovery_present_received msg).2 a b
    rest _ _ _ _ _ q2 rfl qid qcur ha hab (q4.trans hr)
  rw [handleMessage_discovery _ _ _ (by rw [htype]; decide) (by rw [htype]; decide)
    (by rw [hsender]; exact is_blacklisted_fresh st a hbl ha),
    handle_discovery_present _ _ _ htype hs q1, hsender, qid,
    unicast_close_if_fail_sent router.base
      { st with connection := (st.connection.discovery_present_received msg).2 }
      (message.mk5 DISCOVERY.RESPOND 0 b a 0) 0 t1]
  exact ⟨hbl, t2.trans q2, t4⟩

/-- Stage 3 of the handshake, in the adapter: a fresh node `a` matches the RESPOND that
names its listen discriminator, when that differs from the broadcast discriminator 0x70. -/
theorem respond_received_fresh (s : nrf) (origin : message) (a : Nat) (la : List Nat)
    (hc : s.connections =
      [{ connection_state := mesh_connection_state.ACCEPTED, pipe_number := 0,
         connected_node := 0, nrf_address := discovery_address },
       { connection_state := mesh_connection_state.WAITING, pipe_number := 1,
         connected_node := a, nrf_address := la },
       nrf_pipe.init 2, nrf_pipe.init 3, nrf_pipe.init 4, nrf_pipe.init 5])
    (hid : s.id = a) (hd : origin.connectionData.getD 0 0 = la.getD 4 0)
    (hcol : la.getD 4 0 ≠ 0x70) (hb : origin.sender ≠ 0) (hab : a ≠ origin.sender) :
    (s.discovery_respond_received origin).1 = true ∧
    (∃ addr : List Nat, (s.discovery_respond_received origin).2.connections =
      [{ connection_state := mesh_connection_state.ACCEPTED, pipe_number := 0,
         connected_node := 0, nrf_address := discovery_address },
       { connection_state := mesh_connection_state.ACCEPTED, pipe_number := 1,
         connected_node := origin.sender, nrf_address := la },
       { connection_state := mesh_connection_state.WAITING, pipe_number := 2,
         connected_node := a, nrf_address := addr },
       nrf_pipe.init 3, nrf_pipe.init 4, nrf_pipe.init 5]) ∧
    (s.discovery_respond_received origin).2.toconnectivity_adapter = s.toconnectivity_adapter ∧
    (s.discovery_respond_received origin).2.nrf24.tx_results = s.nrf24.tx_results := by
  have hp : s.getPipeByNRFAddress (origin.connectionData.getD 0 0) = 1 := by
    rw [getPipeByNRFAddress_six _ _ _ _ _ _ _ hc, hd,
      if_neg (show ¬ (discovery_address.getD 4 0 = la.getD 4 0) from fun h => hcol h.symm),
      if_pos rfl]
  have hk : s.getPipeByNodeId origin.sender = 6 := by
    rw [getPipeByNodeId_six _ _ _ _ _ _ _ hc]
    simp [Ne.symm hb, hab, nrf_pipe.init]
  unfold nrf.discovery_respond_received
  simp only [hp, hk]
  have hn : (s.connections.getD 1 default).connected_node = s.id := by rw [hc, hid]; rfl
  rw [if_neg (by rw [hn]; simp)]
  simp only [ne_eq, not_true_eq_false, if_false]
  generalize hs2 : ({ s with
      connections := s.connections.set 1
        { connection_state := mesh_connection_state.ACCEPTED,
          pipe_number := (s.connections.getD 1 default).pipe_number,
          connected_node := origin.sender,
          nrf_address := (s.connections.getD 1 default).nrf_address },
      nrf24 := nrf_pipe.flush
        { connection_state := mesh_connection_state.ACCEPTED,
          pipe_number := (s.connections.getD 1 default).pipe_number,
          connected_node := origin.sender,
          nrf_address := (s.connections.getD 1 default).nrf_address } s.nrf24 } : nrf) = s2
  have c2 : s2.connections =
      [{ connection_state := mesh_connection_state.ACCEPTED, pipe_number := 0,
         connected_node := 0, nrf_address := discovery_address },
       { connection_state := mesh_connection_state.ACCEPTED, pipe_number := 1,
         connected_node := origin.sender, nrf_address := la },
       nrf_pipe.init 2, nrf_pipe.init 3, nrf_pipe.init 4, nrf_pipe.init 5] := by
    rw [← hs2]
    simp only [hc]
    rfl
  have a2 : s2.toconnectivity_adapter = s.toconnectivity_adapter := by rw [← hs2]
  have r2 : s2.nrf24.tx_results = s.nrf24.tx_results := by
    rw [← hs2]; exact (flush_frame _ _).2.1
  refine ⟨trivial, ?_⟩
  rcases start_waiting_cases s2 with ⟨⟨j, j1, j2, hj⟩, _⟩ | ⟨_, hnd, _⟩ |
    ⟨_, i, hi, hdi, hlow, hset, hadp, _, hres⟩
  · exfalso
    rw [c2] at hj
    interval_cases j <;> simp [nrf_pipe.init] at hj
  · exfalso
    have := hnd 2 (by rw [c2]; simp)
    rw [c2] at this
    simp [nrf_pipe.init] at this
  · have hi2 : i = 2 := by
      rcases Nat.lt_trichotomy i 2 with h | h | h
      · exfalso
        rw [c2] at hdi
        interval_cases i <;> simp at hdi
      · exact h
      · exfalso
        have := hlow 2 h
        rw [c2] at this
        simp [nrf_pipe.init] at this
    subst hi2
    refine ⟨⟨nrf.next_listen_address s2.connections 128 (address_with base_address s2.id), ?_⟩,
      hadp.trans a2, hres.trans r2⟩
    have e : s2.id = a := (congrArg connectivity_adapter.id a2).trans hid
    rw [hset, e]
    generalize nrf.next_listen_address s2.connections 128 (address_with base_address a) = addr
    rw [c2]
    rfl

/-- Stage 3 of the handshake, the reply: the ACCEPT to the node of the ACCEPTED pipe 1. -/
theorem accept_send (s : nrf) (a b : Nat) (rest : List Bool) (l : List Nat)
    (p2 p3 p4 p5 : nrf_pipe)
    (hc : s.connections =
      [{ connection_state := mesh_connection_state.ACCEPTED, pipe_number := 0,
         connected_node := 0, nrf_address := discovery_address },
       { connection_state := mesh_connection_state.ACCEPTED, pipe_number := 1,
         connected_node := b, nrf_address := l }, p2, p3, p4, p5])
    (hid : s.id = a) (hb : b ≠ 0) (hr : s.nrf24.tx_results = true :: rest) :
    (s.send (message.mk5 DISCOVERY.ACCEPT 0 a b 0) 0).2.2.connections = s.connections ∧
    (s.send (message.mk5 DISCOVERY.ACCEPT 0 a b 0) 0).2.2.last_frame =
      { message.mk5 DISCOVERY.ACCEPT 0 a b 0 with message_id := s.current_message_id } := by
  have hk : s.getPipeByNodeId b = 1 := by
    rw [getPipeByNodeId_six s _ _ _ _ _ _ hc]
    simp [Ne.symm hb]
  have hcs : s.connection_state b = mesh_connection_state.ACCEPTED := by
    unfold nrf.connection_state
    rw [hk, hc]
    rfl
  obtain ⟨_, s2, s3, _, _, s6⟩ :=
    send_first_try s (message.mk5 DISCOVERY.ACCEPT 0 a b 0) 0 rest
      (by show s.connection_state b ≠ _; rw [hcs]; decide)
      (fun h => h.2.1 (by show s.connection_state b = _; exact hcs)) hr
  obtain ⟨m1, _, _, _⟩ := add_message_id_own s (message.mk5 DISCOVERY.ACCEPT 0 a b 0)
    hid.symm rfl
  have s2' : (s.send (message.mk5 DISCOVERY.ACCEPT 0 a b 0) 0).2.1 =
      { message.mk5 DISCOVERY.ACCEPT 0 a b 0 with message_id := s.current_message_id } := by
    rw [s2, add_connection_data_other _ _ _
      (by rw [m1]; show DISCOVERY.ACCEPT ≠ DISCOVERY.RESPOND; decide)
      (by rw [m1]; show DISCOVERY.ACCEPT ≠ DISCOVERY.PRESENT; decide), m1]
  rw [s2'] at s6
  exact ⟨s3, s6.trans (parse_empty_frame DISCOVERY.ACCEPT s.current_message_id a b 0 0 _ rfl)⟩

/-- Stage 3 of the handshake: node `a` handles the RESPOND of node `b`. -/
theorem respond_handled (st : mesh_network Unit) (a b : Nat) (rest : List Bool)
    (la : List Nat)
    (hbl : st.blacklist = List.replicate 10 0)
    (hc : st.connection.connections =
      [{ connection_state := mesh_connection_state.ACCEPTED, pipe_number := 0,
         connected_node := 0, nrf_address := discovery_address },
       { connection_state := mesh_connection_state.WAITING, pipe_number := 1,
         connected_node := a, nrf_address := la },
       nrf_pipe.init 2, nrf_pipe.init 3, nrf_pipe.init 4, nrf_pipe.init 5])
    (hid : st.connection.id = a) (hcol : la.getD 4 0 ≠ 0x70)
    (hb : b ≠ 0) (hab : a ≠ b) (hr : st.connection.nrf24.tx_results = true :: rest) :
    (st.handleMessage router.base
      { message.mk5 DISCOVERY.RESPOND 0 b a 0 with
        connectionData := [la.getD 4 0, 0] }).2.2.connection.connection_state b =
      mesh_connection_state.ACCEPTED ∧
    (st.handleMessage router.base
      { message.mk5 DISCOVERY.RESPOND 0 b a 0 with
        connectionData := [la.getD 4 0, 0] }).2.2.connection.last_frame =
      { message.mk5 DISCOVERY.ACCEPT 0 a b 0 with
        message_id := st.connection.current_message_id } := by
  generalize hmsg : ({ message.mk5 DISCOVERY.RESPOND 0 b a 0 with
    connectionData := [la.getD 4 0, 0] } : message) = msg
  have hsender : msg.sender = b := by rw [← hmsg]; rfl
  have htype : msg.type = DISCOVERY.RESPOND := by rw [← hmsg]; rfl
  have hcd : msg.connectionData.getD 0 0 = la.getD 4 0 := by rw [← hmsg]; rfl
  obtain ⟨q1, ⟨addr, q2⟩, q3, q4⟩ := respond_received_fresh st.connection msg a la hc hid hcd
    hcol (by rw [hsender]; exact hb) (by rw [hsender]; exact hab)
  rw [hsender] at q2
  have qid : (st.connection.discovery_respond_received msg).2.id = a :=
    (congrArg connectivity_adapter.id q3).trans hid
  have qcur : (st.connection.discovery_respond_received msg).2.current_message_id =
      st.connection.current_message_id :=
    congrArg connectivity_adapter.current_message_id q3
  obtain ⟨t1, t2⟩ := accept_send (st.connection.discovery_respond_received msg).2 a b
    rest _ _ _ _ _ q2 qid hb (q4.trans hr)
  rw [handleMessage_discovery _ _ _ (by rw [htype]; decide) (by rw [htype]; decide)
    (by rw [hsender]; exact is_blacklisted_fresh st b hbl hb),
    handle_discovery_respond _ _ htype q1, hsender, qid]
  refine ⟨?_, by rw [← qcur]; exact t2⟩
  show nrf.connection_state _ b = _
  unfold nrf.connection_state
  rw [getPipeByNodeId_six _ _ _ _ _ _ _ (t1.trans q2)]
  simp only [Ne.symm hb, if_false, if_true]
  rw [if_neg (by decide), t1, q2]
  rfl

/-- Stage 4 of the handshake: node `b` handles the ACCEPT of node `a`. -/
theorem accept_handled (st : mesh_network Unit) (a b i : Nat) (l : List Nat)
    (p1 p3 p4 p5 : nrf_pipe)
    (hbl : st.blacklist = List.replicate 10 0)
    (hc : st.connection.connections =
      [{ connection_state := mesh_connection_state.ACCEPTED, pipe_number := 0,
         connected_node := 0, nrf_address := discovery_address },
       p1,
       { connection_state := mesh_connection_state.RESPONDED, pipe_number := 2,
         connected_node := a, nrf_address := l }, p3, p4, p5])
    (hp1 : p1.connected_node = b) (ha : a ≠ 0) (hab : a ≠ b) :
    (st.handleMessage router.base
      { message.mk5 DISCOVERY.ACCEPT 0 a b 0 with
        message_id := i }).2.2.connection.connection_state a =
      mesh_connection_state.ACCEPTED := by
  generalize hmsg : ({ message.mk5 DISCOVERY.ACCEPT 0 a b 0 with message_id := i } : message) =
    msg
  have hsender : msg.sender = a := by rw [← hmsg]; rfl
  have htype : msg.type = DISCOVERY.ACCEPT := by rw [← hmsg]; rfl
  have hk : st.connection.getPipeByNodeId a = 2 := by
    rw [getPipeByNodeId_six _ _ _ _ _ _ _ hc]
    simp [Ne.symm ha, hp1, Ne.symm hab]
  rw [handleMessage_discovery _ _ _ (by rw [htype]; decide) (by rw [htype]; decide)
    (by rw [hsender]; exact is_blacklisted_fresh st a hbl ha),
    handle_discovery_accept _ _ htype]
  show nrf.connection_state (st.connection.discovery_accept_received msg) a = _
  have hc2 : (st.connection.discovery_accept_received msg).connections =
      [{ connection_state := mesh_connection_state.ACCEPTED, pipe_number := 0,
         connected_node := 0, nrf_address := discovery_address },
       p1,
       { connection_state := mesh_connection_state.ACCEPTED, pipe_number := 2,
         connected_node := a, nrf_address := l }, p3, p4, p5] := by
    unfold nrf.discovery_accept_received
    simp only [hsender, hk, hc]
    rfl
  unfold nrf.connection_state
  rw [getPipeByNodeId_six _ _ _ _ _ _ _ hc2]
  simp only [Ne.symm ha, hp1, Ne.symm hab, if_false, if_true]
  rw [if_neg (by decide), hc2]
  rfl

/-- C20. Two freshly constructed nodes with distinct non-zero ids `a` and `b`, the listen
discriminator `(a + 2) mod 256` of `a` not colliding with the discriminator 0x70 of its
broadcast pipe, on radios that acknowledge the transmissions of the handshake: after
`discover()` on `a`, `handleMessage` of the PRESENT frame on `b`, `handleMessage` of the
resulting RESPOND frame on `a` and `handleMessage` of the resulting ACCEPT frame on `b`,
node `a` reports `connection_state(b) = ACCEPTED` and node `b` reports
`connection_state(a) = ACCEPTED`. -/
theorem handshake_accepted (a b : Nat) (radio_a radio_b : nrf24l01plus)
    (rest_a rest_b : List Bool) (ha : a ≠ 0) (hb : b ≠ 0) (hab : a ≠ b)
    (hcol : (a + 2) % 256 ≠ 0x70)
    (hra : radio_a.tx_results = true :: true :: rest_a)
    (hrb : radio_b.tx_results = true :: rest_b) :
    (handshake router.base router.base (mesh_network.init (nrf.init a radio_a) ())
      (mesh_network.init (nrf.init b radio_b) ())).1.connection.connection_state b =
      mesh_connection_state.ACCEPTED ∧
    (handshake router.base router.base (mesh_network.init (nrf.init a radio_a) ())
      (mesh_network.init (nrf.init b radio_b) ())).2.connection.connection_state a =
      mesh_connection_state.ACCEPTED := by
  unfold handshake
  simp only []
  generalize hA0 : mesh_network.init (nrf.init a radio_a) () = A0
  generalize hB0 : mesh_network.init (nrf.init b radio_b) () = B0
  have a1 := present_send (nrf.init a radio_a) a (true :: rest_a)
    [0x72, 0x72, 0x72, 0x72, (a + 2) % 256] _ _ _ _ (init_connections a radio_a) rfl rfl ha hra
  obtain ⟨a11, a12, a13, a14, a15⟩ := a1
  have eA1 : A0.discover.connection =
      ((nrf.init a radio_a).send (message.mk5 DISCOVERY.PRESENT 0 a 0 0) 0).2.2 := by
    rw [← hA0]; rfl
  have blA1 : A0.discover.blacklist = List.replicate 10 0 := by rw [← hA0]; rfl
  rw [← eA1] at a11 a12 a13 a14 a15
  generalize A0.discover = A1 at *
  have a15' : A1.connection.last_frame =
      { message.mk5 DISCOVERY.PRESENT 0 a 0 0 with connectionData := [(a + 2) % 256, 0] } := a15
  rw [a15']
  obtain ⟨b11, b12, b13⟩ := present_handled B0 a b ((a + 2) % 256) rest_b
    [0x72, 0x72, 0x72, 0x72, (b + 2) % 256] (by rw [← hB0]; rfl)
    (by rw [← hB0]; exact init_connections b radio_b) (by rw [← hB0]; rfl)
    (by rw [← hB0]; rfl) ha hab (by rw [← hB0]; exact hrb)
  generalize (B0.handleMessage router.base
    { message.mk5 DISCOVERY.PRESENT 0 a 0 0 with
      connectionData := [(a + 2) % 256, 0] }).2.2 = B1 at *
  rw [b13]
  obtain ⟨a21, a22⟩ := respond_handled A1 a b rest_a [0x72, 0x72, 0x72, 0x72, (a + 2) % 256]
    blA1 (a11.trans (init_connections a radio_a)) a12 hcol hb hab a14
  have e4 : ([0x72, 0x72, 0x72, 0x72, (a + 2) % 256] : List Nat).getD 4 0 = (a + 2) % 256 := rfl
  rw [e4] at a21 a22
  refine ⟨a21, ?_⟩
  rw [a22]
  exact accept_handled B1 a b _ _ _ _ _ _ b11 b12 rfl ha hab

theorem handshake_accepted_witness :
    (handshake router.base router.base (fresh_network 0x10)
      (fresh_network 0x20)).1.connection.connection_state 0x20 =
      mesh_connection_state.ACCEPTED ∧
    (handshake router.base router.base (fresh_network 0x10)
      (fresh_network 0x20)).2.connection.connection_state 0x10 =
      mesh_connection_state.ACCEPTED :=
  handshake_accepted 0x10 0x20 sample_reliable_radio sample_reliable_radio
    (List.replicate 6 true) (List.replicate 7 true) (by decide) (by decide) (by decide)
    (by decide) rfl rfl

/-- The handshake of node 0x6E, whose listen discriminator 0x70 is that of the broadcast
pipe: the RESPOND of node 0x20 is looked up by discriminator, pipe 0 is found, node 0x6E
sends no ACCEPT (its log holds the PRESENT only) and does not report node 0x20 as
ACCEPTED; node 0x20 keeps node 0x6E as RESPONDED. -/
theorem handshake_broadcast_discriminator :
    (handshake router.base router.base (fresh_network 0x6E)
      (fresh_network 0x20)).1.connection.connection_state 0x20 =
      mesh_connection_state.DISCONNECTED ∧
    (handshake router.base router.base (fresh_network 0x6E)
      (fresh_network 0x20)).1.connection.nrf24.tx_log.map (fun r => r.data.getD 0 0) =
      [DISCOVERY.PRESENT] ∧
    (handshake router.base router.base (fresh_network 0x6E)
      (fresh_network 0x20)).2.connection.connection_state 0x6E =
      mesh_connection_state.RESPONDED := by
  decide

/-! ## `send_all` (C12, C13) -/

theorem connection_state_congr (s t : nrf) (h : t.connections = s.connections) (id : Nat) :
    t.connection_state id = s.connection_state id := by
  unfold nrf.connection_state
  rw [getPipeByNodeId_congr s t h, h]

theorem get_neighbours_length (s : nrf) : s.get_neighbours.length = s.get_neighbour_count := by
  unfold nrf.get_neighbours nrf.get_neighbour_count
  rw [List.length_map]

theorem get_neighbour_count_congr (s t : nrf) (h : t.connections = s.connections) :
    t.get_neighbour_count = s.get_neighbour_count := by
  unfold nrf.get_neighbour_count
  rw [h]

theorem get_neighbour_count_lt (s : nrf) : s.get_neighbour_count ≤ s.connections.length := by
  unfold nrf.get_neighbour_count
  refine (List.length_filter_le _ _).trans ?_
  rw [List.length_range']
  omega

theorem send_each_frame (msg : message) (targets : List Nat) (s : nrf) :
    (nrf.send_each msg targets s).2.connections = s.connections ∧
    (nrf.send_each msg targets s).2.id = s.id ∧
    (nrf.send_each msg targets s).1.map (fun t => t.1) = targets := by
  induction targets generalizing s with
  | nil => exact ⟨rfl, rfl, rfl⟩
  | cons n rest ih =>
    obtain ⟨h1, h2, h3⟩ := ih (s.send msg n).2.2
    obtain ⟨f1, f2, _⟩ := send_frame s msg n
    exact ⟨h1.trans f1, h2.trans f2, by simp [nrf.send_each, h3]⟩

/-- The loop of `send_all` from index `i` on, when the neighbour count of the adapter is
the length of the snapshot and the rounds left cover the rest of the snapshot: one `send`
for each remaining snapshot entry whose `connection_state` is ACCEPTED and that differs
from the sender. -/
theorem send_all_loop_spec (neighbours : List Nat) (msg : message) (flag : Bool)
    (rounds i : Nat) (s : nrf) (failed : List Nat) (all_successful : Bool)
    (hcount : s.get_neighbour_count = neighbours.length)
    (hrounds : neighbours.length ≤ i + rounds) :
    nrf.send_all_loop neighbours msg flag rounds i s failed all_successful =
      (all_successful &&
          (nrf.send_each msg ((neighbours.drop i).filter (fun n =>
            decide (s.connection_state n = mesh_connection_state.ACCEPTED ∧ msg.sender ≠ n)))
            s).1.all (fun t => t.2),
        failed ++ (if flag then
          ((nrf.send_each msg ((neighbours.drop i).filter (fun n =>
            decide (s.connection_state n = mesh_connection_state.ACCEPTED ∧ msg.sender ≠ n)))
            s).1.filter (fun t => !t.2)).map (fun t => t.1) else []),
        (nrf.send_each msg ((neighbours.drop i).filter (fun n =>
            decide (s.connection_state n = mesh_connection_state.ACCEPTED ∧ msg.sender ≠ n)))
            s).2) := by
  induction rounds generalizing i s failed all_successful with
  | zero =>
    have hd : neighbours.drop i = [] := List.drop_eq_nil_of_le (by omega)
    rw [hd]
    simp [nrf.send_all_loop, nrf.send_each]
  | succ n ih =>
    rw [nrf.send_all_loop]
    by_cases hi : i < neighbours.length
    · rw [if_pos (by rw [hcount]; exact hi)]
      have hd : neighbours.drop i = neighbours.getD i 0 :: neighbours.drop (i + 1) := by
        rw [List.drop_eq_getElem_cons hi, List.getD_eq_getElem?_getD,
          List.getElem?_eq_getElem hi]
        rfl
      rw [hd]
      generalize neighbours.getD i 0 = x
      by_cases hp : s.connection_state x = mesh_connection_state.ACCEPTED ∧ msg.sender ≠ x
      · rw [if_pos hp, List.filter_cons_of_pos (by simpa using hp)]
        obtain ⟨f1, _, _⟩ := send_frame s msg x
        have hc' : (s.send msg x).2.2.get_neighbour_count = neighbours.length := by
          rw [get_neighbour_count_congr s _ f1]; exact hcount
        have hf : (fun n => decide ((s.send msg x).2.2.connection_state n =
              mesh_connection_state.ACCEPTED ∧ msg.sender ≠ n)) =
            (fun n => decide (s.connection_state n =
              mesh_connection_state.ACCEPTED ∧ msg.sender ≠ n)) := by
          funext n
          rw [connection_state_congr s _ f1]
        simp only []
        cases hr : (s.send msg x).1
        · simp only [Bool.not_false, if_true]
          rw [ih (i + 1) (s.send msg x).2.2 _ false hc' (by omega), hf]
          cases flag <;> simp [nrf.send_each, hr]
        · simp only [Bool.not_true, Bool.false_eq_true, if_false]
          rw [ih (i + 1) (s.send msg x).2.2 _ all_successful hc' (by omega), hf]
          cases flag <;> simp [nrf.send_each, hr]
      · rw [if_neg hp, List.filter_cons_of_neg (by simpa using hp)]
        exact ih (i + 1) s failed all_successful hcount (by omega)
    · rw [if_neg (by rw [hcount]; exact hi)]
      have hd : neighbours.drop i = [] := List.drop_eq_nil_of_le (by omega)
      rw [hd]
      simp [nrf.send_each]

/-- The whole of `send_all` as one `send` per target. -/
theorem send_all_eq (s : nrf) (msg : message) (has_failed_addresses : Bool) :
    s.send_all msg has_failed_addresses =
      ((nrf.send_each (s.add_message_id msg).1 (s.send_all_targets msg)
          (s.add_message_id msg).2).1.all (fun t => t.2),
        (s.add_message_id msg).1,
        (if has_failed_addresses then
          ((nrf.send_each (s.add_message_id msg).1 (s.send_all_targets msg)
            (s.add_message_id msg).2).1.filter (fun t => !t.2)).map (fun t => t.1)
          else []),
        (nrf.send_each (s.add_message_id msg).1 (s.send_all_targets msg)
          (s.add_message_id msg).2).2) := by
  obtain ⟨fc, _, _, fs, _⟩ := add_message_id_frame s msg
  have hcount : (s.add_message_id msg).2.get_neighbour_count = s.get_neighbours.length := by
    rw [get_neighbour_count_congr s _ fc, get_neighbours_length]
  have hl := send_all_loop_spec s.get_neighbours (s.add_message_id msg).1 has_failed_addresses
    (s.add_message_id msg).2.connections.length 0 (s.add_message_id msg).2 [] true hcount
    (by
      rw [fc, get_neighbours_length]
      have := get_neighbour_count_lt s
      omega)
  have hf : (fun n => decide ((s.add_message_id msg).2.connection_state n =
        mesh_connection_state.ACCEPTED ∧ (s.add_message_id msg).1.sender ≠ n)) =
      (fun n => decide (s.connection_state n =
        mesh_connection_state.ACCEPTED ∧ msg.sender ≠ n)) := by
    funext n
    rw [connection_state_congr s _ fc, fs]
  rw [hf, List.drop_zero] at hl
  unfold nrf.send_all
  simp only []
  rw [hl]
  unfold nrf.send_all_targets
  simp

theorem send_all_frame (s : nrf) (msg : message) (has_failed_addresses : Bool) :
    (s.send_all msg has_failed_addresses).2.2.2.connections = s.connections ∧
    (s.send_all msg has_failed_addresses).2.2.2.id = s.id := by
  rw [send_all_eq]
  obtain ⟨h1, h2, _⟩ := send_each_frame (s.add_message_id msg).1 (s.send_all_targets msg)
    (s.add_message_id msg).2
  obtain ⟨fc, _, fi, _, _⟩ := add_message_id_frame s msg
  exact ⟨h1.trans fc, h2.trans fi⟩

/-- C12 (counterexample). In `sample_duplicate` pipe 3 is ACCEPTED with node 0x20, which
`get_neighbours` writes, but `connection_state(0x20)` reports the RESPONDED pipe 2:
`send_all` of a message of node 0x10 makes no send at all (the radio log is unchanged, the
failure array stays empty) and returns true. -/
theorem send_all_skips_accepted_neighbour :
    (sample_duplicate.connections.getD 3 default).connection_state =
      mesh_connection_state.ACCEPTED ∧
    (sample_duplicate.connections.getD 3 default).connected_node = 0x20 ∧
    sample_duplicate.get_neighbours = [0x20] ∧
    sample_broadcast.sender = 0x10 ∧
    sample_duplicate.send_all_targets sample_broadcast = [] ∧
    (sample_duplicate.send_all sample_broadcast true).1 = true ∧
    (sample_duplicate.send_all sample_broadcast true).2.2.1 = [] ∧
    (sample_duplicate.send_all sample_broadcast true).2.2.2.nrf24.tx_log =
      sample_duplicate.nrf24.tx_log := by
  decide

/-- C12 (amended). For every adapter and message, `send_all` makes one `send` of a copy of
the message (as `add_message_id` leaves it) to each id written by `get_neighbours`, in
pipe-index order, for which `connection_state` (the state of the lowest-index pipe that has
the id) is ACCEPTED and which differs from `msg.sender`, and no other `send`.  It returns
true exactly when every one of these sends returned true, and with `failed_addresses`
supplied the ids written from its start on are exactly those whose send returned false, in
the same order (nothing is written without it). -/
theorem send_all_spec (s : nrf) (msg : message) (has_failed_addresses : Bool) :
    (nrf.send_each (s.add_message_id msg).1 (s.send_all_targets msg)
      (s.add_message_id msg).2).1.map (fun t => t.1) =
      s.get_neighbours.filter (fun n =>
        decide (s.connection_state n = mesh_connection_state.ACCEPTED ∧ msg.sender ≠ n)) ∧
    (s.send_all msg has_failed_addresses).1 =
      (nrf.send_each (s.add_message_id msg).1 (s.send_all_targets msg)
        (s.add_message_id msg).2).1.all (fun t => t.2) ∧
    (s.send_all msg has_failed_addresses).2.2.1 =
      (if has_failed_addresses then
        ((nrf.send_each (s.add_message_id msg).1 (s.send_all_targets msg)
          (s.add_message_id msg).2).1.filter (fun t => !t.2)).map (fun t => t.1)
        else []) ∧
    (s.send_all msg has_failed_addresses).2.2.2 =
      (nrf.send_each (s.add_message_id msg).1 (s.send_all_targets msg)
        (s.add_message_id msg).2).2 ∧
    (s.send_all msg has_failed_addresses).2.1 = (s.add_message_id msg).1 := by
  rw [send_all_eq]
  exact ⟨(send_each_frame _ _ _).2.2, rfl, rfl, rfl, rfl⟩

/-- C13 (failing input). On the freshly constructed adapter of node 0x10, linked to the
nodes 0x20 and 0x30, `send_all` of a message of this node with `message_id = 0` succeeds,
but the copy sent to node 0x20 carries message id 1 and the copy sent to node 0x30 carries
message id 2 (byte 1 of the two frames), the message itself is left with id 0, and the
message-id counter goes from 0 to 3. -/
theorem send_all_assigns_several_ids :
    sample_two_neighbours.id = 0x10 ∧ sample_two_neighbours.current_message_id = 0 ∧
    sample_two_neighbours.get_neighbours = [0x20, 0x30] ∧
    sample_broadcast.sender = 0x10 ∧ sample_broadcast.message_id = 0 ∧
    (sample_two_neighbours.send_all sample_broadcast true).1 = true ∧
    (sample_two_neighbours.send_all sample_broadcast true).2.1.message_id = 0 ∧
    (sample_two_neighbours.send_all sample_broadcast true).2.2.2.nrf24.tx_log.map
        (fun r => (r.address.getD 4 0, r.data.getD 1 0)) =
      sample_two_neighbours.nrf24.tx_log.map (fun r => (r.address.getD 4 0, r.data.getD 1 0))
        ++ [(0x12, 1), (0x14, 2)] ∧
    (sample_two_neighbours.send_all sample_broadcast true).2.2.2.current_message_id = 3 := by
  decide

/-! ## Reachable states of the adapter (C14) -/

theorem next_message_frame (s : nrf) :
    s.next_message.2.connections = s.connections ∧ s.next_message.2.id = s.id := by
  unfold nrf.next_message
  simp only []
  split <;> exact ⟨rfl, rfl⟩

theorem init_inv (address : Nat) (radio : nrf24l01plus) :
    pipes_inv (nrf.init address radio).connections := by
  rw [init_connections]
  refine ⟨rfl, rfl, rfl, ?_⟩
  intro i hi j hj h1 h2
  have e1 : i = 1 := by
    interval_cases i <;> first | rfl | (exfalso; simp [nrf_pipe.init] at h1)
  have e2 : j = 1 := by
    interval_cases j <;> first | rfl | (exfalso; simp [nrf_pipe.init] at h2)
  rw [e1, e2]

/-- Every reachable state of the adapter has the pipe invariant and a non-zero id. -/
theorem reachable_inv (s : nrf) (h : nrf.reachable s) : pipes_inv s.connections ∧ s.id ≠ 0 := by
  induction h with
  | construct address radio h => exact ⟨init_inv address radio, h⟩
  | discovery_present_received s origin _ ih =>
    obtain ⟨h1, h2⟩ := discovery_present_received_inv s origin ih.1
    exact ⟨h1, by rw [h2]; exact ih.2⟩
  | discovery_respond_received s origin _ ih =>
    obtain ⟨h1, h2⟩ := discovery_respond_received_inv s origin ih.1 ih.2
    exact ⟨h1, by rw [h2]; exact ih.2⟩
  | discovery_accept_received s origin _ ih =>
    obtain ⟨h1, h2⟩ := discovery_accept_received_inv s origin ih.1
    exact ⟨h1, by rw [h2]; exact ih.2⟩
  | remove_direct_connection s id _ ih =>
    exact ⟨remove_direct_connection_inv s id ih.1,
      by rw [(remove_direct_connection_frame s id).1]; exact ih.2⟩
  | send s message next_hop _ ih =>
    obtain ⟨h1, h2, _⟩ := send_frame s message next_hop
    exact ⟨by rw [h1]; exact ih.1, by rw [h2]; exact ih.2⟩
  | send_all s msg flag _ ih =>
    obtain ⟨h1, h2⟩ := send_all_frame s msg flag
    exact ⟨by rw [h1]; exact ih.1, by rw [h2]; exact ih.2⟩
  | is_new_message s msg _ ih =>
    refine ⟨ih.1, ?_⟩
    have : (s.is_new_message msg).2.id = s.id := is_new_message_id s.toconnectivity_adapter msg
    rw [this]; exact ih.2
  | has_message s _ ih => exact ih
  | next_message s _ ih =>
    obtain ⟨h1, h2⟩ := next_message_frame s
    exact ⟨by rw [h1]; exact ih.1, by rw [h2]; exact ih.2⟩

/-- C15 (counterexample). The adapter of node 0x10 after `discovery_present_received` for
the nodes 0x30 and 0x20, `discovery_accept_received` for 0x20,
`remove_direct_connection(0x30)` and `discovery_present_received` for 0x20 again is
reachable; `get_neighbours` writes the one id 0x20 (pipe 3 is ACCEPTED), but
`connection_state(0x20)` is RESPONDED, the state of pipe 2, the lowest pipe with that
node. -/
theorem get_neighbours_id_not_accepted :
    nrf.reachable sample_duplicate ∧
    sample_duplicate.get_neighbour_count = 1 ∧
    sample_duplicate.get_neighbours = [0x20] ∧
    sample_duplicate.connection_state 0x20 = mesh_connection_state.RESPONDED :=
  ⟨nrf.reachable.discovery_present_received _ sample_present_20
    (nrf.reachable.remove_direct_connection _ 0x30
      (nrf.reachable.discovery_accept_received _ sample_accept
        (nrf.reachable.discovery_present_received _ sample_present_20
          (nrf.reachable.discovery_present_received _ sample_present_30
            (nrf.reachable.construct 0x10 sample_radio (by decide)))))),
    by decide, by decide, by decide⟩

theorem drop_one_six (c : List nrf_pipe) (h : c.length = 6) :
    c.drop 1 = (List.range' 1 (c.length - 1)).map (fun i => c.getD i default) := by
  match c, h with
  | [_, _, _, _, _, _], _ => rfl

/-- C15 (amended). For every adapter with its six pipes, `get_neighbours` writes exactly
`get_neighbour_count()` ids, the connected nodes of the ACCEPTED pipes among pipes 1 to 5
in pipe-index order, and `connection_state(id) = ACCEPTED` holds for the id of each such
pipe that no pipe of lower index has as its connected node. -/
theorem get_neighbours_spec (s : nrf) (hlen : s.connections.length = 6) :
    s.get_neighbours.length = s.get_neighbour_count ∧
    s.get_neighbours =
      ((s.connections.drop 1).filter (fun p =>
        p.connection_state == mesh_connection_state.ACCEPTED)).map
        (fun p => p.connected_node) ∧
    (∀ id, id ∈ s.get_neighbours ↔ ∃ i, 1 ≤ i ∧ i < 6 ∧
      (s.connections.getD i default).connection_state = mesh_connection_state.ACCEPTED ∧
      (s.connections.getD i default).connected_node = id) ∧
    (∀ i, 1 ≤ i → i < 6 →
      (s.connections.getD i default).connection_state = mesh_connection_state.ACCEPTED →
      (∀ j, j < i → (s.connections.getD j default).connected_node ≠
        (s.connections.getD i default).connected_node) →
      s.connection_state (s.connections.getD i default).connected_node =
        mesh_connection_state.ACCEPTED) := by
  refine ⟨get_neighbours_length s, ?_, ?_, ?_⟩
  · rw [drop_one_six _ hlen, List.filter_map, List.map_map]
    rfl
  · intro id
    unfold nrf.get_neighbours
    rw [hlen]
    simp only [List.mem_map, List.mem_filter, List.mem_range'_1, beq_iff_eq]
    constructor
    · rintro ⟨i, ⟨⟨h1, h2⟩, h3⟩, h4⟩
      exact ⟨i, h1, by omega, h3, h4⟩
    · rintro ⟨i, h1, h2, h3, h4⟩
      exact ⟨i, ⟨⟨h1, by omega⟩, h3⟩, h4⟩
  · intro i h1 h6 hs hlow
    unfold nrf.connection_state
    rcases getPipeByNodeId_spec s (s.connections.getD i default).connected_node with
      ⟨_, k2⟩ | ⟨k1, k2, k3⟩
    · exact absurd rfl (k2 i h6)
    · have hk : s.getPipeByNodeId (s.connections.getD i default).connected_node = i := by
        rcases Nat.lt_trichotomy
          (s.getPipeByNodeId (s.connections.getD i default).connected_node) i with h | h | h
        · exact absurd k2 (hlow _ h)
        · exact h
        · exact absurd rfl (k3 i h)
      simp only []
      rw [hk, if_neg (by omega)]
      exact hs

theorem get_neighbours_spec_witness :
    sample_duplicate.connections.length = 6 ∧
    sample_duplicate.get_neighbours.length = sample_duplicate.get_neighbour_count ∧
    sample_duplicate.get_neighbours =
      ((sample_duplicate.connections.drop 1).filter (fun p =>
        p.connection_state == mesh_connection_state.ACCEPTED)).map
        (fun p => p.connected_node) :=
  have h := get_neighbours_spec sample_duplicate (by decide)
  ⟨by decide, h.1, h.2.1⟩

/-! ## `discovery_respond_received` (C17) -/

/-- C17 (counterexample). On the freshly constructed adapter of node 0x6E pipe 1 is
WAITING with connected node 0x6E and discriminator 0x70, yet
`discovery_respond_received` returns false for a RESPOND naming 0x70: the lookup by
discriminator finds pipe 0, whose address ends in 0x70 as well.  And on the adapter of node
0x10 after an ACCEPT carrying its own id no pipe is WAITING, yet
`discovery_respond_received` returns true for a RESPOND naming 0x12. -/
theorem discovery_respond_received_not_waiting_pipe :
    (nrf.reachable (nrf.init 0x6E sample_radio) ∧
      ((nrf.init 0x6E sample_radio).connections.getD 1 default).connection_state =
        mesh_connection_state.WAITING ∧
      ((nrf.init 0x6E sample_radio).connections.getD 1 default).connected_node =
        (nrf.init 0x6E sample_radio).id ∧
      ((nrf.init 0x6E sample_radio).connections.getD 1 default).nrf_address.getD 4 0 =
        sample_respond_70.connectionData.getD 0 0 ∧
      ((nrf.init 0x6E sample_radio).discovery_respond_received sample_respond_70).1 = false) ∧
    (nrf.reachable (sample_node.discovery_accept_received sample_accept_own) ∧
      (sample_node.discovery_accept_received sample_accept_own).waiting_count = 0 ∧
      ((sample_node.discovery_accept_received sample_accept_own).discovery_respond_received
        sample_respond).1 = true) :=
  ⟨⟨nrf.reachable.construct 0x6E sample_radio (by decide), by decide, by decide, by decide,
      by decide⟩,
    ⟨nrf.reachable.discovery_accept_received _ sample_accept_own
      (nrf.reachable.construct 0x10 sample_radio (by decide)), by decide, by decide⟩⟩

/-- C17 (amended). For every adapter and RESPOND message, `discovery_respond_received`
returns true exactly when some pipe has the discriminator `connectionData[0]` as the last
byte of its address and the lowest-index such pipe has the adapter's own id as connected
node, whatever the state of that pipe; when it returns false nothing changed. -/
theorem discovery_respond_received_spec (s : nrf) (origin : message) :
    ((s.discovery_respond_received origin).1 = true ↔
      ∃ k, k < 6 ∧
        (s.connections.getD k default).nrf_address.getD 4 0 = origin.connectionData.getD 0 0 ∧
        (∀ i, i < k → (s.connections.getD i default).nrf_address.getD 4 0 ≠
          origin.connectionData.getD 0 0) ∧
        (s.connections.getD k default).connected_node = s.id) ∧
    ((s.discovery_respond_received origin).1 = false →
      (s.discovery_respond_received origin).2 = s) := by
  unfold nrf.discovery_respond_received
  simp only []
  rcases getPipeByNRFAddress_spec s (origin.connectionData.getD 0 0) with
    ⟨h1, h2⟩ | ⟨h1, h2, h3⟩
  · rw [if_pos (Or.inl h1)]
    exact ⟨⟨fun h => absurd h (by simp), fun ⟨k, hk, hd, _⟩ => absurd hd (h2 k hk)⟩,
      fun _ => rfl⟩
  · by_cases hn : (s.connections.getD (s.getPipeByNRFAddress (origin.connectionData.getD 0 0))
        default).connected_node = s.id
    · rw [if_neg (by
        intro h
        rcases h with h | h
        · omega
        · exact h hn)]
      exact ⟨⟨fun _ => ⟨_, h1, h2, h3, hn⟩, fun _ => rfl⟩, fun h => absurd h (by simp)⟩
    · rw [if_pos (Or.inr hn)]
      refine ⟨⟨fun h => absurd h (by simp), ?_⟩, fun _ => rfl⟩
      rintro ⟨k, hk, hd, hlow, hid⟩
      exfalso
      apply hn
      have : s.getPipeByNRFAddress (origin.connectionData.getD 0 0) = k := by
        rcases Nat.lt_trichotomy (s.getPipeByNRFAddress (origin.connectionData.getD 0 0)) k
          with h | h | h
        · exact absurd h2 (hlow _ h)
        · exact h
        · exact absurd hd (h3 k h)
      rw [this]; exact hid

/-! ## `discovery_accept_received` (C19) -/

/-- C19 (failing input). For every adapter with its six pipes and every ACCEPT whose
sender is not the connected node of any pipe, the pipe that `discovery_accept_received`
sets to ACCEPTED is `connections[getPipeByNodeId(sender)]` with index 6: one behind the
last pipe of the array, not one of the pipes 0 to 5. -/
theorem discovery_accept_received_index_outside (s : nrf) (origin : message)
    (hlen : s.connections.length = 6)
    (hunknown : ∀ i, i < 6 → (s.connections.getD i default).connected_node ≠ origin.sender) :
    s.discovery_accept_received origin =
      { s with
        connections :=
          s.connections.set (s.getPipeByNodeId origin.sender)
            { s.connections.getD (s.getPipeByNodeId origin.sender) default with
              connection_state := mesh_connection_state.ACCEPTED } } ∧
    s.getPipeByNodeId origin.sender = 6 ∧
    ¬ s.getPipeByNodeId origin.sender < s.connections.length := by
  have hk : s.getPipeByNodeId origin.sender = 6 := by
    rcases getPipeByNodeId_spec s origin.sender with ⟨h1, _⟩ | ⟨h1, h2, _⟩
    · exact h1
    · exact absurd h2 (hunknown _ h1)
  exact ⟨rfl, hk, by rw [hk, hlen]; decide⟩

theorem discovery_accept_received_index_outside_witness :
    sample_node.connections.length = 6 ∧
    (∀ i, i < 6 →
      (sample_node.connections.getD i default).connected_node ≠ sample_accept.sender) ∧
    sample_node.getPipeByNodeId sample_accept.sender = 6 ∧
    ¬ sample_node.getPipeByNodeId sample_accept.sender < sample_node.connections.length :=
  ⟨by decide, by decide,
    (discovery_accept_received_index_outside sample_node sample_accept (by decide)
      (by decide)).2⟩

/-! ## `remove_direct_connection` (C18) -/

/-- C18 (counterexample). In the reachable adapter state of node 0x10 in which pipe 2
(RESPONDED) and pipe 3 (ACCEPTED) both have connected node 0x20,
`remove_direct_connection(0x20)` disconnects pipe 2 only: afterwards
`connection_state(0x20)` is ACCEPTED and `get_neighbours` still writes 0x20. -/
theorem remove_direct_connection_keeps_second_pipe :
    nrf.reachable sample_duplicate ∧ sample_duplicate.id = 0x10 ∧
    (sample_duplicate.connections.getD 2 default).connected_node = 0x20 ∧
    (sample_duplicate.remove_direct_connection 0x20).connection_state 0x20 =
      mesh_connection_state.ACCEPTED ∧
    (sample_duplicate.remove_direct_connection 0x20).get_neighbours = [0x20] :=
  ⟨nrf.reachable.discovery_present_received _ sample_present_20
    (nrf.reachable.remove_direct_connection _ 0x30
      (nrf.reachable.discovery_accept_received _ sample_accept
        (nrf.reachable.discovery_present_received _ sample_present_20
          (nrf.reachable.discovery_present_received _ sample_present_30
            (nrf.reachable.construct 0x10 sample_radio (by decide)))))),
    by decide, by decide, by decide, by decide⟩

/-- The pipes after `remove_direct_connection(id)` when the lookup finds the pipe `p`,
not pipe 0: pipe `p` is DISCONNECTED with node 0, and then `start_waiting` has left the
pipes alone or made the lowest DISCONNECTED pipe the listen pipe. -/
theorem remove_direct_connection_pipes (s : nrf) (id : Nat)
    (h6 : s.getPipeByNodeId id ≠ 6) (h0 : s.getPipeByNodeId id ≠ 0)
    (hlen : s.connections.length = 6) :
    (∀ j, j < 6 →
      ((s.remove_direct_connection id).connections.getD j default).connected_node = s.id ∨
      (j = s.getPipeByNodeId id ∧
        ((s.remove_direct_connection id).connections.getD j default).connected_node = 0) ∨
      (j ≠ s.getPipeByNodeId id ∧
        (s.remove_direct_connection id).connections.getD j default =
          s.connections.getD j default)) ∧
    (((s.remove_direct_connection id).connections.getD (s.getPipeByNodeId id)
        default).connection_state = mesh_connection_state.DISCONNECTED ∨
      ((s.remove_direct_connection id).connections.getD (s.getPipeByNodeId id)
        default).connection_state = mesh_connection_state.WAITING) ∧
    ∃ i, i < 6 ∧ ((s.remove_direct_connection id).connections.getD i default).connection_state =
      mesh_connection_state.WAITING := by
  have hp : s.getPipeByNodeId id < 6 := by
    rcases getPipeByNodeId_spec s id with ⟨h, _⟩ | ⟨h, _⟩
    · exact absurd h h6
    · exact h
  have key : ∃ (conn : nrf_pipe) (s1 : nrf),
      s.remove_direct_connection id = s1.start_waiting ∧
      s1.connections = s.connections.set (s.getPipeByNodeId id) conn ∧ s1.id = s.id ∧
      conn.connection_state = mesh_connection_state.DISCONNECTED ∧
      conn.connected_node = 0 := by
    unfold nrf.remove_direct_connection
    simp only []
    rw [if_neg (by
      intro h
      rcases h with h | h
      · exact h6 h
      · exact h0 h)]
    exact ⟨_, _, rfl, rfl, forget_loop_id _ _ _ _, rfl, rfl⟩
  obtain ⟨conn, s1, hrem, c1, i1, hcs, hcn⟩ := key
  rw [hrem]
  have g1 : ∀ j, s1.connections.getD j default =
      if j = s.getPipeByNodeId id then conn else s.connections.getD j default := by
    intro j
    rw [c1, getD_set_pipe]
    by_cases e : j = s.getPipeByNodeId id
    · rw [if_pos ⟨e, by omega⟩, if_pos e]
    · rw [if_neg (fun h => e h.1), if_neg e]
  have base : ∀ j, j < 6 →
      (j = s.getPipeByNodeId id ∧ (s1.connections.getD j default).connected_node = 0) ∨
      (j ≠ s.getPipeByNodeId id ∧ s1.connections.getD j default =
        s.connections.getD j default) := by
    intro j _
    rw [g1]
    by_cases e : j = s.getPipeByNodeId id
    · left; rw [if_pos e]; exact ⟨e, hcn⟩
    · right; rw [if_neg e]; exact ⟨e, rfl⟩
  have hpd : (s1.connections.getD (s.getPipeByNodeId id) default).connection_state =
      mesh_connection_state.DISCONNECTED := by
    rw [g1, if_pos rfl]; exact hcs
  rcases start_waiting_cases s1 with ⟨⟨j, j1, j2, hj⟩, e⟩ | ⟨_, hnd, _⟩ |
    ⟨_, i, hi, _, _, hset, _, _, _⟩
  · rw [e]
    exact ⟨fun j hj => Or.inr (base j hj), Or.inl hpd, j, j2, hj⟩
  · exfalso
    exact hnd _ (by rw [c1]; simp; omega) hpd
  · have hi6 : i < 6 := by rw [c1] at hi; simpa [hlen] using hi
    have g2 : ∀ j, s1.start_waiting.connections.getD j default =
        if j = i then
          { connection_state := mesh_connection_state.WAITING,
            pipe_number := (s1.connections.getD i default).pipe_number,
            connected_node := s1.id,
            nrf_address :=
              nrf.next_listen_address s1.connections 128 (address_with base_address s1.id) }
        else s1.connections.getD j default := by
      intro j
      rw [hset, getD_set_pipe]
      by_cases e : j = i
      · rw [if_pos ⟨e, hi⟩, if_pos e]
      · rw [if_neg (fun h => e h.1), if_neg e]
    refine ⟨?_, ?_, i, hi6, by rw [g2, if_pos rfl]⟩
    · intro j hj
      rw [g2]
      by_cases e : j = i
      · left; rw [if_pos e]; exact i1
      · right; rw [if_neg e]; exact base j hj
    · rw [g2]
      by_cases e : s.getPipeByNodeId id = i
      · right; rw [if_pos e]
      · left; rw [if_neg e]; exact hpd

/-- C18 (amended). For every reachable adapter state and every id that is neither 0 nor
the adapter's own id and is the connected node of some pipe: after
`remove_direct_connection(id)` the lowest-index pipe that had connected node `id` no
longer has it and is DISCONNECTED or the new WAITING listen pipe, some pipe is WAITING,
and if no other pipe had connected node `id` then `connection_state(id)` is DISCONNECTED
and `id` is not among the ids written by `get_neighbours`.  `remove_direct_connection(id)`
changes nothing when no pipe has connected node `id` and when `id = 0`. -/
theorem remove_direct_connection_spec (s : nrf) (id : Nat) (hr : nrf.reachable s)
    (h0 : id ≠ 0) (hown : id ≠ s.id)
    (hconn : ∃ i, i < 6 ∧ (s.connections.getD i default).connected_node = id) :
    (1 ≤ s.getPipeByNodeId id ∧ s.getPipeByNodeId id < 6 ∧
      (s.connections.getD (s.getPipeByNodeId id) default).connected_node = id ∧
      ∀ i, i < s.getPipeByNodeId id → (s.connections.getD i default).connected_node ≠ id) ∧
    ((s.remove_direct_connection id).connections.getD (s.getPipeByNodeId id)
        default).connected_node ≠ id ∧
    (((s.remove_direct_connection id).connections.getD (s.getPipeByNodeId id)
        default).connection_state = mesh_connection_state.DISCONNECTED ∨
      ((s.remove_direct_connection id).connections.getD (s.getPipeByNodeId id)
        default).connection_state = mesh_connection_state.WAITING) ∧
    (∃ i, i < 6 ∧ ((s.remove_direct_connection id).connections.getD i default).connection_state =
      mesh_connection_state.WAITING) ∧
    ((∀ i, i < 6 → i ≠ s.getPipeByNodeId id →
        (s.connections.getD i default).connected_node ≠ id) →
      (s.remove_direct_connection id).connection_state id =
        mesh_connection_state.DISCONNECTED ∧
      id ∉ (s.remove_direct_connection id).get_neighbours) ∧
    (∀ other, (∀ i, i < 6 → (s.connections.getD i default).connected_node ≠ other) →
      s.remove_direct_connection other = s) ∧
    s.remove_direct_connection 0 = s := by
  obtain ⟨hinv, hid⟩ := reachable_inv s hr
  obtain ⟨hlen, _, hn0, _⟩ := hinv
  obtain ⟨w, hw6, hwn⟩ := hconn
  have hfound : s.getPipeByNodeId id < 6 ∧
      (s.connections.getD (s.getPipeByNodeId id) default).connected_node = id ∧
      ∀ i, i < s.getPipeByNodeId id → (s.connections.getD i default).connected_node ≠ id := by
    rcases getPipeByNodeId_spec s id with ⟨_, h2⟩ | h
    · exact absurd hwn (h2 w hw6)
    · exact h
  have hp0 : s.getPipeByNodeId id ≠ 0 := by
    intro e
    have := hfound.2.1
    rw [e, hn0] at this
    exact h0 this.symm
  obtain ⟨p1, p2, p3⟩ := remove_direct_connection_pipes s id (by omega) hp0 hlen
  have hnode : ∀ j, j < 6 → (j = s.getPipeByNodeId id ∨
      (s.connections.getD j default).connected_node ≠ id) →
      ((s.remove_direct_connection id).connections.getD j default).connected_node ≠ id := by
    intro j hj hc
    rcases p1 j hj with h | ⟨_, h⟩ | ⟨hne, h⟩
    · rw [h]; exact Ne.symm hown
    · rw [h]; exact Ne.symm h0
    · rw [h]
      rcases hc with hc | hc
      · exact absurd hc hne
      · exact hc
  refine ⟨⟨by omega, hfound⟩, hnode _ hfound.1 (Or.inl rfl), p2, p3, ?_, ?_, ?_⟩
  · intro hsingle
    have hall : ∀ j, j < 6 →
        ((s.remove_direct_connection id).connections.getD j default).connected_node ≠ id := by
      intro j hj
      by_cases e : j = s.getPipeByNodeId id
      · exact hnode j hj (Or.inl e)
      · exact hnode j hj (Or.inr (hsingle j hj e))
    have hk : (s.remove_direct_connection id).getPipeByNodeId id = 6 := by
      rcases getPipeByNodeId_spec (s.remove_direct_connection id) id with ⟨h, _⟩ | ⟨h1, h2, _⟩
      · exact h
      · exact absurd h2 (hall _ h1)
    refine ⟨by unfold nrf.connection_state; rw [hk]; rfl, ?_⟩
    unfold nrf.get_neighbours
    rw [(remove_direct_connection_frame s id).2, hlen]
    simp only [List.mem_map, List.mem_filter, List.mem_range'_1, not_exists, not_and]
    intro j hj
    exact hall j (by omega)
  · intro other hother
    have hk : s.getPipeByNodeId other = 6 := by
      rcases getPipeByNodeId_spec s other with ⟨h, _⟩ | ⟨h1, h2, _⟩
      · exact h
      · exact absurd h2 (hother _ h1)
    unfold nrf.remove_direct_connection
    simp only []
    rw [if_pos (Or.inl hk)]
  · have hk : s.getPipeByNodeId 0 = 0 := by
      rcases getPipeByNodeId_spec s 0 with ⟨_, h2⟩ | ⟨_, _, h3⟩
      · exact absurd hn0 (h2 0 (by decide))
      · by_contra hne
        exact h3 0 (Nat.pos_of_ne_zero hne) hn0
    unfold nrf.remove_direct_connection
    simp only []
    rw [if_pos (Or.inr hk)]

theorem remove_direct_connection_spec_witness :
    (0x20 : Nat) ≠ sample_linked_network.connection.id ∧
    (∃ i, i < 6 ∧
      (sample_linked_network.connection.connections.getD i default).connected_node = 0x20) ∧
    (sample_linked_network.connection.remove_direct_connection 0x20).connection_state 0x20 =
      mesh_connection_state.DISCONNECTED ∧
    0x20 ∉ (sample_linked_network.connection.remove_direct_connection 0x20).get_neighbours :=
  have h := remove_direct_connection_spec sample_linked_network.connection 0x20
    (nrf.reachable.send _ _ _
      (nrf.reachable.discovery_respond_received _ _
        (nrf.reachable.is_new_message _ sample_respond
          (nrf.reachable.construct 0x10 sample_radio (by decide)))))
    (by decide) (by decide) ⟨1, by decide, by decide⟩
  ⟨by decide, ⟨1, by decide, by decide⟩, h.2.2.2.2.1 (by decide)⟩

/-! ## The listen address of `start_waiting` (C21) -/

/-- The search ends on the first candidate no pipe uses, or every candidate tried is in
use. -/
theorem next_listen_address_least (connections : List nrf_pipe) :
    ∀ (rounds : Nat) (b : List Nat), 5 ≤ b.length →
      (∃ k, 1 ≤ k ∧ k ≤ rounds ∧
        nrf.next_listen_address connections rounds b = listen_candidate b k ∧
        ¬ connections.any (fun p => p.nrf_address == listen_candidate b k) = true ∧
        ∀ j, 1 ≤ j → j < k →
          connections.any (fun p => p.nrf_address == listen_candidate b j) = true) ∨
      (∀ j, 1 ≤ j → j ≤ rounds →
        connections.any (fun p => p.nrf_address == listen_candidate b j) = true) := by
  intro rounds
  induction rounds with
  | zero =>
    intro b _
    right
    intro j h1 h2
    omega
  | succ n ih =>
    intro b hb
    unfold nrf.next_listen_address
    simp only []
    by_cases hc : connections.any
        (fun p => p.nrf_address == b.set 4 ((b.getD 4 0 + 2) % 256)) = true
    · rw [if_pos hc]
      rcases ih (b.set 4 ((b.getD 4 0 + 2) % 256)) (by simpa using hb) with h | h
      · left
        obtain ⟨k, k1, k2, k3, k4, k5⟩ := h
        rw [listen_candidate_succ b hb] at k3 k4
        refine ⟨k + 1, by omega, by omega, k3, k4, ?_⟩
        intro j j1 j2
        by_cases hj : j = 1
        · subst hj; exact hc
        · have := k5 (j - 1) (by omega) (by omega)
          rw [listen_candidate_succ b hb, show j - 1 + 1 = j by omega] at this
          exact this
      · right
        intro j h1 h2
        by_cases hj : j = 1
        · subst hj; exact hc
        · have := h (j - 1) (by omega) (by omega)
          rw [listen_candidate_succ b hb, show j - 1 + 1 = j by omega] at this
          exact this
    · left
      rw [if_neg hc]
      exact ⟨1, by omega, by omega, rfl, hc, fun j h1 h2 => absurd h2 (by omega)⟩

/-- Candidates in use up to round `n ≤ 128` are `n` different pipe addresses. -/
theorem taken_candidates_le (connections : List nrf_pipe) (b : List Nat) (hb : 5 ≤ b.length)
    (n : Nat) (hn : n ≤ 128)
    (h : ∀ j, 1 ≤ j → j ≤ n →
      connections.any (fun p => p.nrf_address == listen_candidate b j) = true) :
    n ≤ connections.length := by
  have hsub : (List.range n).map (fun j => listen_candidate b (j + 1)) ⊆
      connections.map (fun p => p.nrf_address) := by
    intro a ha
    obtain ⟨j, hj, rfl⟩ := List.mem_map.mp ha
    have hj' : j < n := List.mem_range.mp hj
    have := h (j + 1) (by omega) (by omega)
    obtain ⟨p, hp, he⟩ := List.any_eq_true.mp this
    exact List.mem_map.mpr ⟨p, hp, by simpa using he⟩
  have hnd : ((List.range n).map (fun j => listen_candidate b (j + 1))).Nodup := by
    apply List.Nodup.map_on _ (List.nodup_range n)
    intro i hi j hj he
    have hi' : i < n := List.mem_range.mp hi
    have hj' : j < n := List.mem_range.mp hj
    have hg := congrArg (fun l => l.getD 4 0) he
    simp only [listen_candidate, List.getD_eq_getElem?_getD,
      List.getElem?_set_self (show 4 < b.length by omega), Option.getD_some] at hg
    omega
  have hle := (hnd.subperm hsub).length_le
  simpa using hle

theorem listen_candidate_base (id k : Nat) :
    listen_candidate (address_with base_address id) k =
      [0x72, 0x72, 0x72, 0x72, (id + 2 * k) % 256] := rfl

/-- The listen address `start_waiting` picks with six pipes: the base prefix with the
discriminator `(id + 2k) mod 256` for the smallest `k ≥ 1` whose address no pipe has;
`k` is at most 7. -/
theorem listen_address_six (connections : List nrf_pipe) (id : Nat)
    (hlen : connections.length = 6) :
    ∃ k, 1 ≤ k ∧ k ≤ 7 ∧
      nrf.next_listen_address connections 128 (address_with base_address id) =
        [0x72, 0x72, 0x72, 0x72, (id + 2 * k) % 256] ∧
      (∀ p ∈ connections, p.nrf_address ≠ [0x72, 0x72, 0x72, 0x72, (id + 2 * k) % 256]) ∧
      ∀ j, 1 ≤ j → j < k →
        ∃ p ∈ connections, p.nrf_address = [0x72, 0x72, 0x72, 0x72, (id + 2 * j) % 256] := by
  have hb : 5 ≤ (address_with base_address id).length := by
    simp [address_with, base_address]
  rcases next_listen_address_least connections 128 (address_with base_address id) hb with
    ⟨k, k1, k2, k3, k4, k5⟩ | h
  · have hk := taken_candidates_le connections _ hb (k - 1) (by omega)
      (fun j j1 j2 => k5 j j1 (by omega))
    refine ⟨k, k1, by omega, by rw [k3, listen_candidate_base], ?_, ?_⟩
    · intro p hp he
      apply k4
      rw [List.any_eq_true]
      exact ⟨p, hp, by rw [listen_candidate_base]; simpa using he⟩
    · intro j j1 j2
      obtain ⟨p, hp, he⟩ := List.any_eq_true.mp (k5 j j1 j2)
      rw [listen_candidate_base] at he
      exact ⟨p, hp, by simpa using he⟩
  · exfalso
    have := taken_candidates_le connections _ hb 128 (Nat.le_refl _) h
    omega

/-- The message `send` makes of the PRESENT of `discover()` on an adapter whose pipe 1 is
the listen pipe: the message id is the counter and `connectionData[0]` the discriminator
of the listen pipe; every frame logged for it carries that discriminator in byte 5. -/
theorem present_frame (s : nrf) (a : Nat) (l : List Nat) (p2 p3 p4 p5 : nrf_pipe)
    (hc : s.connections =
      [{ connection_state := mesh_connection_state.ACCEPTED, pipe_number := 0,
         connected_node := 0, nrf_address := discovery_address },
       { connection_state := mesh_connection_state.WAITING, pipe_number := 1,
         connected_node := a, nrf_address := l }, p2, p3, p4, p5])
    (hid : s.id = a) (ha : a ≠ 0) :
    (s.send (message.mk5 DISCOVERY.PRESENT 0 a 0 0) 0).2.1.connectionData.getD 0 0 =
      l.getD 4 0 ∧
    ∃ recs : List tx_record, recs ≠ [] ∧
      (s.send (message.mk5 DISCOVERY.PRESENT 0 a 0 0) 0).2.2.nrf24.tx_log =
        s.nrf24.tx_log ++ recs ∧
      ∀ rec ∈ recs, rec.data.getD 0 0 = DISCOVERY.PRESENT ∧ rec.data.getD 5 0 = l.getD 4 0 := by
  have hcs : s.connection_state 0 = mesh_connection_state.ACCEPTED := by
    unfold nrf.connection_state
    rw [getPipeByNodeId_six s _ _ _ _ _ _ hc, hc]
    rfl
  have h1 : s.connection_state
      (if (0 : Nat) = 0 then (message.mk5 DISCOVERY.PRESENT 0 a 0 0).receiver else 0) ≠
      mesh_connection_state.DISCONNECTED := by
    show s.connection_state 0 ≠ _
    rw [hcs]; decide
  have h2 : ¬ ((message.mk5 DISCOVERY.PRESENT 0 a 0 0).receiver ≠ 0 ∧
      s.connection_state
        (if (0 : Nat) = 0 then (message.mk5 DISCOVERY.PRESENT 0 a 0 0).receiver else 0) ≠
        mesh_connection_state.ACCEPTED ∧
      (message.mk5 DISCOVERY.PRESENT 0 a 0 0).type ≠ DISCOVERY.RESPOND ∧
      (message.mk5 DISCOVERY.PRESENT 0 a 0 0).type ≠ DISCOVERY.ACCEPT ∧
      (message.mk5 DISCOVERY.PRESENT 0 a 0 0).type ≠ DISCOVERY.DENY) := fun h => h.1 rfl
  have hp := send_pass s (message.mk5 DISCOVERY.PRESENT 0 a 0 0) 0 h1 h2
  obtain ⟨m1, m2, m3, _⟩ := add_message_id_own s (message.mk5 DISCOVERY.PRESENT 0 a 0 0)
    hid.symm rfl
  have hk : (s.add_message_id (message.mk5 DISCOVERY.PRESENT 0 a 0 0)).2.getPipeByNodeId
      (s.add_message_id (message.mk5 DISCOVERY.PRESENT 0 a 0 0)).2.id = 1 := by
    rw [getPipeByNodeId_congr s _ m2, m3, hid, getPipeByNodeId_six s _ _ _ _ _ _ hc]
    simp [Ne.symm ha]
  have hm : (s.send (message.mk5 DISCOVERY.PRESENT 0 a 0 0) 0).2.1 =
      { message.mk5 DISCOVERY.PRESENT 0 a 0 0 with
        message_id := s.current_message_id, connectionData := [l.getD 4 0, 0] } := by
    rw [hp]
    show nrf.add_connection_data _ _ _ = _
    rw [add_connection_data_present _ _ _ (by rw [m1]; rfl), hk, m1, m2, hc]
    rfl
  obtain ⟨_, _, recs, r1, _, r3, r4⟩ :=
    send_pass_log s (message.mk5 DISCOVERY.PRESENT 0 a 0 0) 0 h1 h2
  refine ⟨by rw [hm]; rfl, recs, r1, r3, ?_⟩
  intro rec hrec
  obtain ⟨d1, _⟩ := r4 rec hrec
  rw [d1, hm]
  exact ⟨rfl, rfl⟩

/-- C21. For every adapter with its six pipes, pipe 0 not WAITING (it is ACCEPTED in every
reachable state): if some pipe is WAITING, `start_waiting` changes nothing; if none is and
`i` is the lowest-index DISCONNECTED pipe, the search for the address ends after `k ≤ 7`
rounds and pipe `i` becomes WAITING with connected node the own id and the address
0x72 0x72 0x72 0x72 `(id + 2k) mod 256`, where `k ≥ 1` is the smallest number for which no
pipe has that address, every other pipe staying as it is.  On a freshly constructed node
with a non-zero id every PRESENT frame that `discover()` hands to the radio carries
`connectionData[0] = (id + 2) mod 256`. -/
theorem start_waiting_listen_address (s : nrf) (hlen : s.connections.length = 6)
    (h0 : (s.connections.getD 0 default).connection_state ≠ mesh_connection_state.WAITING) :
    ((∃ j, j < 6 ∧
        (s.connections.getD j default).connection_state = mesh_connection_state.WAITING) →
      s.start_waiting = s) ∧
    ((∀ j, j < 6 →
        (s.connections.getD j default).connection_state ≠ mesh_connection_state.WAITING) →
      ∀ i, i < 6 →
        (s.connections.getD i default).connection_state = mesh_connection_state.DISCONNECTED →
        (∀ j, j < i → (s.connections.getD j default).connection_state ≠
          mesh_connection_state.DISCONNECTED) →
        ∃ k, 1 ≤ k ∧ k ≤ 7 ∧
          (∀ p ∈ s.connections,
            p.nrf_address ≠ [0x72, 0x72, 0x72, 0x72, (s.id + 2 * k) % 256]) ∧
          (∀ j, 1 ≤ j → j < k → ∃ p ∈ s.connections,
            p.nrf_address = [0x72, 0x72, 0x72, 0x72, (s.id + 2 * j) % 256]) ∧
          s.start_waiting.connections = s.connections.set i
            { connection_state := mesh_connection_state.WAITING,
              pipe_number := (s.connections.getD i default).pipe_number,
              connected_node := s.id,
              nrf_address := [0x72, 0x72, 0x72, 0x72, (s.id + 2 * k) % 256] } ∧
          s.start_waiting.toconnectivity_adapter = s.toconnectivity_adapter) ∧
    (∀ (a : Nat) (radio : nrf24l01plus), a ≠ 0 →
      ∃ recs : List tx_record, recs ≠ [] ∧
        (mesh_network.init (nrf.init a radio) ()).discover.connection.nrf24.tx_log =
          (nrf.init a radio).nrf24.tx_log ++ recs ∧
        ∀ rec ∈ recs, rec.data.getD 0 0 = DISCOVERY.PRESENT ∧
          rec.data.getD 5 0 = (a + 2) % 256) := by
  refine ⟨?_, ?_, ?_⟩
  · rintro ⟨j, hj, hw⟩
    rcases start_waiting_cases s with ⟨_, e⟩ | ⟨hnw, _, e⟩ | ⟨hnw, _⟩
    · exact e
    · exact e
    · exfalso
      by_cases e0 : j = 0
      · rw [e0] at hw; exact h0 hw
      · exact hnw j (by omega) hj hw
  · intro hnw i hi hd hlow
    rcases start_waiting_cases s with ⟨⟨j, _, j2, hj⟩, _⟩ | ⟨_, hnd, _⟩ |
      ⟨_, i', hi', hd', hlow', hset, hadp, _, _⟩
    · exact absurd hj (hnw j j2)
    · exact absurd hd (hnd i (by omega))
    · have hii : i' = i := by
        rcases Nat.lt_trichotomy i' i with h | h | h
        · exact absurd hd' (hlow i' h)
        · exact h
        · exact absurd hd (hlow' i h)
      subst hii
      obtain ⟨k, k1, k2, k3, k4, k5⟩ := listen_address_six s.connections s.id hlen
      exact ⟨k, k1, k2, k4, k5, by rw [hset, k3], hadp⟩
  · intro a radio ha
    obtain ⟨_, recs, r1, r2, r3⟩ := present_frame (nrf.init a radio) a
      [0x72, 0x72, 0x72, 0x72, (a + 2) % 256] _ _ _ _ (init_connections a radio) rfl ha
    exact ⟨recs, r1, r2, r3⟩

set_option maxRecDepth 100000 in
theorem start_waiting_listen_address_witness :
    (sample_node.start_waiting = sample_node) ∧
    (∃ k, 1 ≤ k ∧ k ≤ 7 ∧
      (∀ p ∈ (sample_node.discovery_accept_received sample_accept_own).connections,
        p.nrf_address ≠
          [0x72, 0x72, 0x72, 0x72,
            ((sample_node.discovery_accept_received sample_accept_own).id + 2 * k) % 256]) ∧
      (∀ j, 1 ≤ j → j < k →
        ∃ p ∈ (sample_node.discovery_accept_received sample_accept_own).connections,
          p.nrf_address =
            [0x72, 0x72, 0x72, 0x72,
              ((sample_node.discovery_accept_received sample_accept_own).id + 2 * j) % 256]) ∧
      (sample_node.discovery_accept_received sample_accept_own).start_waiting.connections =
        (sample_node.discovery_accept_received sample_accept_own).connections.set 2
          { connection_state := mesh_connection_state.WAITING,
            pipe_number :=
              ((sample_node.discovery_accept_received sample_accept_own).connections.getD 2
                default).pipe_number,
            connected_node := (sample_node.discovery_accept_received sample_accept_own).id,
            nrf_address :=
              [0x72, 0x72, 0x72, 0x72,
                ((sample_node.discovery_accept_received sample_accept_own).id + 2 * k) % 256] } ∧
      (sample_node.discovery_accept_received sample_accept_own).start_waiting.toconnectivity_adapter =
        (sample_node.discovery_accept_received sample_accept_own).toconnectivity_adapter) ∧
    ((sample_node.discovery_accept_received sample_accept_own).start_waiting.connections.getD 2
      default).nrf_address = [0x72, 0x72, 0x72, 0x72, 0x14] ∧
    (∃ recs : List tx_record, recs ≠ [] ∧
      (mesh_network.init (nrf.init 0x10 sample_radio) ()).discover.connection.nrf24.tx_log =
        (nrf.init 0x10 sample_radio).nrf24.tx_log ++ recs ∧
      ∀ rec ∈ recs, rec.data.getD 0 0 = DISCOVERY.PRESENT ∧
        rec.data.getD 5 0 = (0x10 + 2) % 256) :=
  ⟨(start_waiting_listen_address sample_node (by decide) (by decide)).1 ⟨1, by decide, by decide⟩,
    (start_waiting_listen_address (sample_node.discovery_accept_received sample_accept_own)
      (by decide) (by decide)).2.1 (by decide) 2 (by decide) (by decide) (by decide),
    by decide,
    (start_waiting_listen_address sample_node (by decide) (by decide)).2.2 0x10 sample_radio
      (by decide)⟩

/-! ## The inbound ring (C22, C23) -/

theorem parse_valid_slot (slot : message) (data : List Nat) (h : valid_payload data) :
    (slot.parse (data.length % 256) data).2 = decode_payload data := by
  obtain ⟨h7, h32⟩ := h
  have hn : ¬ data.length % 256 < 7 := by omega
  unfold decode_payload message.parse
  simp only [hn, if_false]

theorem buffer_loop_frame (ps : List (List Nat)) (mb : List message) (e : Nat) (he : e < 100) :
    (nrf.buffer_loop ps mb e).1.length = mb.length ∧
    (nrf.buffer_loop ps mb e).2 = (e + ps.length) % 100 := by
  induction ps generalizing mb e with
  | nil => exact ⟨rfl, by simp [nrf.buffer_loop]; omega⟩
  | cons p rest ih =>
    unfold nrf.buffer_loop
    simp only []
    have he1 : (if e + 1 = 100 then 0 else e + 1) < 100 := by split <;> omega
    obtain ⟨h1, h2⟩ := ih (mb.set e ((mb.getD e message.empty).parse (p.length % 256) p).2)
      (if e + 1 = 100 then 0 else e + 1) he1
    refine ⟨by rw [h1]; simp, ?_⟩
    rw [h2, List.length_cons]
    split <;> omega

theorem getD_set_message (mb : List message) (k : Nat) (m : message) (i : Nat) :
    (mb.set k m).getD i message.empty =
      if i = k ∧ k < mb.length then m else mb.getD i message.empty := by
  simp only [List.getD_eq_getElem?_getD]
  by_cases h : i = k
  · subst h
    by_cases hk : i < mb.length
    · rw [List.getElem?_set_self hk, if_pos ⟨rfl, hk⟩]; rfl
    · rw [if_neg (fun h => hk h.2), List.getElem?_eq_none (by simp; omega),
        List.getElem?_eq_none (by omega)]
  · rw [if_neg (fun hh => h hh.1), List.getElem?_set_ne (Ne.symm h)]

/-- The slots of the ring after `buffer_messages` has stored the valid payloads `ps` from
index `e` on: each of the last 100 payloads is in its slot, and a slot no payload went to
is as before. -/
theorem buffer_loop_slots (ps : List (List Nat)) (mb : List message) (e : Nat)
    (hlen : mb.length = 100) (he : e < 100) (hv : ∀ p ∈ ps, valid_payload p) :
    (∀ j, j < ps.length → ps.length ≤ j + 100 →
      (nrf.buffer_loop ps mb e).1.getD ((e + j) % 100) message.empty =
        decode_payload (ps.getD j [])) ∧
    (∀ x, (∀ j, j < ps.length → (e + j) % 100 ≠ x) →
      (nrf.buffer_loop ps mb e).1.getD x message.empty = mb.getD x message.empty) := by
  induction ps generalizing mb e with
  | nil =>
    exact ⟨fun j hj => absurd hj (by simp), fun x _ => rfl⟩
  | cons p rest ih =>
    have hp := hv p (List.mem_cons_self _ _)
    have he1 : (if e + 1 = 100 then 0 else e + 1) < 100 := by split <;> omega
    have he1' : (if e + 1 = 100 then 0 else e + 1) = (e + 1) % 100 := by split <;> omega
    have hstep : nrf.buffer_loop (p :: rest) mb e =
        nrf.buffer_loop rest (mb.set e (decode_payload p)) ((e + 1) % 100) := by
      rw [nrf.buffer_loop, parse_valid_slot _ _ hp, he1']
    obtain ⟨i1, i2⟩ := ih (mb.set e (decode_payload p)) ((e + 1) % 100) (by simp [hlen])
      (by omega) (fun q hq => hv q (List.mem_cons_of_mem _ hq))
    rw [hstep]
    simp only [List.length_cons]
    constructor
    · intro j hj hk
      cases j with
      | zero =>
        rw [i2 ((e + 0) % 100) (fun j hj' => by omega), getD_set_message,
          if_pos ⟨by omega, by omega⟩]
        rfl
      | succ j =>
        have := i1 j (by omega) (by omega)
        rw [show ((e + 1) % 100 + j) % 100 = (e + (j + 1)) % 100 by omega] at this
        rw [this]
        rfl
    · intro x hx
      rw [i2 x (fun j hj => by
        have := hx (j + 1) (by omega)
        omega), getD_set_message, if_neg (fun h => hx 0 (by omega) (by omega))]

theorem buffer_messages_ring (s : nrf) (h : s.ring_ok) :
    s.buffer_messages.ring_ok ∧ s.buffer_messages.buffer_start = s.buffer_start ∧
    s.buffer_messages.buffer_end = (s.buffer_end + s.nrf24.rx_fifo.length) % 100 ∧
    s.buffer_messages.nrf24.rx_fifo = [] := by
  obtain ⟨h1, h2, h3⟩ := h
  obtain ⟨f1, f2⟩ := buffer_loop_frame s.nrf24.rx_fifo s.message_buffer s.buffer_end h3
  refine ⟨⟨?_, h2, ?_⟩, rfl, f2, rfl⟩
  · show (nrf.buffer_loop s.nrf24.rx_fifo s.message_buffer s.buffer_end).1.length = 100
    rw [f1]; exact h1
  · show (nrf.buffer_loop s.nrf24.rx_fifo s.message_buffer s.buffer_end).2 < 100
    rw [f2]; omega

theorem buffer_messages_empty_fifo (s : nrf) (h : s.nrf24.rx_fifo = []) :
    s.buffer_messages.message_buffer = s.message_buffer ∧
    s.buffer_messages.buffer_start = s.buffer_start ∧
    s.buffer_messages.buffer_end = s.buffer_end ∧
    s.buffer_messages.nrf24.rx_fifo = [] := by
  unfold nrf.buffer_messages
  simp only [h, nrf.buffer_loop]
  exact ⟨trivial, trivial, trivial, trivial⟩

theorem pending_congr (s t : nrf) (h1 : t.message_buffer = s.message_buffer)
    (h2 : t.buffer_start = s.buffer_start) (h3 : t.buffer_end = s.buffer_end) :
    t.pending = s.pending := by
  unfold nrf.pending
  rw [h1, h2, h3]

theorem pending_length (s : nrf) :
    s.pending.length = (s.buffer_end + 100 - s.buffer_start) % 100 := by
  unfold nrf.pending
  simp

theorem has_message_pending (s : nrf) (h : s.ring_ok) :
    (s.has_message.1 = true ↔ s.buffer_messages.pending ≠ []) ∧
    s.has_message.2 = s.buffer_messages := by
  obtain ⟨⟨_, b2, b3⟩, _⟩ := buffer_messages_ring s h
  refine ⟨?_, rfl⟩
  unfold nrf.has_message
  simp only [bne_iff_ne, ne_eq]
  rw [← List.length_eq_zero, pending_length]
  constructor
  · intro hne; omega
  · intro hne heq; apply hne; rw [heq]; omega

/-- One call of `next_message` takes the oldest message of the ring as `buffer_messages`
leaves it (the empty message when there is none). -/
theorem next_message_pending (s : nrf) (h : s.ring_ok) :
    s.next_message.1 = s.buffer_messages.pending.headD message.empty ∧
    s.next_message.2.pending = s.buffer_messages.pending.tail ∧
    s.next_message.2.ring_ok ∧ s.next_message.2.nrf24.rx_fifo = [] := by
  obtain ⟨⟨b1, b2, b3⟩, _, _, b5⟩ := buffer_messages_ring s h
  unfold nrf.next_message
  simp only []
  generalize s.buffer_messages = t at *
  by_cases he : t.buffer_end = t.buffer_start
  · rw [if_neg (by simpa using he)]
    have hp : t.pending = [] := by
      rw [← List.length_eq_zero, pending_length, he]; omega
    rw [hp]
    exact ⟨rfl, rfl, ⟨b1, b2, b3⟩, b5⟩
  · rw [if_pos he]
    dsimp only
    have hpos : 0 < (t.buffer_end + 100 - t.buffer_start) % 100 := by omega
    have hs1 : (if t.buffer_start + 1 = 100 then 0 else t.buffer_start + 1) < 100 := by
      split <;> omega
    refine ⟨?_, ?_, ⟨b1, hs1, b3⟩, b5⟩
    · unfold nrf.pending
      obtain ⟨n, hn⟩ : ∃ n, (t.buffer_end + 100 - t.buffer_start) % 100 = n + 1 :=
        ⟨_, (Nat.succ_pred_eq_of_pos hpos).symm⟩
      rw [hn, List.range_succ_eq_map]
      simp only [List.map_cons, List.headD_cons, Nat.add_zero]
      rw [Nat.mod_eq_of_lt b2]
    · apply List.ext_getElem
      · simp only [List.length_tail, pending_length]
        split <;> omega
      · intro i h1 h2
        unfold nrf.pending
        simp only [List.getElem_tail, List.getElem_map, List.getElem_range]
        congr 1
        split <;> omega

/-- The results of successive calls of `next_message`: the messages of the ring as
`buffer_messages` leaves it at the first call, oldest first, and `has_message` is true as
long as one is left. -/
theorem next_messages_pending (n : Nat) (s : nrf) (h : s.ring_ok)
    (hn : n ≤ s.buffer_messages.pending.length) :
    (nrf.next_messages n s).1 = s.buffer_messages.pending.take n ∧
    ((nrf.next_messages n s).2.has_message.1 = true ↔ n < s.buffer_messages.pending.length) := by
  induction n generalizing s with
  | zero =>
    refine ⟨by simp [nrf.next_messages], ?_⟩
    show s.has_message.1 = true ↔ _
    rw [(has_message_pending s h).1, ← List.length_pos]
  | succ n ih =>
    obtain ⟨p1, p2, p3, p4⟩ := next_message_pending s h
    obtain ⟨e1, e2, e3, _⟩ := buffer_messages_empty_fifo s.next_message.2 p4
    have hq : s.next_message.2.buffer_messages.pending = s.buffer_messages.pending.tail := by
      rw [pending_congr _ _ e1 e2 e3, p2]
    obtain ⟨i1, i2⟩ := ih s.next_message.2 p3 (by rw [hq, List.length_tail]; omega)
    rw [hq] at i1 i2
    rw [List.length_tail] at i2
    unfold nrf.next_messages
    simp only []
    refine ⟨?_, by rw [i2]; omega⟩
    rw [i1, p1]
    cases hs : s.buffer_messages.pending with
    | nil => rw [hs] at hn; simp at hn
    | cons q qs => simp

theorem buffer_messages_pending_room (s : nrf) (h : s.ring_ok)
    (hv : ∀ p ∈ s.nrf24.rx_fifo, valid_payload p)
    (hroom : s.pending.length + s.nrf24.rx_fifo.length < 100) :
    s.buffer_messages.pending = s.pending ++ s.nrf24.rx_fifo.map decode_payload := by
  obtain ⟨h1, h2, h3⟩ := h
  obtain ⟨s1, s2⟩ := buffer_loop_slots s.nrf24.rx_fifo s.message_buffer s.buffer_end h1 h3 hv
  obtain ⟨_, f2⟩ := buffer_loop_frame s.nrf24.rx_fifo s.message_buffer s.buffer_end h3
  have hpl := pending_length s
  apply List.ext_getElem
  · rw [List.length_append, List.length_map, pending_length, hpl]
    show ((nrf.buffer_loop s.nrf24.rx_fifo s.message_buffer s.buffer_end).2 + 100 -
      s.buffer_start) % 100 = _
    rw [f2]; omega
  · intro i hi1 hi2
    have hb : (s.buffer_messages.pending)[i] =
        (nrf.buffer_loop s.nrf24.rx_fifo s.message_buffer s.buffer_end).1.getD
          ((s.buffer_start + i) % 100) message.empty := by
      unfold nrf.pending
      simp only [List.getElem_map, List.getElem_range]
      rfl
    rw [hb]
    by_cases hm : i < s.pending.length
    · rw [List.getElem_append_left hm, s2 _ (fun j hj => by omega)]
      unfold nrf.pending
      simp only [List.getElem_map, List.getElem_range]
    · rw [List.length_append, List.length_map] at hi2
      rw [List.getElem_append_right (by omega)]
      simp only [List.getElem_map]
      have e : s.nrf24.rx_fifo[i - s.pending.length] =
          s.nrf24.rx_fifo.getD (i - s.pending.length) [] :=
        (List.getD_eq_getElem _ _ _).symm
      have := s1 (i - s.pending.length) (by omega) (by omega)
      rw [show (s.buffer_end + (i - s.pending.length)) % 100 =
        (s.buffer_start + i) % 100 by omega] at this
      rw [this, e]

theorem buffer_messages_pending_overflow (s : nrf) (h : s.ring_ok)
    (hv : ∀ p ∈ s.nrf24.rx_fifo, valid_payload p) (hempty : s.buffer_start = s.buffer_end) :
    s.buffer_messages.pending =
      (s.nrf24.rx_fifo.drop (s.nrf24.rx_fifo.length - s.nrf24.rx_fifo.length % 100)).map
        decode_payload := by
  obtain ⟨h1, h2, h3⟩ := h
  obtain ⟨s1, _⟩ := buffer_loop_slots s.nrf24.rx_fifo s.message_buffer s.buffer_end h1 h3 hv
  obtain ⟨_, f2⟩ := buffer_loop_frame s.nrf24.rx_fifo s.message_buffer s.buffer_end h3
  have hl : s.buffer_messages.pending.length = s.nrf24.rx_fifo.length % 100 := by
    rw [pending_length]
    show ((nrf.buffer_loop s.nrf24.rx_fifo s.message_buffer s.buffer_end).2 + 100 -
      s.buffer_start) % 100 = _
    rw [f2]; omega
  apply List.ext_getElem
  · rw [hl, List.length_map, List.length_drop]
    omega
  · intro i hi1 hi2
    have hb : (s.buffer_messages.pending)[i] =
        (nrf.buffer_loop s.nrf24.rx_fifo s.message_buffer s.buffer_end).1.getD
          ((s.buffer_start + i) % 100) message.empty := by
      unfold nrf.pending
      simp only [List.getElem_map, List.getElem_range]
      rfl
    rw [hl] at hi1
    have := s1 (s.nrf24.rx_fifo.length - s.nrf24.rx_fifo.length % 100 + i) (by omega) (by omega)
    rw [show (s.buffer_end + (s.nrf24.rx_fifo.length - s.nrf24.rx_fifo.length % 100 + i)) % 100 =
      (s.buffer_start + i) % 100 by omega] at this
    rw [hb, this, List.getD_eq_getElem _ _ (by omega)]
    simp only [List.getElem_map, List.getElem_drop]

/-- C22. For every adapter whose ring (100 slots) holds `m` messages not yet consumed and
whose radio holds `k` valid payloads (7 to 32 bytes), `m + k < 100`: the next `m + k`
calls of `next_message` return the `m` waiting messages and then the decoded payloads in
exactly the order the radio delivered them (the first `n` of that sequence after `n`
calls), and `has_message` is true after `n` of these calls exactly when `n < m + k`, that
is until the last one has been returned. -/
theorem next_message_arrival_order (s : nrf) (h : s.ring_ok)
    (hv : ∀ p ∈ s.nrf24.rx_fifo, valid_payload p)
    (hroom : s.pending.length + s.nrf24.rx_fifo.length < 100) :
    (nrf.next_messages (s.pending.length + s.nrf24.rx_fifo.length) s).1 =
      s.pending ++ s.nrf24.rx_fifo.map decode_payload ∧
    ∀ n, n ≤ s.pending.length + s.nrf24.rx_fifo.length →
      (nrf.next_messages n s).1 =
        (s.pending ++ s.nrf24.rx_fifo.map decode_payload).take n ∧
      ((nrf.next_messages n s).2.has_message.1 = true ↔
        n < s.pending.length + s.nrf24.rx_fifo.length) := by
  have hq := buffer_messages_pending_room s h hv hroom
  have hl : s.buffer_messages.pending.length = s.pending.length + s.nrf24.rx_fifo.length := by
    rw [hq, List.length_append, List.length_map]
  have key : ∀ n, n ≤ s.pending.length + s.nrf24.rx_fifo.length →
      (nrf.next_messages n s).1 =
        (s.pending ++ s.nrf24.rx_fifo.map decode_payload).take n ∧
      ((nrf.next_messages n s).2.has_message.1 = true ↔
        n < s.pending.length + s.nrf24.rx_fifo.length) := by
    intro n hn
    have := next_messages_pending n s h (by rw [hl]; exact hn)
    rw [hq] at this
    rw [List.length_append, List.length_map] at this
    exact this
  refine ⟨?_, key⟩
  rw [(key _ (Nat.le_refl _)).1, List.take_of_length_le]
  rw [List.length_append, List.length_map]

theorem next_message_arrival_order_witness :
    (sample_flooded_node 3).ring_ok ∧
    (nrf.next_messages ((sample_flooded_node 3).pending.length +
        (sample_flooded_node 3).nrf24.rx_fifo.length) (sample_flooded_node 3)).1 =
      (sample_flooded_node 3).pending ++
        (sample_flooded_node 3).nrf24.rx_fifo.map decode_payload :=
  ⟨by decide,
    (next_message_arrival_order (sample_flooded_node 3) (by decide) (by decide)
      (by decide)).1⟩

set_option maxRecDepth 100000 in
/-- C23 (failing input). The freshly constructed adapter of node 0x10 whose radio has
delivered 100 valid frames that went unconsumed: `has_message` reports false and
`next_message` returns the empty message, all 100 frames are lost.  With 101 frames
`has_message` is true, `next_message` returns the frame with message id 101, and after it
`has_message` is false: the 100 frames before the newest are lost, not the oldest one. -/
theorem ring_overflow_loses_newer_frames :
    (sample_flooded_node 100).has_message.1 = false ∧
    (sample_flooded_node 100).next_message.1 = message.empty ∧
    (sample_flooded_node 101).has_message.1 = true ∧
    (sample_flooded_node 101).next_message.1.message_id = 101 ∧
    (sample_flooded_node 101).next_message.2.has_message.1 = false := by
  decide

/-- What the ring without an overflow test does.  For every adapter with an empty ring
whose radio holds `k` valid payloads, whatever `k` is: after `buffer_messages` the ring
holds exactly the last `k mod 100` of them, in arrival order; `has_message` is true exactly
when `k mod 100` is not 0, and the next `k mod 100` calls of `next_message` return those
frames in arrival order, after which `has_message` is false.  So for `k < 100` nothing is
lost, and for `k ≥ 100` every frame but the last `k mod 100` is lost. -/
theorem ring_keeps_last_frames (s : nrf) (h : s.ring_ok)
    (hv : ∀ p ∈ s.nrf24.rx_fifo, valid_payload p) (hempty : s.buffer_start = s.buffer_end) :
    s.buffer_messages.pending =
      (s.nrf24.rx_fifo.drop (s.nrf24.rx_fifo.length - s.nrf24.rx_fifo.length % 100)).map
        decode_payload ∧
    s.buffer_messages.pending.length = s.nrf24.rx_fifo.length % 100 ∧
    (s.has_message.1 = true ↔ s.nrf24.rx_fifo.length % 100 ≠ 0) ∧
    (nrf.next_messages (s.nrf24.rx_fifo.length % 100) s).1 =
      (s.nrf24.rx_fifo.drop (s.nrf24.rx_fifo.length - s.nrf24.rx_fifo.length % 100)).map
        decode_payload ∧
    (nrf.next_messages (s.nrf24.rx_fifo.length % 100) s).2.has_message.1 = false := by
  have hq := buffer_messages_pending_overflow s h hv hempty
  have hl : s.buffer_messages.pending.length = s.nrf24.rx_fifo.length % 100 := by
    rw [hq, List.length_map, List.length_drop]
    omega
  obtain ⟨n1, n2⟩ := next_messages_pending (s.nrf24.rx_fifo.length % 100) s h
    (by rw [hl])
  refine ⟨hq, hl, ?_, ?_, ?_⟩
  · rw [(has_message_pending s h).1, ← hl]
    exact not_congr List.length_eq_zero.symm
  · rw [n1, List.take_of_length_le (by rw [hl]), hq]
  · rw [hl] at n2
    cases hb : (nrf.next_messages (s.nrf24.rx_fifo.length % 100) s).2.has_message.1 with
    | false => rfl
    | true => exact absurd (n2.mp hb) (Nat.lt_irrefl _)

set_option maxRecDepth 100000 in
theorem ring_keeps_last_frames_witness :
    (sample_flooded_node 101).ring_ok ∧
    (sample_flooded_node 101).buffer_messages.pending.length =
      (sample_flooded_node 101).nrf24.rx_fifo.length % 100 :=
  ⟨by decide,
    (ring_keeps_last_frames (sample_flooded_node 101) (by decide) (by decide)
      (by decide)).2.1⟩

/-! ## Malformed payloads (C24) -/

set_option maxRecDepth 100000 in
/-- C24 (failing input). A payload of three bytes read by `buffer_messages` takes a slot
of the ring although `parse` returns false.  On the freshly constructed node 0x10 nothing
waits in the ring before, one message waits after, `has_message` is true, `next_message`
returns the empty message the slot held, and `check_new_messages` passes it on: the
duplicate history records its pair (sender 0, id 0).  On the node that has consumed 99
frames of node 0x20, the application frame 7 among them (surfaced once), a payload of
three bytes lands in the slot that still holds frame 7: `check_new_messages` puts the
header of frame 7 with a zeroed payload into `uncaught` and counts it. -/
theorem short_payload_takes_ring_slot :
    (sample_short_network.connection.pending = [] ∧
      sample_short_network.connection.nrf24.rx_fifo = [sample_short_payload] ∧
      (message.empty.parse 3 sample_short_payload).1 = false ∧
      sample_short_network.connection.has_message.1 = true ∧
      sample_short_network.connection.has_message.2.pending.length = 1 ∧
      sample_short_network.connection.next_message.1 = message.empty ∧
      (mesh_network.check_new_messages router.base 10 sample_short_network
        (List.replicate 10 message.empty)).map
          (fun r => (r.1, r.2.2.connection.history)) = some (0, [0])) ∧
    ((mesh_network.check_new_messages router.base 200 sample_busy_network
        (List.replicate 10 message.empty)).map (fun r => (r.1, r.2.1.getD 0 message.empty)) =
        some (1, sample_frame_parsed) ∧
      sample_ghost_run.map (fun r => (r.1, r.2.1.getD 0 message.empty)) =
        some (1, { sample_frame_parsed with
          data := List.replicate 25 0, connectionData := [0, 0] })) := by
  decide

/-! ## `handleMessage` (C25, C26, C28) -/

theorem handleMessage_no_routing {ρ : Type} (R : router ρ) (st : mesh_network ρ)
    (msg : message) (h1 : msg.type &&& 0x10 = 0) :
    st.handleMessage R msg =
      if (msg.type &&& 0x20) > 0 then (false, msg, st)
      else if st.is_blacklisted msg.sender then (true, msg, st)
      else ((st.handle_discovery R msg).1, msg, (st.handle_discovery R msg).2) := by
  unfold mesh_network.handleMessage
  simp only [h1, gt_iff_lt, Nat.lt_irrefl, if_false]

theorem handleMessage_routing {ρ : Type} (R : router ρ) (st : mesh_network ρ)
    (msg : message) (h1 : (msg.type &&& 0x10) > 0) :
    st.handleMessage R msg =
      if ((R.on_routing_message st.network_router st.connection msg).1.type &&& 0x20) > 0 then
        (false, (R.on_routing_message st.network_router st.connection msg).1,
          { st with
            network_router := (R.on_routing_message st.network_router st.connection msg).2.1,
            connection := (R.on_routing_message st.network_router st.connection msg).2.2 })
      else if st.is_blacklisted
          (R.on_routing_message st.network_router st.connection msg).1.sender then
        (true, (R.on_routing_message st.network_router st.connection msg).1,
          { st with
            network_router := (R.on_routing_message st.network_router st.connection msg).2.1,
            connection := (R.on_routing_message st.network_router st.connection msg).2.2 })
      else
        ((mesh_network.handle_discovery R
            { st with
              network_router := (R.on_routing_message st.network_router st.connection msg).2.1,
              connection := (R.on_routing_message st.network_router st.connection msg).2.2 }
            (R.on_routing_message st.network_router st.connection msg).1).1,
          (R.on_routing_message st.network_router st.connection msg).1,
          (mesh_network.handle_discovery R
            { st with
              network_router := (R.on_routing_message st.network_router st.connection msg).2.1,
              connection := (R.on_routing_message st.network_router st.connection msg).2.2 }
            (R.on_routing_message st.network_router st.connection msg).1).2) := by
  unfold mesh_network.handleMessage
  simp only [h1, if_true]
  rfl

theorem handle_discovery_known {ρ : Type} (R : router ρ) (st : mesh_network ρ) (msg : message)
    (ht : msg.type = DISCOVERY.NO_OPERATION ∨ msg.type = DISCOVERY.PRESENT ∨
      msg.type = DISCOVERY.RESPOND ∨ msg.type = DISCOVERY.ACCEPT ∨
      msg.type = DISCOVERY.DENY) :
    (st.handle_discovery R msg).1 = true := by
  unfold mesh_network.handle_discovery
  rcases ht with h | h | h | h | h
  · rw [if_neg (by rw [h]; decide), if_neg (by rw [h]; decide), if_neg (by rw [h]; decide),
      if_neg (by rw [h]; decide), if_pos h]
  · rw [if_pos h]
    split
    · simp only []
      split <;> rfl
    · rfl
  · rw [if_neg (by rw [h]; decide), if_pos h]
    simp only []
    split
    · split <;> rfl
    · rfl
  · rw [if_neg (by rw [h]; decide), if_neg (by rw [h]; decide), if_pos h]
  · rw [if_neg (by rw [h]; decide), if_neg (by rw [h]; decide), if_neg (by rw [h]; decide),
      if_pos h]
    split <;> rfl

theorem handle_discovery_unknown {ρ : Type} (R : router ρ) (st : mesh_network ρ)
    (msg : message) (ht : 4 < msg.type) :
    st.handle_discovery R msg = (false, st) := by
  unfold mesh_network.handle_discovery
  have e1 : msg.type ≠ DISCOVERY.PRESENT := by unfold DISCOVERY.PRESENT; omega
  have e2 : msg.type ≠ DISCOVERY.RESPOND := by unfold DISCOVERY.RESPOND; omega
  have e3 : msg.type ≠ DISCOVERY.ACCEPT := by unfold DISCOVERY.ACCEPT; omega
  have e4 : msg.type ≠ DISCOVERY.DENY := by unfold DISCOVERY.DENY; omega
  have e0 : msg.type ≠ DISCOVERY.NO_OPERATION := by unfold DISCOVERY.NO_OPERATION; omega
  rw [if_neg e1, if_neg e2, if_neg e3, if_neg e4, if_neg e0]

theorem discovery_type_bits (t : Nat)
    (ht : t = DISCOVERY.NO_OPERATION ∨ t = DISCOVERY.PRESENT ∨ t = DISCOVERY.RESPOND ∨
      t = DISCOVERY.ACCEPT ∨ t = DISCOVERY.DENY) :
    t &&& 0x10 = 0 ∧ t &&& 0x20 = 0 := by
  rcases ht with h | h | h | h | h <;> rw [h] <;> decide

/-- C25. For every router and network: from a sender that is not blacklisted
`handleMessage` returns true for the types NO_OPERATION, PRESENT, RESPOND, ACCEPT and
DENY.  For a type with bit 0x20 and without bit 0x10 it returns false and message and
network are unchanged; for a type with both bits, `on_routing_message` runs first and, if
it keeps the type, the result is false and message and network are as it left them.  For
any other type without the bits 0x10 and 0x20 from a sender that is not blacklisted it
returns false, message and network unchanged.  With the base router the network (its
pipes included) is unchanged whenever `handleMessage` returns false. -/
theorem handleMessage_result {ρ : Type} (R : router ρ) (st : mesh_network ρ) (msg : message) :
    ((msg.type = DISCOVERY.NO_OPERATION ∨ msg.type = DISCOVERY.PRESENT ∨
        msg.type = DISCOVERY.RESPOND ∨ msg.type = DISCOVERY.ACCEPT ∨
        msg.type = DISCOVERY.DENY) →
      st.is_blacklisted msg.sender = false → (st.handleMessage R msg).1 = true) ∧
    ((msg.type &&& 0x20) > 0 → msg.type &&& 0x10 = 0 →
      st.handleMessage R msg = (false, msg, st)) ∧
    ((msg.type &&& 0x20) > 0 → (msg.type &&& 0x10) > 0 →
      (R.on_routing_message st.network_router st.connection msg).1.type = msg.type →
      st.handleMessage R msg =
        (false, (R.on_routing_message st.network_router st.connection msg).1,
          { st with
            network_router := (R.on_routing_message st.network_router st.connection msg).2.1,
            connection := (R.on_routing_message st.network_router st.connection msg).2.2 })) ∧
    (msg.type &&& 0x20 = 0 → msg.type &&& 0x10 = 0 → 4 < msg.type →
      st.is_blacklisted msg.sender = false → st.handleMessage R msg = (false, msg, st)) ∧
    (∀ (net : mesh_network Unit) (m : message),
      (net.handleMessage router.base m).1 = false →
        (net.handleMessage router.base m).2.2 = net ∧
        (net.handleMessage router.base m).2.2.connection.connections =
          net.connection.connections) := by
  refine ⟨?_, ?_, ?_, ?_, ?_⟩
  · intro ht hb
    obtain ⟨b1, b2⟩ := discovery_type_bits msg.type ht
    rw [handleMessage_no_routing R st msg b1, if_neg (by rw [b2]; decide), hb]
    exact handle_discovery_known R st msg ht
  · intro h2 h1
    rw [handleMessage_no_routing R st msg h1, if_pos h2]
  · intro h2 h1 hk
    rw [handleMessage_routing R st msg h1, hk, if_pos h2]
  · intro h2 h1 ht hb
    rw [handleMessage_no_routing R st msg h1, if_neg (by rw [h2]; decide), hb,
      handle_discovery_unknown R st msg ht]
    rfl
  · intro net m hf
    have hbase : net.handleMessage router.base m =
        if (m.type &&& 0x20) > 0 then (false, m, net)
        else if net.is_blacklisted m.sender then (true, m, net)
        else ((net.handle_discovery router.base m).1, m,
          (net.handle_discovery router.base m).2) := by
      by_cases h1 : (m.type &&& 0x10) > 0
      · rw [handleMessage_routing router.base net m h1]
        rfl
      · exact handleMessage_no_routing router.base net m (by omega)
    rw [hbase] at hf ⊢
    by_cases h2 : (m.type &&& 0x20) > 0
    · rw [if_pos h2]
      exact ⟨rfl, rfl⟩
    · rw [if_neg h2] at hf ⊢
      by_cases hb : net.is_blacklisted m.sender = true
      · rw [if_pos hb] at hf
        exact absurd hf (by simp)
      · rw [if_neg hb] at hf ⊢
        by_cases ht : 4 < m.type
        · rw [handle_discovery_unknown router.base net m ht]
          exact ⟨rfl, rfl⟩
        · exfalso
          have hk := handle_discovery_known router.base net m (by
            unfold DISCOVERY.NO_OPERATION DISCOVERY.PRESENT DISCOVERY.RESPOND
              DISCOVERY.ACCEPT DISCOVERY.DENY
            omega)
          rw [hk] at hf
          exact absurd hf (by simp)

/-! ## `check_new_messages` and the blacklist (C26 to C29) -/

theorem check_new_messages_body_local {ρ : Type} (R : router ρ) (st : mesh_network ρ)
    (uncaught : List message) (index : Nat) (msg : message)
    (hnew : (st.connection.is_new_message msg).1 = true)
    (hrecv : msg.receiver = st.connection.id ∨ msg.receiver = 0) :
    mesh_network.check_new_messages_body R st uncaught index msg =
      if (mesh_network.handleMessage R
          { st with connection := (st.connection.is_new_message msg).2 } msg).1 then
        ((mesh_network.handleMessage R
            { st with connection := (st.connection.is_new_message msg).2 } msg).2.2,
          uncaught, index)
      else
        ((mesh_network.handleMessage R
            { st with connection := (st.connection.is_new_message msg).2 } msg).2.2,
          uncaught.set index (mesh_network.handleMessage R
            { st with connection := (st.connection.is_new_message msg).2 } msg).2.1,
          (index + 1) % 256) := by
  have hid : (st.connection.is_new_message msg).2.id = st.connection.id :=
    is_new_message_id st.connection.toconnectivity_adapter msg
  unfold mesh_network.check_new_messages_body
  simp only [hnew, hid, hrecv, Bool.not_true, Bool.false_eq_true, if_false, if_true]
  split <;> simp_all

theorem check_new_messages_body_transit {ρ : Type} (R : router ρ) (st : mesh_network ρ)
    (uncaught : List message) (index : Nat) (msg : message)
    (hnew : (st.connection.is_new_message msg).1 = true)
    (h1 : msg.receiver ≠ st.connection.id) (h0 : msg.receiver ≠ 0) :
    let c := (st.connection.is_new_message msg).2
    let g := if c.connection_state msg.receiver = mesh_connection_state.ACCEPTED
      then (0, st.network_router, c) else R.get_next_hop st.network_router c msg.receiver
    let t := g.2.2.send msg g.1
    mesh_network.check_new_messages_body R st uncaught index msg =
      (if t.1 then { st with network_router := g.2.1, connection := t.2.2 }
        else { st with network_router := (R.update_neighbours g.2.1 t.2.2).1,
                       connection := (R.update_neighbours g.2.1 t.2.2).2 },
        uncaught, index) := by
  have hid : (st.connection.is_new_message msg).2.id = st.connection.id :=
    is_new_message_id st.connection.toconnectivity_adapter msg
  unfold mesh_network.check_new_messages_body
  simp only [hnew, hid, h1, h0, or_self, Bool.not_true, Bool.false_eq_true, if_false, ne_eq,
    ite_not]
  split <;> (split <;> simp_all)

/-- C26. A new message addressed to this node or broadcast whose type is UPDATE_REQUEST
(0x10) or UPDATE (0x11) is handed to the router's `on_routing_message`; when the router
keeps the type and the sender is not blacklisted, `handleMessage` then falls through to
the default case and returns false, so `check_new_messages` places the message in
`uncaught[index]` and counts it. -/
theorem routing_message_left_uncaught {ρ : Type} (R : router ρ) (st : mesh_network ρ)
    (uncaught : List message) (index : Nat) (msg : message)
    (htype : msg.type = LINK_STATE_ROUTING.UPDATE_REQUEST ∨
      msg.type = LINK_STATE_ROUTING.UPDATE)
    (hnew : (st.connection.is_new_message msg).1 = true)
    (hrecv : msg.receiver = st.connection.id ∨ msg.receiver = 0)
    (hkeep : (R.on_routing_message st.network_router
      (st.connection.is_new_message msg).2 msg).1.type = msg.type)
    (hb : st.is_blacklisted (R.on_routing_message st.network_router
      (st.connection.is_new_message msg).2 msg).1.sender = false) :
    (mesh_network.handleMessage R
      { st with connection := (st.connection.is_new_message msg).2 } msg).1 = false ∧
    mesh_network.check_new_messages_body R st uncaught index msg =
      ({ st with
          network_router := (R.on_routing_message st.network_router
            (st.connection.is_new_message msg).2 msg).2.1,
          connection := (R.on_routing_message st.network_router
            (st.connection.is_new_message msg).2 msg).2.2 },
        uncaught.set index (R.on_routing_message st.network_router
          (st.connection.is_new_message msg).2 msg).1,
        (index + 1) % 256) := by
  have h10 : (msg.type &&& 0x10) > 0 := by
    rcases htype with h | h <;> rw [h] <;> decide
  have h20 : ¬ (msg.type &&& 0x20) > 0 := by
    rcases htype with h | h <;> rw [h] <;> decide
  have h4 : 4 < msg.type := by
    rcases htype with h | h <;> rw [h] <;> decide
  have hb2 : mesh_network.is_blacklisted
      { st with connection := (st.connection.is_new_message msg).2 }
      (R.on_routing_message st.network_router
        (st.connection.is_new_message msg).2 msg).1.sender = false := hb
  have key : mesh_network.handleMessage R
      { st with connection := (st.connection.is_new_message msg).2 } msg =
      (false, (R.on_routing_message st.network_router
          (st.connection.is_new_message msg).2 msg).1,
        { st with
          network_router := (R.on_routing_message st.network_router
            (st.connection.is_new_message msg).2 msg).2.1,
          connection := (R.on_routing_message st.network_router
            (st.connection.is_new_message msg).2 msg).2.2 }) := by
    rw [handleMessage_routing R _ msg h10]
    simp only []
    rw [hkeep, if_neg h20, hb2, handle_discovery_unknown R _ _ (by rw [hkeep]; exact h4)]
    rfl
  refine ⟨by rw [key], ?_⟩
  rw [check_new_messages_body_local R st uncaught index msg hnew hrecv, key]
  rfl

theorem routing_message_left_uncaught_witness :
    (mesh_network.handleMessage router.counting
      { sample_counting_network with
        connection := (sample_counting_network.connection.is_new_message sample_update).2 }
      sample_update).1 = false ∧
    mesh_network.check_new_messages_body router.counting sample_counting_network
        (List.replicate 10 message.empty) 0 sample_update =
      ({ sample_counting_network with
          network_router := (router.counting.on_routing_message
            sample_counting_network.network_router
            (sample_counting_network.connection.is_new_message sample_update).2
            sample_update).2.1,
          connection := (router.counting.on_routing_message
            sample_counting_network.network_router
            (sample_counting_network.connection.is_new_message sample_update).2
            sample_update).2.2 },
        (List.replicate 10 message.empty).set 0 (router.counting.on_routing_message
          sample_counting_network.network_router
          (sample_counting_network.connection.is_new_message sample_update).2
          sample_update).1,
        (0 + 1) % 256) :=
  routing_message_left_uncaught router.counting sample_counting_network
    (List.replicate 10 message.empty) 0 sample_update (Or.inr rfl) (by decide)
    (Or.inl (by decide)) rfl (by decide)

/-- C27 (counterexample). Node 0x10 has node 0x20 on its blacklist and its radio holds
the application frame 7 (type 0x20) of node 0x20 addressed to node 0x10:
`check_new_messages` returns the count 1 with the frame in `uncaught[0]`. -/
theorem blacklisted_application_frame_surfaced :
    sample_blacklisting_network.is_blacklisted 0x20 = true ∧
    (mesh_network.check_new_messages router.base 5 sample_blacklisting_network
        (List.replicate 10 message.empty)).map (fun r => (r.1, r.2.1.getD 0 message.empty)) =
      some (1, sample_frame_parsed) := by
  decide

/-- C27 (amended). A new message whose type has bit 0x20 set and bit 0x10 clear (an
application frame) and that is addressed to this node or is a broadcast is placed in
`uncaught[index]` and counted by `check_new_messages`, whatever the blacklist holds; only
the duplicate history changes. -/
theorem application_frame_surfaced_whatever_blacklist {ρ : Type} (R : router ρ)
    (st : mesh_network ρ) (uncaught : List message) (index : Nat) (msg : message)
    (h20 : (msg.type &&& 0x20) > 0) (h10 : msg.type &&& 0x10 = 0)
    (hnew : (st.connection.is_new_message msg).1 = true)
    (hrecv : msg.receiver = st.connection.id ∨ msg.receiver = 0) :
    mesh_network.check_new_messages_body R st uncaught index msg =
      ({ st with connection := (st.connection.is_new_message msg).2 },
        uncaught.set index msg, (index + 1) % 256) := by
  rw [check_new_messages_body_local R st uncaught index msg hnew hrecv,
    handleMessage_no_routing R _ msg h10, if_pos h20]
  rfl

theorem application_frame_surfaced_whatever_blacklist_witness :
    sample_blacklisting_network.is_blacklisted sample_frame.sender = true ∧
    mesh_network.check_new_messages_body router.base sample_blacklisting_network
        (List.replicate 10 message.empty) 0 sample_frame =
      ({ sample_blacklisting_network with
          connection := (sample_blacklisting_network.connection.is_new_message sample_frame).2 },
        (List.replicate 10 message.empty).set 0 sample_frame, (0 + 1) % 256) :=
  ⟨by decide,
    application_frame_surfaced_whatever_blacklist router.base sample_blacklisting_network
      (List.replicate 10 message.empty) 0 sample_frame (by decide) (by decide) (by decide)
      (Or.inl (by decide))⟩

/-! ### `add_blacklist` -/

theorem set_append_replicate (pre : List Nat) (k x : Nat) :
    (pre ++ List.replicate (k + 1) 0).set pre.length x = (pre ++ [x]) ++ List.replicate k 0 := by
  induction pre with
  | nil => rfl
  | cons a pre ih =>
    simp only [List.cons_append, List.length_cons, List.set_cons_succ, ih]

/-- `add_blacklist` on a blacklist that holds the ids `pre` followed by zeroes, with room
for the new ids: the new ids follow `pre`, nothing else of the network changes. -/
theorem add_blacklist_spec {ρ : Type} (list : List Nat) :
    ∀ (st : mesh_network ρ) (pre : List Nat),
      st.blacklist = pre ++ List.replicate (10 - pre.length) 0 →
      st.blacklist_size = pre.length → pre.length + list.length ≤ 10 →
      (st.add_blacklist list).blacklist =
        (pre ++ list) ++ List.replicate (10 - (pre ++ list).length) 0 ∧
      (st.add_blacklist list).blacklist_size = (pre ++ list).length ∧
      (st.add_blacklist list).connection = st.connection ∧
      (st.add_blacklist list).network_router = st.network_router := by
  induction list with
  | nil =>
    intro st pre hb hs _
    rw [List.append_nil]
    exact ⟨hb, hs, rfl, rfl⟩
  | cons x rest ih =>
    intro st pre hb hs hlen
    rw [List.length_cons] at hlen
    have hk : 10 - pre.length = (10 - (pre ++ [x]).length) + 1 := by
      rw [List.length_append, List.length_singleton]
      omega
    have step := ih
      { st with blacklist := st.blacklist.set st.blacklist_size x,
                blacklist_size := st.blacklist_size + 1 }
      (pre ++ [x])
      (by
        show st.blacklist.set st.blacklist_size x = _
        rw [hb, hs, hk, set_append_replicate])
      (by
        show st.blacklist_size + 1 = _
        rw [hs, List.length_append, List.length_singleton])
      (by
        rw [List.length_append, List.length_singleton]
        omega)
    simp only [List.append_assoc, List.singleton_append, List.cons_append] at step ⊢
    exact step

theorem is_blacklisted_loop_mem (id : Nat) (rest : List Nat) :
    ∀ l : List Nat, 0 ∉ l → id ∈ l → is_blacklisted_loop id (l ++ rest) = true := by
  intro l
  induction l with
  | nil => intro _ h; exact absurd h (List.not_mem_nil _)
  | cons a l ih =>
    intro h0 hm
    show (if id = a then true else if a = 0 then false
      else is_blacklisted_loop id (l ++ rest)) = true
    by_cases e : id = a
    · rw [if_pos e]
    · rw [if_neg e]
      have ha : a ≠ 0 := fun h => h0 (by rw [h]; exact List.mem_cons_self _ _)
      rw [if_neg ha]
      exact ih (fun h => h0 (List.mem_cons_of_mem _ h))
        ((List.mem_cons.mp hm).resolve_left e)

/-- C28. The blacklist holds the ids `pre` followed by zeroes and `add_blacklist list`
adds the ids of `list` (no zero among `pre` and `list`, at most 10 ids together).  For
every id `b` of `list` and every message with sender `b` whose type is one of 0x00 to
0x04, `handleMessage` returns true and leaves the message and the whole network as they
were: no pipe changes, no frame is handed to the radio, the connection state of `b` is
what it was before; and a new such message addressed to this node or broadcast leaves
`check_new_messages` with only the duplicate history changed and nothing in `uncaught`. -/
theorem blacklisted_discovery_swallowed {ρ : Type} (R : router ρ) (st : mesh_network ρ)
    (pre list : List Nat) (b : Nat) (msg : message)
    (hpre : st.blacklist = pre ++ List.replicate (10 - pre.length) 0)
    (hsize : st.blacklist_size = pre.length)
    (hlen : pre.length + list.length ≤ 10)
    (hzero : 0 ∉ pre ++ list) (hb : b ∈ list) (hs : msg.sender = b)
    (ht : msg.type ≤ 4) :
    (st.add_blacklist list).connection = st.connection ∧
    (st.add_blacklist list).handleMessage R msg = (true, msg, st.add_blacklist list) ∧
    ((st.add_blacklist list).handleMessage R msg).2.2.connection.connections =
      st.connection.connections ∧
    ((st.add_blacklist list).handleMessage R msg).2.2.connection.nrf24.tx_log =
      st.connection.nrf24.tx_log ∧
    ((st.add_blacklist list).handleMessage R msg).2.2.connection.connection_state b =
      st.connection.connection_state b ∧
    (∀ (uncaught : List message) (index : Nat),
      ((st.add_blacklist list).connection.is_new_message msg).1 = true →
      (msg.receiver = (st.add_blacklist list).connection.id ∨ msg.receiver = 0) →
      mesh_network.check_new_messages_body R (st.add_blacklist list) uncaught index msg =
        ({ st.add_blacklist list with
            connection := ((st.add_blacklist list).connection.is_new_message msg).2 },
          uncaught, index)) := by
  obtain ⟨e1, _, e3, _⟩ := add_blacklist_spec list st pre hpre hsize hlen
  have hbl : ∀ c : nrf, mesh_network.is_blacklisted
      { st.add_blacklist list with connection := c } msg.sender = true := by
    intro c
    show is_blacklisted_loop msg.sender (st.add_blacklist list).blacklist = true
    rw [e1, hs]
    exact is_blacklisted_loop_mem b _ (pre ++ list) hzero (List.mem_append_right _ hb)
  have hbits := discovery_type_bits msg.type (by
    unfold DISCOVERY.NO_OPERATION DISCOVERY.PRESENT DISCOVERY.RESPOND DISCOVERY.ACCEPT
      DISCOVERY.DENY
    omega)
  have key : ∀ c : nrf, mesh_network.handleMessage R
      { st.add_blacklist list with connection := c } msg =
      (true, msg, { st.add_blacklist list with connection := c }) := by
    intro c
    rw [handleMessage_no_routing R _ msg hbits.1, if_neg (by rw [hbits.2]; decide), hbl c]
    rfl
  have key0 : (st.add_blacklist list).handleMessage R msg =
      (true, msg, st.add_blacklist list) := key (st.add_blacklist list).connection
  refine ⟨e3, key0, ?_, ?_, ?_, ?_⟩
  · rw [key0, e3]
  · rw [key0, e3]
  · rw [key0, e3]
  · intro uncaught index hnew hrecv
    rw [check_new_messages_body_local R _ uncaught index msg hnew hrecv, key]
    rfl

theorem blacklisted_discovery_swallowed_witness :
    (sample_network.add_blacklist [0x20]).connection = sample_network.connection ∧
    (sample_network.add_blacklist [0x20]).handleMessage router.base sample_present_20 =
      (true, sample_present_20, sample_network.add_blacklist [0x20]) ∧
    ((sample_network.add_blacklist [0x20]).handleMessage router.base
        sample_present_20).2.2.connection.connections =
      sample_network.connection.connections ∧
    ((sample_network.add_blacklist [0x20]).handleMessage router.base
        sample_present_20).2.2.connection.nrf24.tx_log =
      sample_network.connection.nrf24.tx_log ∧
    ((sample_network.add_blacklist [0x20]).handleMessage router.base
        sample_present_20).2.2.connection.connection_state 0x20 =
      sample_network.connection.connection_state 0x20 ∧
    (∀ (uncaught : List message) (index : Nat),
      ((sample_network.add_blacklist [0x20]).connection.is_new_message
        sample_present_20).1 = true →
      (sample_present_20.receiver = (sample_network.add_blacklist [0x20]).connection.id ∨
        sample_present_20.receiver = 0) →
      mesh_network.check_new_messages_body router.base (sample_network.add_blacklist [0x20])
          uncaught index sample_present_20 =
        ({ sample_network.add_blacklist [0x20] with
            connection := ((sample_network.add_blacklist [0x20]).connection.is_new_message
              sample_present_20).2 },
          uncaught, index)) :=
  blacklisted_discovery_swallowed router.base sample_network [] [0x20] 0x20 sample_present_20
    (by decide) (by decide) (by decide) (by decide) (by decide) (by decide) (by decide)

/-- C29. A new message whose receiver is neither 0 nor this node is forwarded by one call
of `send`: with next hop 0, which `send` replaces by `msg.receiver`, when
`connection_state(msg.receiver)` is ACCEPTED, and with the next hop of
`router.get_next_hop(msg.receiver)` otherwise.  `router.update_neighbours()` runs exactly
when that `send` returns false.  The message is never placed in `uncaught`, the count is
unchanged, and the blacklist is not consulted: with any other blacklist the round does
the same. -/
theorem transit_message_forwarded {ρ : Type} (R : router ρ) (st : mesh_network ρ)
    (uncaught : List message) (index : Nat) (msg : message)
    (hnew : (st.connection.is_new_message msg).1 = true)
    (h1 : msg.receiver ≠ st.connection.id) (h0 : msg.receiver ≠ 0) :
    let c := (st.connection.is_new_message msg).2
    let g := if c.connection_state msg.receiver = mesh_connection_state.ACCEPTED
      then (0, st.network_router, c) else R.get_next_hop st.network_router c msg.receiver
    let t := g.2.2.send msg g.1
    mesh_network.check_new_messages_body R st uncaught index msg =
      (if t.1 then { st with network_router := g.2.1, connection := t.2.2 }
        else { st with network_router := (R.update_neighbours g.2.1 t.2.2).1,
                       connection := (R.update_neighbours g.2.1 t.2.2).2 },
        uncaught, index) ∧
    (c.connection_state msg.receiver = mesh_connection_state.ACCEPTED →
      t = c.send msg msg.receiver) ∧
    (∀ (bl : List Nat) (n : Nat),
      mesh_network.check_new_messages_body R { st with blacklist := bl, blacklist_size := n }
          uncaught index msg =
        ({ (mesh_network.check_new_messages_body R st uncaught index msg).1 with
            blacklist := bl, blacklist_size := n }, uncaught, index)) := by
  intro c g t
  have body := check_new_messages_body_transit R st uncaught index msg hnew h1 h0
  refine ⟨body, ?_, ?_⟩
  · intro hacc
    show g.2.2.send msg g.1 = c.send msg msg.receiver
    have hg : g = (0, st.network_router, c) := if_pos hacc
    rw [hg]
    show c.send msg 0 = c.send msg msg.receiver
    unfold nrf.send
    simp only [if_true, if_neg h0]
  · intro bl n
    rw [check_new_messages_body_transit R { st with blacklist := bl, blacklist_size := n }
      uncaught index msg hnew h1 h0, body]
    show (if t.1 = true then _ else _, uncaught, index) = _
    cases t.1 <;> rfl

theorem transit_message_forwarded_witness :
    (sample_linked_network.connection.is_new_message sample_transit).1 = true ∧
    (let c := (sample_linked_network.connection.is_new_message sample_transit).2
     let g := if c.connection_state sample_transit.receiver = mesh_connection_state.ACCEPTED
       then (0, sample_linked_network.network_router, c)
       else router.base.get_next_hop sample_linked_network.network_router c
         sample_transit.receiver
     let t := g.2.2.send sample_transit g.1
     mesh_network.check_new_messages_body router.base sample_linked_network
         (List.replicate 10 message.empty) 0 sample_transit =
       (if t.1 then { sample_linked_network with network_router := g.2.1, connection := t.2.2 }
         else { sample_linked_network with
                 network_router := (router.base.update_neighbours g.2.1 t.2.2).1,
                 connection := (router.base.update_neighbours g.2.1 t.2.2).2 },
         List.replicate 10 message.empty, 0) ∧
     (c.connection_state sample_transit.receiver = mesh_connection_state.ACCEPTED →
       t = c.send sample_transit sample_transit.receiver) ∧
     (∀ (bl : List Nat) (n : Nat),
       mesh_network.check_new_messages_body router.base
           { sample_linked_network with blacklist := bl, blacklist_size := n }
           (List.replicate 10 message.empty) 0 sample_transit =
         ({ (mesh_network.check_new_messages_body router.base sample_linked_network
               (List.replicate 10 message.empty) 0 sample_transit).1 with
             blacklist := bl, blacklist_size := n },
           List.replicate 10 message.empty, 0))) :=
  ⟨by decide,
    transit_message_forwarded router.base sample_linked_network
      (List.replicate 10 message.empty) 0 sample_transit (by decide) (by decide) (by decide)⟩

/-! ## `unicast_all_close_if_fail` (C30) -/

set_option maxRecDepth 100000 in
/-- C30. Node 0x10 has the accepted neighbours 0x20 and 0x30 and its radio acknowledges
nothing.  In `unicast_all_close_if_fail` of the keepalive, `send_all` returns false with
both ids in the failure array; the removal loop tests `i < get_neighbour_count()` again
after node 0x20 has been removed, so it ends with `i = 1` and node 0x30 is never passed to
`remove_direct_connection`: `get_neighbours` still writes 0x30 and its pipe is still
ACCEPTED.  Removing both failed ids would leave no neighbour.  `send_update` ran once. -/
theorem unicast_all_close_if_fail_keeps_failed_neighbour :
    sample_lost_network.connection.get_neighbours = [0x20, 0x30] ∧
    (sample_lost_network.connection.send_all sample_keepalive true).1 = false ∧
    (sample_lost_network.connection.send_all sample_keepalive true).2.2.1 = [0x20, 0x30] ∧
    (mesh_network.unicast_all_close_if_fail router.counting sample_lost_network
      sample_keepalive).2.connection.get_neighbours = [0x30] ∧
    (mesh_network.unicast_all_close_if_fail router.counting sample_lost_network
      sample_keepalive).2.connection.connection_state 0x20 =
        mesh_connection_state.DISCONNECTED ∧
    (mesh_network.unicast_all_close_if_fail router.counting sample_lost_network
      sample_keepalive).2.connection.connection_state 0x30 =
        mesh_connection_state.ACCEPTED ∧
    (((sample_lost_network.connection.send_all sample_keepalive true).2.2.2
      ).remove_direct_connection 0x20 |>.remove_direct_connection 0x30).get_neighbours = [] ∧
    (mesh_network.unicast_all_close_if_fail router.counting sample_lost_network
      sample_keepalive).2.network_router = (0, 1) := by
  decide

/-! ## `update` (C31) -/

theorem unicast_all_close_if_fail_counters {ρ : Type} (R : router ρ) (st : mesh_network ρ)
    (msg : message) :
    (st.unicast_all_close_if_fail R msg).2.update_count = st.update_count ∧
    (st.unicast_all_close_if_fail R msg).2.keepalive_interval = st.keepalive_interval := by
  unfold mesh_network.unicast_all_close_if_fail
  simp only []
  split <;> exact ⟨rfl, rfl⟩

/-- A call of `update()` with the counter at most `keepalive_interval` and not one below
half of it only counts. -/
theorem update_idle {ρ : Type} (R : router ρ) (st : mesh_network ρ)
    (h1 : st.update_count ≤ st.keepalive_interval)
    (h2 : st.update_count + 1 ≠ st.keepalive_interval / 2)
    (h3 : st.update_count + 1 < 4294967296) :
    st.update R = { st with update_count := st.update_count + 1 } := by
  have hn : ¬ st.update_count > st.keepalive_interval := by omega
  unfold mesh_network.update
  simp only [Nat.mod_eq_of_lt h3, hn, if_false]
  rw [if_neg h2]

/-- A call of `update()` that brings the counter to half of `keepalive_interval` runs
`discover()`. -/
theorem update_discover {ρ : Type} (R : router ρ) (st : mesh_network ρ)
    (h1 : st.update_count ≤ st.keepalive_interval)
    (h2 : st.update_count + 1 = st.keepalive_interval / 2)
    (h3 : st.update_count + 1 < 4294967296) :
    st.update R = mesh_network.discover { st with update_count := st.update_count + 1 } := by
  have hn : ¬ st.update_count > st.keepalive_interval := by omega
  unfold mesh_network.update
  simp only [Nat.mod_eq_of_lt h3, hn, if_false]
  rw [if_pos h2]

/-- A call of `update()` with the counter above `keepalive_interval` resets the counter and
sends the keepalive. -/
theorem update_keepalive {ρ : Type} (R : router ρ) (st : mesh_network ρ)
    (h1 : st.keepalive_interval < st.update_count) (h2 : 2 ≤ st.keepalive_interval) :
    st.update R =
      (mesh_network.unicast_all_close_if_fail R { st with update_count := 0 }
        (message.mk5 DISCOVERY.NO_OPERATION 0 st.connection.id 0 0)).2 := by
  obtain ⟨c1, c2⟩ := unicast_all_close_if_fail_counters R { st with update_count := 0 }
    (message.mk5 DISCOVERY.NO_OPERATION 0 st.connection.id 0 0)
  have hp : st.update_count > st.keepalive_interval := h1
  unfold mesh_network.update
  simp only [hp, if_true]
  rw [if_neg]
  rw [c1, c2]
  show (0 : Nat) ≠ st.keepalive_interval / 2
  omega

theorem discover_counters {ρ : Type} (st : mesh_network ρ) :
    st.discover.update_count = st.update_count ∧
    st.discover.keepalive_interval = st.keepalive_interval := ⟨rfl, rfl⟩

theorem updates_counter {ρ : Type} (R : router ρ) (st : mesh_network ρ)
    (h0 : st.update_count = 0) (hk : st.keepalive_interval = 1000) (m : Nat) :
    (mesh_network.updates R m st).update_count = m % 1002 ∧
    (mesh_network.updates R m st).keepalive_interval = 1000 := by
  induction m with
  | zero => exact ⟨h0, hk⟩
  | succ m ih =>
    obtain ⟨i1, i2⟩ := ih
    show ((mesh_network.updates R m st).update R).update_count = _ ∧
      ((mesh_network.updates R m st).update R).keepalive_interval = _
    generalize mesh_network.updates R m st = s at i1 i2
    have hlt : m % 1002 < 1002 := Nat.mod_lt _ (by decide)
    by_cases e1 : m % 1002 = 1001
    · rw [update_keepalive R s (by omega) (by omega)]
      obtain ⟨c1, c2⟩ := unicast_all_close_if_fail_counters R { s with update_count := 0 }
        (message.mk5 DISCOVERY.NO_OPERATION 0 s.connection.id 0 0)
      rw [c1, c2]
      refine ⟨?_, i2⟩
      show 0 = (m + 1) % 1002
      omega
    · by_cases e2 : m % 1002 = 499
      · rw [update_discover R s (by omega) (by omega) (by omega)]
        refine ⟨?_, i2⟩
        show s.update_count + 1 = (m + 1) % 1002
        omega
      · rw [update_idle R s (by omega) (by omega) (by omega)]
        refine ⟨?_, i2⟩
        show s.update_count + 1 = (m + 1) % 1002
        omega

/-- C31. Repeated calls of `update()` from `update_count = 0` with `keepalive_interval =
1000`: after `m` calls the counter is `m mod 1002`.  The call after `m` calls sends the
NO_OPERATION keepalive (and nothing else) exactly when `m mod 1002 = 1001`, runs
`discover()` exactly when `m mod 1002 = 499`, bringing the counter to 500, and only counts
otherwise.  So the first keepalive is sent by call 1002, none by the first 1000 calls, and
keepalive and discovery repeat every 1002 calls. -/
theorem update_period {ρ : Type} (R : router ρ) (st : mesh_network ρ)
    (h0 : st.update_count = 0) (hk : st.keepalive_interval = 1000) :
    (∀ m, (mesh_network.updates R m st).update_count = m % 1002) ∧
    (∀ m, m % 1002 = 1001 →
      mesh_network.updates R (m + 1) st =
        (mesh_network.unicast_all_close_if_fail R
          { mesh_network.updates R m st with update_count := 0 }
          (message.mk5 DISCOVERY.NO_OPERATION 0
            (mesh_network.updates R m st).connection.id 0 0)).2) ∧
    (∀ m, m % 1002 = 499 →
      mesh_network.updates R (m + 1) st =
        mesh_network.discover { mesh_network.updates R m st with update_count := 500 }) ∧
    (∀ m, m % 1002 ≠ 1001 → m % 1002 ≠ 499 →
      mesh_network.updates R (m + 1) st =
        { mesh_network.updates R m st with update_count := m % 1002 + 1 }) ∧
    (∀ m, m < 1001 → m ≠ 499 →
      (mesh_network.updates R (m + 1) st).connection =
        (mesh_network.updates R m st).connection) := by
  have hc := updates_counter R st h0 hk
  have hidle : ∀ m, m % 1002 ≠ 1001 → m % 1002 ≠ 499 →
      mesh_network.updates R (m + 1) st =
        { mesh_network.updates R m st with update_count := m % 1002 + 1 } := by
    intro m e1 e2
    obtain ⟨i1, i2⟩ := hc m
    have hlt : m % 1002 < 1002 := Nat.mod_lt _ (by decide)
    show (mesh_network.updates R m st).update R = _
    rw [update_idle R _ (by omega) (by omega) (by omega), i1]
  refine ⟨fun m => (hc m).1, ?_, ?_, hidle, ?_⟩
  · intro m e
    obtain ⟨i1, i2⟩ := hc m
    show (mesh_network.updates R m st).update R = _
    rw [update_keepalive R _ (by omega) (by omega)]
  · intro m e
    obtain ⟨i1, i2⟩ := hc m
    show (mesh_network.updates R m st).update R = _
    rw [update_discover R _ (by omega) (by omega) (by omega), i1, e]
  · intro m h1 h2
    rw [hidle m (by omega) (by omega)]

theorem update_period_witness :
    sample_network.update_count = 0 ∧ sample_network.keepalive_interval = 1000 ∧
    (mesh_network.updates router.base 1000 sample_network).update_count = 1000 % 1002 :=
  ⟨rfl, rfl, (update_period router.base sample_network rfl rfl).1 1000⟩

/-! ## `nrf_pipe::send_message` and the receive slots (C32) -/

theorem flush_connected (p : nrf_pipe) (r : nrf24l01plus)
    (hs : p.connection_state ≠ mesh_connection_state.DISCONNECTED) :
    p.flush r =
      { r with
        rx_address := r.rx_address.set p.pipe_number p.nrf_address,
        rx_en := r.rx_en.set p.pipe_number true,
        tx_address := if p.pipe_number = 0 then p.nrf_address else r.tx_address } := by
  unfold nrf_pipe.flush
  cases hc : p.connection_state
  · exact absurd hc hs
  all_goals
    simp only [nrf24l01plus.rx_enabled, nrf24l01plus.rx_set_address,
      nrf24l01plus.tx_set_address]
    split <;> rfl

theorem transmit_rx_address (r : nrf24l01plus) (data : List Nat) (n : Nat) (no_ack : Bool) :
    (r.transmit data n no_ack).2.rx_address = r.rx_address := by
  unfold nrf24l01plus.transmit
  cases r.tx_results <;> rfl

theorem transmit_rx_en (r : nrf24l01plus) (data : List Nat) (n : Nat) (no_ack : Bool) :
    (r.transmit data n no_ack).2.rx_en = r.rx_en := by
  unfold nrf24l01plus.transmit
  cases r.tx_results <;> rfl

/-- The radio after `send_message` through a connected pipe other than pipe 0, when the
pipe at index 0 of `all_pipes` is the connected pipe 0. -/
theorem send_message_radio (p : nrf_pipe) (all_pipes : List nrf_pipe) (r : nrf24l01plus)
    (n : Nat) (data : List Nat) (hp : p.pipe_number ≠ 0)
    (hs : p.connection_state ≠ mesh_connection_state.DISCONNECTED)
    (h0 : (all_pipes.getD 0 default).pipe_number = 0)
    (hs0 : (all_pipes.getD 0 default).connection_state ≠ mesh_connection_state.DISCONNECTED) :
    (p.send_message all_pipes r n data).2.2.rx_address =
      (((r.rx_address.set 0 p.nrf_address).set p.pipe_number p.nrf_address).set 0
        (all_pipes.getD 0 default).nrf_address) ∧
    (p.send_message all_pipes r n data).2.2.rx_en =
      ((((r.rx_en.set p.pipe_number false).set 0 true).set p.pipe_number true).set 0 true) ∧
    (p.send_message all_pipes r n data).2.2.tx_address =
      (all_pipes.getD 0 default).nrf_address ∧
    (p.send_message all_pipes r n data).2.2.mode = r.mode := by
  unfold nrf_pipe.send_message
  simp only [hp, ne_eq, not_false_eq_true, if_true]
  rw [flush_connected (all_pipes.getD 0 default) _ hs0, h0,
    flush_connected { p with pipe_number := p.pipe_number } _ hs,
    flush_connected { p with pipe_number := 0 } _ hs]
  simp only [transmit_rx_address, transmit_rx_en, nrf24l01plus.rx_enabled, if_true]
  exact ⟨trivial, trivial, trivial, trivial⟩

set_option maxRecDepth 100000 in
/-- C32 (counterexample). Pipe 2 of the freshly constructed node 0x10 is DISCONNECTED:
after `send_message` through it the receive slot 2 of the radio is disabled and holds the
address it held before, not an enabled slot with the address of the pipe.  And with a
pipe 0 that is DISCONNECTED, `send_message` through the ACCEPTED pipe 1 of the node with
two neighbours leaves slot 0 disabled, with the address of pipe 1 as receive address and
as transmit address, not that of pipe 0. -/
theorem send_message_disconnected_pipe :
    (sample_node.connections.getD 2 default).pipe_number = 2 ∧
    (sample_node.connections.getD 2 default).connection_state =
      mesh_connection_state.DISCONNECTED ∧
    ((sample_node.connections.getD 2 default).send_message sample_node.connections
      sample_node.nrf24 7 [0, 1, 0x10, 0x30, 0, 0, 0]).2.2.rx_en.getD 2 true = false ∧
    ((sample_node.connections.getD 2 default).send_message sample_node.connections
      sample_node.nrf24 7 [0, 1, 0x10, 0x30, 0, 0, 0]).2.2.rx_address.getD 2 [] =
      sample_node.nrf24.rx_address.getD 2 [] ∧
    (sample_two_neighbours.connections.getD 1 default).pipe_number = 1 ∧
    (sample_two_neighbours.connections.getD 1 default).connection_state =
      mesh_connection_state.ACCEPTED ∧
    (sample_two_neighbours.connections.getD 0 default).nrf_address =
      [0x70, 0x70, 0x70, 0x70, 0x70] ∧
    ((sample_two_neighbours.connections.getD 1 default).send_message
      (sample_two_neighbours.connections.set 0
        { sample_two_neighbours.connections.getD 0 default with
          connection_state := mesh_connection_state.DISCONNECTED })
      sample_two_neighbours.nrf24 7 [0, 1, 0x10, 0x30, 0, 0, 0]).2.2.rx_en.getD 0 true =
      false ∧
    ((sample_two_neighbours.connections.getD 1 default).send_message
      (sample_two_neighbours.connections.set 0
        { sample_two_neighbours.connections.getD 0 default with
          connection_state := mesh_connection_state.DISCONNECTED })
      sample_two_neighbours.nrf24 7 [0, 1, 0x10, 0x30, 0, 0, 0]).2.2.rx_address.getD 0 [] =
      [0x72, 0x72, 0x72, 0x72, 0x12] ∧
    ((sample_two_neighbours.connections.getD 1 default).send_message
      (sample_two_neighbours.connections.set 0
        { sample_two_neighbours.connections.getD 0 default with
          connection_state := mesh_connection_state.DISCONNECTED })
      sample_two_neighbours.nrf24 7 [0, 1, 0x10, 0x30, 0, 0, 0]).2.2.tx_address =
      [0x72, 0x72, 0x72, 0x72, 0x12] := by
  decide

/-- C32 (amended). `send_message` through a pipe with a non-zero number below 6 that is not
DISCONNECTED, on a radio with six receive slots, when index 0 of the pipe array holds
pipe 0, not DISCONNECTED: on return the pipe object is the one before the call (number,
state, connected node, address); slot 0 of the radio has the address of pipe 0 as receive
address and is enabled, and the transmit address is that of pipe 0; the slot of the pipe
is enabled with the address of the pipe; the mode is the mode before the call; and the
result is true exactly when the radio reported data-sent for the transmission (the next
outcome of the radio is `true`). -/
theorem send_message_restores_slots (p : nrf_pipe) (all_pipes : List nrf_pipe)
    (r : nrf24l01plus) (n : Nat) (data : List Nat)
    (hp : p.pipe_number ≠ 0) (hp6 : p.pipe_number < 6)
    (hs : p.connection_state ≠ mesh_connection_state.DISCONNECTED)
    (h0 : (all_pipes.getD 0 default).pipe_number = 0)
    (hs0 : (all_pipes.getD 0 default).connection_state ≠ mesh_connection_state.DISCONNECTED)
    (ha : r.rx_address.length = 6) (he : r.rx_en.length = 6) :
    (p.send_message all_pipes r n data).2.1 = p ∧
    (p.send_message all_pipes r n data).2.2.rx_address.getD 0 [] =
      (all_pipes.getD 0 default).nrf_address ∧
    (p.send_message all_pipes r n data).2.2.rx_en.getD 0 false = true ∧
    (p.send_message all_pipes r n data).2.2.tx_address =
      (all_pipes.getD 0 default).nrf_address ∧
    (p.send_message all_pipes r n data).2.2.rx_address.getD p.pipe_number [] =
      p.nrf_address ∧
    (p.send_message all_pipes r n data).2.2.rx_en.getD p.pipe_number false = true ∧
    (p.send_message all_pipes r n data).2.2.mode = r.mode ∧
    ((p.send_message all_pipes r n data).1 = true ↔ r.tx_results.head? = some true) := by
  obtain ⟨r1, r2, r3, r4⟩ := send_message_radio p all_pipes r n data hp hs h0 hs0
  refine ⟨(send_message_spec p all_pipes r n data).1, ?_, ?_, r3, ?_, ?_, r4, ?_⟩
  · rw [r1, List.getD_eq_getElem?_getD, List.getElem?_set_self (by simp [ha])]
    rfl
  · rw [r2, List.getD_eq_getElem?_getD, List.getElem?_set_self (by simp [he])]
    rfl
  · rw [r1, List.getD_eq_getElem?_getD, List.getElem?_set_ne (Ne.symm hp),
      List.getElem?_set_self (by simp [ha, hp6])]
    rfl
  · rw [r2, List.getD_eq_getElem?_getD, List.getElem?_set_ne (Ne.symm hp),
      List.getElem?_set_self (by simp [he, hp6])]
    rfl
  · rw [(send_message_result p all_pipes r n data).1]
    cases r.tx_results with
    | nil => simp
    | cons b rest => cases b <;> simp

theorem send_message_restores_slots_witness :
    ((sample_two_neighbours.connections.getD 2 default).send_message
      sample_two_neighbours.connections sample_two_neighbours.nrf24 7
      [0, 1, 0x10, 0x30, 0, 0, 0]).2.1 = sample_two_neighbours.connections.getD 2 default ∧
    ((sample_two_neighbours.connections.getD 2 default).send_message
      sample_two_neighbours.connections sample_two_neighbours.nrf24 7
      [0, 1, 0x10, 0x30, 0, 0, 0]).2.2.tx_address = discovery_address :=
  ⟨(send_message_restores_slots (sample_two_neighbours.connections.getD 2 default)
      sample_two_neighbours.connections sample_two_neighbours.nrf24 7
      [0, 1, 0x10, 0x30, 0, 0, 0] (by decide) (by decide) (by decide) (by decide) (by decide)
      (by decide) (by decide)).1,
    (send_message_restores_slots (sample_two_neighbours.connections.getD 2 default)
      sample_two_neighbours.connections sample_two_neighbours.nrf24 7
      [0, 1, 0x10, 0x30, 0, 0, 0] (by decide) (by decide) (by decide) (by decide) (by decide)
      (by decide) (by decide)).2.2.2.1⟩

/-! ## The routers (C33, C35, C36) -/

/-! ## The shortest-path calculator (C33) -/

/-- The row that `update_neighbours` stores has the id of the row it read. -/
theorem update_neighbours_row_id (neighbours : List Nat) (l : List Nat) :
    ∀ me : node, (l.foldl
      (fun (me : node) i =>
        { me with edges := me.edges.set i (neighbours.getD i 0),
                  edge_costs := me.edge_costs.set i 1 }) me).id = me.id := by
  induction l with
  | nil => intro me; rfl
  | cons a l ih => intro me; rw [List.foldl_cons, ih]

/-- The rows stay well formed when `update_neighbours` stores the row of this node. -/
theorem graph_ok_update_neighbours (r : link_state (List calc_node)) (connectivity : nrf)
    (hok : graph_ok (r.ls_calc.map (fun n => n.row))) :
    graph_ok ((link_state.update_neighbours dijkstra r connectivity).1.ls_calc.map
      (fun n => n.row)) := by
  have hids : (link_state.update_neighbours dijkstra r connectivity).1.ls_calc.map
      (fun n => n.row.id) = r.ls_calc.map (fun n => n.row.id) := by
    unfold link_state.update_neighbours
    show (List.set r.ls_calc 0 _).map _ = _
    cases hk : r.ls_calc with
    | nil => rfl
    | cons a t =>
      rw [List.set_cons_zero, List.map_cons, List.map_cons]
      congr 1
      exact update_neighbours_row_id _ _ _
  obtain ⟨h1, h2, h3⟩ := hok
  rw [List.map_map] at h2
  refine ⟨?_, ?_, ?_⟩
  · intro he
    have := congrArg List.length hids
    rw [List.length_map, List.length_map] at this
    rw [List.map_eq_nil_iff] at he
    rw [he] at this
    exact h1 (by rw [List.map_eq_nil_iff]; exact List.length_eq_zero.mp this.symm)
  · rw [List.map_map]
    exact hids ▸ h2
  · intro n hn
    obtain ⟨m, hm, e⟩ := List.mem_map.mp hn
    have : m.row.id ∈ r.ls_calc.map (fun n => n.row.id) := by
      rw [← hids]
      exact List.mem_map_of_mem (fun n => n.row.id) hm
    obtain ⟨m0, hm0, e0⟩ := List.mem_map.mp this
    rw [← e, ← e0]
    exact h3 m0.row (List.mem_map_of_mem (fun n => n.row) hm0)

/-- The graph of a router constructed on a node with an id other than 0 is well formed. -/
theorem graph_ok_init (connectivity : nrf) (h : connectivity.id ≠ 0) :
    graph_ok ((link_state.init dijkstra connectivity).1.ls_calc.map (fun n => n.row)) := by
  refine graph_ok_update_neighbours _ connectivity ⟨?_, ?_, ?_⟩
  · exact List.cons_ne_nil _ _
  · exact List.nodup_singleton _
  · intro n hn
    rw [List.mem_singleton.mp hn]
    exact h

/-- The rows stay well formed when an entry with an id other than 0 replaces the entry
with its id or is appended. -/
theorem graph_ok_insert (k : List calc_node) (e : calc_node) (h : e.row.id ≠ 0)
    (hok : graph_ok (k.map (fun n => n.row))) :
    graph_ok ((if k.any (fun n => n.row.id == e.row.id) then
        k.map (fun n => if n.row.id = e.row.id then e else n)
      else if k.length < 10 then k ++ [e] else k).map (fun n => n.row)) := by
  obtain ⟨h1, h2, h3⟩ := hok
  rw [List.map_map] at h2
  have hk : k ≠ [] := fun e => h1 (by rw [e]; rfl)
  by_cases hany : k.any (fun n => n.row.id == e.row.id) = true
  · rw [if_pos hany]
    have hids : (k.map (fun n => if n.row.id = e.row.id then e else n)).map
        ((fun (n : node) => n.id) ∘ (fun (n : calc_node) => n.row)) =
          k.map ((fun (n : node) => n.id) ∘ (fun (n : calc_node) => n.row)) := by
      rw [List.map_map]
      refine List.map_congr_left ?_
      intro n _
      show (if n.row.id = e.row.id then e else n).row.id = n.row.id
      split
      · rename_i hn; rw [hn]
      · rfl
    refine ⟨?_, ?_, ?_⟩
    · intro he
      rw [List.map_eq_nil_iff, List.map_eq_nil_iff] at he
      exact hk he
    · rw [List.map_map, hids]
      exact h2
    · intro n hn
      obtain ⟨m, hm, e1⟩ := List.mem_map.mp hn
      obtain ⟨m0, hm0, e0⟩ := List.mem_map.mp hm
      rw [← e1, ← e0]
      split
      · exact h
      · exact h3 m0.row (List.mem_map_of_mem (fun n => n.row) hm0)
  · rw [if_neg hany]
    by_cases hlen : k.length < 10
    · rw [if_pos hlen]
      refine ⟨?_, ?_, ?_⟩
      · intro he
        rw [List.map_eq_nil_iff] at he
        exact List.append_ne_nil_of_right_ne_nil _ (List.cons_ne_nil _ _) he
      · rw [List.map_map, List.map_append]
        refine List.Nodup.append h2 (List.nodup_singleton _) ?_
        intro x hx hx2
        rw [List.map_singleton, List.mem_singleton] at hx2
        obtain ⟨m, hm, e1⟩ := List.mem_map.mp hx
        apply hany
        rw [List.any_eq_true]
        refine ⟨m, hm, ?_⟩
        have : m.row.id = e.row.id := e1.trans hx2
        simpa using this
      · intro n hn
        rw [List.map_append, List.mem_append] at hn
        rcases hn with hn | hn
        · exact h3 n hn
        · rw [List.map_singleton, List.mem_singleton] at hn
          rw [hn]
          exact h
    · rw [if_neg hlen]
      exact ⟨h1, by rw [List.map_map]; exact h2, h3⟩

/-- The rows stay well formed when `graph_update_other` stores the row of a node with an
id other than 0. -/
theorem graph_ok_graph_update_other (r : link_state (List calc_node)) (other : Nat)
    (message : message) (h : other ≠ 0)
    (hok : graph_ok (r.ls_calc.map (fun n => n.row))) :
    graph_ok ((link_state.graph_update_other dijkstra r other message).ls_calc.map
      (fun n => n.row)) :=
  graph_ok_insert r.ls_calc
    { row := { id := other, edges := (link_state.graph_update_other_loop message).1,
               edge_costs := (link_state.graph_update_other_loop message).2,
               edge_count := ((link_state.graph_update_other_loop message).1.takeWhile
                 (fun e => e != 0)).length },
      distance := none, previous := none, settled := false } h hok

/-- The loop of `fill_update_message` over the first `n` edges: the length of `data` is
kept, the entries `2i` and `2i + 1` for `i < n` hold edge `i` and its cost, and the entries
from `2n` on are as before. -/
theorem fill_loop_spec (edges costs : List Nat) (n : Nat) (d : List Nat) :
    ((List.range n).foldl
      (fun d i => (d.set (i * 2) (edges.getD i 0)).set (i * 2 + 1) (costs.getD i 0)) d).length =
      d.length ∧
    (∀ i, i < n → i * 2 + 1 < d.length →
      ((List.range n).foldl
        (fun d i => (d.set (i * 2) (edges.getD i 0)).set (i * 2 + 1) (costs.getD i 0))
          d).getD (i * 2) 0 = edges.getD i 0 ∧
      ((List.range n).foldl
        (fun d i => (d.set (i * 2) (edges.getD i 0)).set (i * 2 + 1) (costs.getD i 0))
          d).getD (i * 2 + 1) 0 = costs.getD i 0) ∧
    (∀ j, n * 2 ≤ j →
      ((List.range n).foldl
        (fun d i => (d.set (i * 2) (edges.getD i 0)).set (i * 2 + 1) (costs.getD i 0))
          d).getD j 0 = d.getD j 0) := by
  induction n with
  | zero =>
    refine ⟨rfl, fun i hi => absurd hi (Nat.not_lt_zero _), fun j _ => rfl⟩
  | succ n ih =>
    obtain ⟨i1, i2, i3⟩ := ih
    rw [List.range_succ, List.foldl_append]
    simp only [List.foldl_cons, List.foldl_nil]
    generalize (List.range n).foldl
      (fun d i => (d.set (i * 2) (edges.getD i 0)).set (i * 2 + 1) (costs.getD i 0)) d = e
      at i1 i2 i3
    refine ⟨by simp [i1], ?_, ?_⟩
    · intro i hi hl
      simp only [List.getD_eq_getElem?_getD]
      by_cases hin : i = n
      · subst hin
        rw [List.getElem?_set_ne (by omega), List.getElem?_set_self (by omega),
          List.getElem?_set_self (by simp; omega)]
        exact ⟨rfl, rfl⟩
      · rw [List.getElem?_set_ne (by omega), List.getElem?_set_ne (by omega),
          List.getElem?_set_ne (by omega), List.getElem?_set_ne (by omega)]
        have := i2 i (by omega) hl
        simp only [List.getD_eq_getElem?_getD] at this
        exact this
    · intro j hj
      simp only [List.getD_eq_getElem?_getD]
      rw [List.getElem?_set_ne (by omega), List.getElem?_set_ne (by omega)]
      have := i3 j (by omega)
      simp only [List.getD_eq_getElem?_getD] at this
      exact this

/-- The loop of `graph_update_other` for `n` rounds on arrays of five elements: entry `i`
of either array holds what round `i` stored there, for `i < n` and `i < 5`; the other
entries are as before. -/
theorem update_loop_spec (data : List Nat) (n : Nat) (row : List Nat × List Nat)
    (h1 : row.1.length = 5) (h2 : row.2.length = 5) :
    ((List.range n).foldl
      (fun (row : List Nat × List Nat) i =>
        (row.1.set i (data.getD (i * 2) 0), row.2.set i (data.getD (i * 2 + 1) 0)))
      row).1.length = 5 ∧
    ((List.range n).foldl
      (fun (row : List Nat × List Nat) i =>
        (row.1.set i (data.getD (i * 2) 0), row.2.set i (data.getD (i * 2 + 1) 0)))
      row).2.length = 5 ∧
    ∀ i, i < 5 →
      ((List.range n).foldl
        (fun (row : List Nat × List Nat) i =>
          (row.1.set i (data.getD (i * 2) 0), row.2.set i (data.getD (i * 2 + 1) 0)))
        row).1.getD i 0 = (if i < n then data.getD (i * 2) 0 else row.1.getD i 0) ∧
      ((List.range n).foldl
        (fun (row : List Nat × List Nat) i =>
          (row.1.set i (data.getD (i * 2) 0), row.2.set i (data.getD (i * 2 + 1) 0)))
        row).2.getD i 0 = (if i < n then data.getD (i * 2 + 1) 0 else row.2.getD i 0) := by
  induction n with
  | zero => exact ⟨h1, h2, fun i _ => ⟨rfl, rfl⟩⟩
  | succ n ih =>
    obtain ⟨i1, i2, i3⟩ := ih
    rw [List.range_succ, List.foldl_append]
    simp only [List.foldl_cons, List.foldl_nil]
    generalize (List.range n).foldl
      (fun (row : List Nat × List Nat) i =>
        (row.1.set i (data.getD (i * 2) 0), row.2.set i (data.getD (i * 2 + 1) 0))) row = e
      at i1 i2 i3
    refine ⟨by simp [i1], by simp [i2], ?_⟩
    intro i hi
    obtain ⟨j1, j2⟩ := i3 i hi
    simp only [List.getD_eq_getElem?_getD] at j1 j2 ⊢
    by_cases hin : i = n
    · subst hin
      rw [List.getElem?_set_self (by omega), List.getElem?_set_self (by omega),
        if_pos (Nat.lt_succ_self _), if_pos (Nat.lt_succ_self _)]
      exact ⟨rfl, rfl⟩
    · rw [List.getElem?_set_ne (Ne.symm hin), List.getElem?_set_ne (Ne.symm hin), j1, j2]
      by_cases hlt : i < n
      · rw [if_pos hlt, if_pos hlt, if_pos (by omega), if_pos (by omega)]
        exact ⟨rfl, rfl⟩
      · rw [if_neg hlt, if_neg hlt, if_neg (by omega), if_neg (by omega)]
        exact ⟨rfl, rfl⟩

/-- C35. For every calculator whose row 0 has `edge_count ≤ 5` and every message (arrays
of the declared sizes): the message filled by `fill_update_message` has
`dataSize = 2 * edge_count`, `data[2i] = edges[i]` and `data[2i + 1] = edge_costs[i]` for
`i < edge_count`; and `graph_update_other` applied to that message hands `insert_replace`
a row of five edges and five costs whose entries `i < edge_count` are those of row 0 and
whose other entries are 0. -/
theorem routing_payload_round_trip {κ : Type} (C : calculator κ) (r r2 : link_state κ)
    (msg : message) (other : Nat)
    (hd : msg.data.length = 25) (hc : (C.get_node r.ls_calc 0).edge_count ≤ 5) :
    (r.fill_update_message C msg).1.dataSize = 2 * (C.get_node r.ls_calc 0).edge_count ∧
    (∀ i, i < (C.get_node r.ls_calc 0).edge_count →
      (r.fill_update_message C msg).1.data.getD (2 * i) 0 =
        (C.get_node r.ls_calc 0).edges.getD i 0 ∧
      (r.fill_update_message C msg).1.data.getD (2 * i + 1) 0 =
        (C.get_node r.ls_calc 0).edge_costs.getD i 0) ∧
    r2.graph_update_other C other (r.fill_update_message C msg).1 =
      { is_updated := false,
        ls_calc := C.insert_replace r2.ls_calc other
          (link_state.graph_update_other_loop (r.fill_update_message C msg).1).1
          (link_state.graph_update_other_loop (r.fill_update_message C msg).1).2 } ∧
    (link_state.graph_update_other_loop (r.fill_update_message C msg).1).1.length = 5 ∧
    (link_state.graph_update_other_loop (r.fill_update_message C msg).1).2.length = 5 ∧
    (∀ i, i < 5 →
      (link_state.graph_update_other_loop (r.fill_update_message C msg).1).1.getD i 0 =
        (if i < (C.get_node r.ls_calc 0).edge_count
          then (C.get_node r.ls_calc 0).edges.getD i 0 else 0) ∧
      (link_state.graph_update_other_loop (r.fill_update_message C msg).1).2.getD i 0 =
        (if i < (C.get_node r.ls_calc 0).edge_count
          then (C.get_node r.ls_calc 0).edge_costs.getD i 0 else 0)) := by
  generalize hme : C.get_node r.ls_calc 0 = me at hc
  have hsize : (r.fill_update_message C msg).1.dataSize = 2 * me.edge_count := by
    show (C.get_node r.ls_calc 0).edge_count * 2 % 256 = _
    rw [hme, Nat.mod_eq_of_lt (by omega)]
    omega
  have hdata : (r.fill_update_message C msg).1.data =
      (List.range me.edge_count).foldl
        (fun d i => (d.set (i * 2) (me.edges.getD i 0)).set (i * 2 + 1)
          (me.edge_costs.getD i 0)) msg.data := by
    show (List.range (C.get_node r.ls_calc 0).edge_count).foldl _ msg.data = _
    rw [hme]
  obtain ⟨f1, f2, _⟩ := fill_loop_spec me.edges me.edge_costs me.edge_count msg.data
  have hfill : ∀ i, i < me.edge_count →
      (r.fill_update_message C msg).1.data.getD (2 * i) 0 = me.edges.getD i 0 ∧
      (r.fill_update_message C msg).1.data.getD (2 * i + 1) 0 = me.edge_costs.getD i 0 := by
    intro i hi
    rw [hdata]
    have := f2 i hi (by omega)
    rw [Nat.mul_comm i 2] at this
    exact this
  obtain ⟨u1, u2, u3⟩ := update_loop_spec (r.fill_update_message C msg).1.data
    ((r.fill_update_message C msg).1.dataSize / 2) (List.replicate 5 0, List.replicate 5 0)
    (List.length_replicate _ _) (List.length_replicate _ _)
  have hhalf : (r.fill_update_message C msg).1.dataSize / 2 = me.edge_count := by
    rw [hsize]
    omega
  refine ⟨hsize, hfill, rfl, u1, u2, ?_⟩
  intro i hi
  have v1 : (link_state.graph_update_other_loop (r.fill_update_message C msg).1).1.getD i 0 =
      (if i < (r.fill_update_message C msg).1.dataSize / 2
        then (r.fill_update_message C msg).1.data.getD (i * 2) 0
        else (List.replicate 5 0).getD i 0) := (u3 i hi).1
  have v2 : (link_state.graph_update_other_loop (r.fill_update_message C msg).1).2.getD i 0 =
      (if i < (r.fill_update_message C msg).1.dataSize / 2
        then (r.fill_update_message C msg).1.data.getD (i * 2 + 1) 0
        else (List.replicate 5 0).getD i 0) := (u3 i hi).2
  rw [hhalf] at v1 v2
  have z : (List.replicate 5 0).getD i 0 = 0 := by
    interval_cases i <;> rfl
  constructor
  · refine v1.trans ?_
    by_cases hlt : i < me.edge_count
    · rw [if_pos hlt, if_pos hlt]
      have := (hfill i hlt).1
      rw [Nat.mul_comm] at this
      exact this
    · rw [if_neg hlt, if_neg hlt]
      exact z
  · refine v2.trans ?_
    by_cases hlt : i < me.edge_count
    · rw [if_pos hlt, if_pos hlt]
      have := (hfill i hlt).2
      rw [Nat.mul_comm] at this
      exact this
    · rw [if_neg hlt, if_neg hlt]
      exact z

theorem routing_payload_round_trip_witness :
    (sample_link_state.fill_update_message sample_calculator
      (message.mk5 LINK_STATE_ROUTING.UPDATE 0 0x10 0 0)).1.dataSize =
      2 * (sample_calculator.get_node sample_link_state.ls_calc 0).edge_count ∧
    link_state.graph_update_other_loop (sample_link_state.fill_update_message sample_calculator
      (message.mk5 LINK_STATE_ROUTING.UPDATE 0 0x10 0 0)).1 =
      ([0x20, 0x30, 0, 0, 0], [1, 1, 0, 0, 0]) :=
  ⟨(routing_payload_round_trip sample_calculator sample_link_state sample_link_state
      (message.mk5 LINK_STATE_ROUTING.UPDATE 0 0x10 0 0) 0x10 (by decide) (by decide)).1,
    by decide⟩

/-- C36. The loop of `graph_update_other` stores `edges[i]` and `costs[i]` for every
`i < dataSize / 2`, so all its stores lie at the indices 0 to 4 exactly when
`dataSize ≤ 11`.  The UPDATE of node 0x20 with `dataSize = 12` (at most 25) that
`on_routing_message` passes to `graph_update_other` as it is makes the loop store at the
indices 0 to 5: index 5 is outside the arrays of five elements. -/
theorem graph_update_other_index_outside :
    (∀ msg : message,
      (∀ i ∈ link_state.graph_update_other_indices msg, i < 5) ↔ msg.dataSize ≤ 11) ∧
    sample_long_update.dataSize ≤ 25 ∧
    (message.empty.parse 19 (sample_long_update.to_byte_array (List.replicate 19 0))).2 =
      sample_long_update ∧
    link_state.graph_update_other_indices sample_long_update = [0, 1, 2, 3, 4, 5] ∧
    (∀ (r : link_state (List node)) (c : nrf),
      ((link_state.router sample_calculator).on_routing_message r c sample_long_update).2.1 =
        r.graph_update_other sample_calculator sample_long_update.sender
          sample_long_update) := by
  refine ⟨?_, by decide, by decide, by decide, fun _ _ => rfl⟩
  intro msg
  unfold link_state.graph_update_other_indices
  constructor
  · intro h
    by_contra hn
    have := h 5 (List.mem_range.mpr (by omega))
    omega
  · intro h i hi
    have := List.mem_range.mp hi
    omega

/-! ## The first PRESENT on a fresh node (C34) -/

/-- C34 (counterexample). The freshly constructed adapter of node 0x20 receives the PRESENT
of the freshly constructed node 0x10 (listen discriminator 0x12):
`discovery_present_received` leaves pipe 1 as the WAITING listen pipe of node 0x20 and
takes pipe 2 for node 0x10. -/
theorem discovery_present_received_takes_pipe_two :
    (nrf.init 0x20 sample_radio).getFirstFreePipe = 2 ∧
    (((nrf.init 0x20 sample_radio).discovery_present_received sample_present_10).2.connections.map
      (fun p => (p.connection_state, p.connected_node, p.nrf_address.getD 4 0))).take 3 =
      [(mesh_connection_state.ACCEPTED, 0, 0x70),
       (mesh_connection_state.WAITING, 0x20, 0x22),
       (mesh_connection_state.RESPONDED, 0x10, 0x12)] := by
  decide

/-- C34 (amended). Two freshly constructed nodes with distinct non-zero ids `a` and `b`,
on radios that acknowledge their first transmission.  The PRESENT that `discover()` on `a`
broadcasts carries `connectionData[0] = (a + 2) mod 256`.  On `b`,
`discovery_present_received` of a PRESENT takes pipe 2, the lowest DISCONNECTED pipe (pipe
1 is the listen pipe of `b` itself), and when `b` handles the PRESENT of `a` pipe 2 becomes
RESPONDED for `a` with that discriminator and the RESPOND that `b` sends to `a` carries
`connectionData[0] = (a + 2) mod 256`. -/
theorem first_present_takes_pipe_two (a b : Nat) (radio_a radio_b : nrf24l01plus)
    (rest_a rest_b : List Bool) (ha : a ≠ 0) (hab : a ≠ b)
    (hra : radio_a.tx_results = true :: rest_a)
    (hrb : radio_b.tx_results = true :: rest_b) :
    (mesh_network.init (nrf.init a radio_a) ()).discover.connection.last_frame =
      { message.mk5 DISCOVERY.PRESENT 0 a 0 0 with connectionData := [(a + 2) % 256, 0] } ∧
    (∀ origin : message,
      (nrf.init b radio_b).getFirstFreePipe = 2 ∧
      ((nrf.init b radio_b).discovery_present_received origin).1 = true ∧
      ((nrf.init b radio_b).discovery_present_received origin).2.connections =
        (nrf.init b radio_b).connections.set 2
          { connection_state := mesh_connection_state.RESPONDED, pipe_number := 2,
            connected_node := origin.sender,
            nrf_address := [0x72, 0x72, 0x72, 0x72, origin.connectionData.getD 0 0] }) ∧
    ((mesh_network.init (nrf.init b radio_b) ()).handleMessage router.base
      (mesh_network.init (nrf.init a radio_a) ()).discover.connection.last_frame
        ).2.2.connection.connections =
      [{ connection_state := mesh_connection_state.ACCEPTED, pipe_number := 0,
         connected_node := 0, nrf_address := discovery_address },
       { connection_state := mesh_connection_state.WAITING, pipe_number := 1,
         connected_node := b, nrf_address := [0x72, 0x72, 0x72, 0x72, (b + 2) % 256] },
       { connection_state := mesh_connection_state.RESPONDED, pipe_number := 2,
         connected_node := a, nrf_address := [0x72, 0x72, 0x72, 0x72, (a + 2) % 256] },
       nrf_pipe.init 3, nrf_pipe.init 4, nrf_pipe.init 5] ∧
    ((mesh_network.init (nrf.init b radio_b) ()).handleMessage router.base
      (mesh_network.init (nrf.init a radio_a) ()).discover.connection.last_frame
        ).2.2.connection.last_frame =
      { message.mk5 DISCOVERY.RESPOND 0 b a 0 with connectionData := [(a + 2) % 256, 0] } := by
  have a1 := present_send (nrf.init a radio_a) a rest_a
    [0x72, 0x72, 0x72, 0x72, (a + 2) % 256] _ _ _ _ (init_connections a radio_a) rfl rfl ha hra
  have a15 : (mesh_network.init (nrf.init a radio_a) ()).discover.connection.last_frame =
      { message.mk5 DISCOVERY.PRESENT 0 a 0 0 with connectionData := [(a + 2) % 256, 0] } :=
    a1.2.2.2.2
  obtain ⟨b11, b12, b13⟩ := present_handled (mesh_network.init (nrf.init b radio_b) ()) a b
    ((a + 2) % 256) rest_b [0x72, 0x72, 0x72, 0x72, (b + 2) % 256] rfl
    (init_connections b radio_b) rfl rfl ha hab hrb
  refine ⟨a15, ?_, ?_, ?_⟩
  · intro origin
    obtain ⟨p1, p2, _, _⟩ := present_received_fresh (nrf.init b radio_b) origin
      { connection_state := mesh_connection_state.WAITING, pipe_number := 1,
        connected_node := b, nrf_address := [0x72, 0x72, 0x72, 0x72, (b + 2) % 256] }
      (fun h => mesh_connection_state.noConfusion h) (init_connections b radio_b)
    refine ⟨?_, p1, ?_⟩
    · rw [getFirstFreePipe_six _ _ _ _ _ _ _ (init_connections b radio_b)]
      rfl
    · rw [p2, init_connections b radio_b]
      rfl
  · rw [a15]
    exact b12
  · rw [a15]
    exact b13

theorem first_present_takes_pipe_two_witness :
    (fresh_network 0x10).discover.connection.last_frame =
      { message.mk5 DISCOVERY.PRESENT 0 0x10 0 0 with
        connectionData := [(0x10 + 2) % 256, 0] } ∧
    ((fresh_network 0x20).handleMessage router.base
      (fresh_network 0x10).discover.connection.last_frame).2.2.connection.last_frame =
      { message.mk5 DISCOVERY.RESPOND 0 0x20 0x10 0 with
        connectionData := [(0x10 + 2) % 256, 0] } :=
  ⟨(first_present_takes_pipe_two 0x10 0x20 sample_reliable_radio sample_reliable_radio
      (List.replicate 7 true) (List.replicate 7 true) (by decide) (by decide) rfl rfl).1,
    (first_present_takes_pipe_two 0x10 0x20 sample_reliable_radio sample_reliable_radio
      (List.replicate 7 true) (List.replicate 7 true) (by decide) (by decide) rfl
      rfl).2.2.2⟩

/-! ## Array bounds (C37, C38, C39) -/

/-- C37. The history is full (20 entries) and only its last entry belongs to node 1:
`forget_message_history_for(1)` tests the entries 0 to 19, finds the match at `i = 19`
and runs `previous_messages[19] = previous_messages[20]`, a read of element 20 of the
array of 20 elements.  The count ends at 19. -/
theorem forget_message_history_for_reads_outside :
    sample_full_history.previous_messages.length = 20 ∧
    sample_full_history.previous_messages_count = 20 ∧
    sample_full_history.previous_messages.getD 19 0 >>> 8 = 1 ∧
    connectivity_adapter.forget_accesses 1 sample_full_history.previous_messages_count 0
        sample_full_history =
      List.range 20 ++ [20, 19] ∧
    20 ∈ connectivity_adapter.forget_accesses 1 sample_full_history.previous_messages_count 0
        sample_full_history ∧
    (sample_full_history.forget_message_history_for 1).previous_messages_count = 19 := by
  decide

/-- C38. The adapter of node 0x10 after the PRESENTs of four nodes and the RESPOND of a
fifth is reachable; its pipes 1 to 5 are ACCEPTED or RESPONDED, none is WAITING and none
has the own id as connected node, so `getPipeByNodeId(id)` returns 6.  The PRESENT of
`discover()` passes the state check of `send` (pipe 0 is ACCEPTED) and is transmitted,
and `add_connection_data` reads `connections[6]` for it. -/
theorem add_connection_data_index_outside :
    nrf.reachable sample_full_node ∧
    sample_full_node.connections.map (fun p => p.connection_state) =
      [mesh_connection_state.ACCEPTED, mesh_connection_state.ACCEPTED,
       mesh_connection_state.RESPONDED, mesh_connection_state.RESPONDED,
       mesh_connection_state.RESPONDED, mesh_connection_state.RESPONDED] ∧
    sample_full_node.waiting_count = 0 ∧
    sample_full_node.getPipeByNodeId sample_full_node.id = 6 ∧
    sample_full_node.connection_state 0 = mesh_connection_state.ACCEPTED ∧
    (sample_full_node.send (message.mk5 DISCOVERY.PRESENT 0 sample_full_node.id 0 0) 0).1 =
      true ∧
    (sample_full_node.send (message.mk5 DISCOVERY.PRESENT 0 sample_full_node.id 0 0)
      0).2.2.nrf24.tx_log.length = sample_full_node.nrf24.tx_log.length + 1 ∧
    (sample_full_node.add_message_id
      (message.mk5 DISCOVERY.PRESENT 0 sample_full_node.id 0 0)).2.add_connection_data_index
        (sample_full_node.add_message_id
          (message.mk5 DISCOVERY.PRESENT 0 sample_full_node.id 0 0)).1 0 = some 6 := by
  refine ⟨?_, by decide, by decide, by decide, by decide, by decide, by decide, by decide⟩
  exact nrf.reachable.discovery_respond_received _ sample_respond_60
    (nrf.reachable.discovery_present_received _ sample_present_50
      (nrf.reachable.discovery_present_received _ sample_present_40
        (nrf.reachable.discovery_present_received _ sample_present_30
          (nrf.reachable.discovery_present_received _ sample_present_20
            (nrf.reachable.construct 0x10 sample_radio (by decide))))))

/-- C39. The radio of the freshly constructed node 0x10 holds 11 new application frames
addressed to the node: one call of `check_new_messages` returns the count 11, and its
eleventh store is `uncaught[10]`, outside the array of 10 elements (the embedding keeps
the ten frames stored before). -/
theorem check_new_messages_count_exceeds_array :
    (sample_crowded_network 11).connection.nrf24.rx_fifo.length = 11 ∧
    (mesh_network.check_new_messages router.base 20 (sample_crowded_network 11)
        (List.replicate 10 message.empty)).map
        (fun r => (r.1, r.2.1.length, r.2.1.map (fun m => m.message_id))) =
      some (11, 10, [1, 2, 3, 4, 5, 6, 7, 8, 9, 10]) ∧
    (mesh_network.check_new_messages router.base 20 (sample_crowded_network 10)
        (List.replicate 10 message.empty)).map (fun r => r.1) = some 10 := by
  decide

/-! ## Forwarding (C40) -/

/-- A `send` of a message of another node whose type is neither PRESENT nor RESPOND: the
message and the base-class members of the adapter are unchanged, and every transmission
carries the encoding of the message as passed in. -/
theorem send_foreign (s : nrf) (msg : message) (next_hop : Nat)
    (hs : msg.sender ≠ s.id) (hp : msg.type ≠ DISCOVERY.PRESENT)
    (hr : msg.type ≠ DISCOVERY.RESPOND) :
    (s.send msg next_hop).2.1 = msg ∧
    (s.send msg next_hop).2.2.toconnectivity_adapter = s.toconnectivity_adapter ∧
    (s.send msg next_hop).2.2.connections = s.connections ∧
    ∃ recs : List tx_record, recs.length ≤ 5 ∧
      (s.send msg next_hop).2.2.nrf24.tx_log = s.nrf24.tx_log ++ recs ∧
      ((s.send msg next_hop).1 = true → recs ≠ []) ∧
      ∀ rec ∈ recs,
        rec.data = msg.to_byte_array (List.replicate msg.size 0) ∧ rec.n = msg.size % 256 := by
  have eid : s.add_message_id msg = (msg, s) := by
    unfold nrf.add_message_id connectivity_adapter.add_message_id
    rw [if_neg (fun h => hs h.1)]
  have ecd : ∀ hop, s.add_connection_data msg hop = msg :=
    fun hop => add_connection_data_other s msg hop hr hp
  by_cases h1 : s.connection_state (if next_hop = 0 then msg.receiver else next_hop) =
      mesh_connection_state.DISCONNECTED
  · have e : s.send msg next_hop = (false, msg, s) := by
      unfold nrf.send
      simp only []
      rw [if_pos h1]
    rw [e]
    exact ⟨rfl, rfl, rfl, [], by simp, by simp, by simp, by simp⟩
  by_cases h2 : (msg.receiver ≠ 0 ∧
      s.connection_state (if next_hop = 0 then msg.receiver else next_hop) ≠
        mesh_connection_state.ACCEPTED ∧
      msg.type ≠ DISCOVERY.RESPOND ∧ msg.type ≠ DISCOVERY.ACCEPT ∧
      msg.type ≠ DISCOVERY.DENY)
  · have e : s.send msg next_hop = (false, msg, s) := by
      unfold nrf.send
      simp only []
      rw [if_neg h1, if_pos h2]
    rw [e]
    exact ⟨rfl, rfl, rfl, [], by simp, by simp, by simp, by simp⟩
  have hpass := send_pass s msg next_hop h1 h2
  rw [eid] at hpass
  simp only [ecd] at hpass
  obtain ⟨hk, _⟩ := connection_state_found s _ h1
  obtain ⟨l1, l2, recs, l3, l4, l5, l6⟩ := send_loop_spec 5 s
    (if next_hop = 0 then msg.receiver else next_hop)
    (msg.to_byte_array (List.replicate msg.size 0)) msg.size hk
  rw [hpass]
  refine ⟨rfl, l2, l1, recs, l5, l3, fun _ => l6 (by decide), ?_⟩
  intro rec hrec
  exact ⟨(l4 rec hrec).1, (l4 rec hrec).2.1⟩

/-- The frame of `send_foreign` spelled out, for a message with `dataSize ≤ 25` and arrays
of the declared sizes. -/
theorem send_foreign_bytes (s : nrf) (msg : message) (next_hop : Nat)
    (hs : msg.sender ≠ s.id) (hp : msg.type ≠ DISCOVERY.PRESENT)
    (hr : msg.type ≠ DISCOVERY.RESPOND) (hd : msg.dataSize ≤ 25) (ha : msg.arrays_ok) :
    (s.send msg next_hop).2.1 = msg ∧
    (s.send msg next_hop).2.2.current_message_id = s.current_message_id ∧
    (s.send msg next_hop).2.2.toconnectivity_adapter = s.toconnectivity_adapter ∧
    ∃ recs : List tx_record, recs.length ≤ 5 ∧
      (s.send msg next_hop).2.2.nrf24.tx_log = s.nrf24.tx_log ++ recs ∧
      ((s.send msg next_hop).1 = true → recs ≠ []) ∧
      ∀ rec ∈ recs,
        rec.data = msg.to_byte_array (List.replicate msg.size 0) ∧
        rec.data = [msg.type, msg.message_id, msg.sender, msg.receiver, msg.dataSize] ++
          msg.data.take msg.dataSize ++ msg.connectionData ∧
        rec.n = msg.dataSize + 7 := by
  obtain ⟨f1, f2, _, recs, f4, f5, f6, f7⟩ := send_foreign s msg next_hop hs hp hr
  refine ⟨f1, congrArg connectivity_adapter.current_message_id f2, f2, recs, f4, f5, f6, ?_⟩
  intro rec hrec
  obtain ⟨d1, d2⟩ := f7 rec hrec
  have hlay := to_byte_array_layout msg (List.replicate msg.size 0)
    (by rw [ha.1]; exact hd) ha.2 (by simp)
  refine ⟨d1, ?_, ?_⟩
  · rw [d1, hlay]
    simp
  · rw [d2]
    show (msg.dataSize + 7) % 256 = _
    omega

/-- C40. A new transit message (receiver neither 0 nor this node, sender not this node)
whose type is neither PRESENT nor RESPOND, with `dataSize ≤ 25` and arrays of the declared
sizes, handled by a round of `check_new_messages` with a router whose `get_next_hop` keeps
the id of the adapter: the `send` of the round returns the message as it was received,
every transmission carries `to_byte_array` of the received message, that is the bytes
type, message id, sender, receiver, `dataSize`, the payload and `connectionData`, with the
byte count `dataSize + 7`; the message-id counter and the duplicate history are those
before the `send`; and when the `send` returns true at least one transmission was made. -/
theorem transit_frame_preserved {ρ : Type} (R : router ρ) (st : mesh_network ρ)
    (uncaught : List message) (index : Nat) (msg : message)
    (hnew : (st.connection.is_new_message msg).1 = true)
    (h1 : msg.receiver ≠ st.connection.id) (h0 : msg.receiver ≠ 0)
    (hs : msg.sender ≠ st.connection.id)
    (hp : msg.type ≠ DISCOVERY.PRESENT) (hr : msg.type ≠ DISCOVERY.RESPOND)
    (hd : msg.dataSize ≤ 25) (ha : msg.arrays_ok)
    (hid : (R.get_next_hop st.network_router (st.connection.is_new_message msg).2
      msg.receiver).2.2.id = st.connection.id) :
    let c := (st.connection.is_new_message msg).2
    let g := if c.connection_state msg.receiver = mesh_connection_state.ACCEPTED
      then (0, st.network_router, c) else R.get_next_hop st.network_router c msg.receiver
    let t := g.2.2.send msg g.1
    mesh_network.check_new_messages_body R st uncaught index msg =
      (if t.1 then { st with network_router := g.2.1, connection := t.2.2 }
        else { st with network_router := (R.update_neighbours g.2.1 t.2.2).1,
                       connection := (R.update_neighbours g.2.1 t.2.2).2 },
        uncaught, index) ∧
    t.2.1 = msg ∧
    t.2.2.current_message_id = g.2.2.current_message_id ∧
    t.2.2.toconnectivity_adapter = g.2.2.toconnectivity_adapter ∧
    ∃ recs : List tx_record, recs.length ≤ 5 ∧
      t.2.2.nrf24.tx_log = g.2.2.nrf24.tx_log ++ recs ∧
      (t.1 = true → recs ≠ []) ∧
      ∀ rec ∈ recs,
        rec.data = msg.to_byte_array (List.replicate msg.size 0) ∧
        rec.data = [msg.type, msg.message_id, msg.sender, msg.receiver, msg.dataSize] ++
          msg.data.take msg.dataSize ++ msg.connectionData ∧
        rec.n = msg.dataSize + 7 := by
  have hcid : (st.connection.is_new_message msg).2.id = st.connection.id :=
    is_new_message_id st.connection.toconnectivity_adapter msg
  have hgid : (if (st.connection.is_new_message msg).2.connection_state msg.receiver =
        mesh_connection_state.ACCEPTED
      then (0, st.network_router, (st.connection.is_new_message msg).2)
      else R.get_next_hop st.network_router (st.connection.is_new_message msg).2
        msg.receiver).2.2.id = st.connection.id := by
    split
    · exact hcid
    · exact hid
  exact ⟨check_new_messages_body_transit R st uncaught index msg hnew h1 h0,
    send_foreign_bytes _ msg _ (by rw [hgid]; exact hs) hp hr hd ha⟩

theorem transit_frame_preserved_witness :
    ((sample_linked_network.connection.is_new_message sample_transit).2.send
      sample_transit 0).2.1 = sample_transit ∧
    ((sample_linked_network.connection.is_new_message sample_transit).2.send
      sample_transit 0).2.2.nrf24.tx_log.map (fun rec => rec.data) =
      sample_linked_network.connection.nrf24.tx_log.map (fun rec => rec.data) ++
        [[0x20, 9, 0x30, 0x20, 0, 0, 0]] :=
  ⟨(transit_frame_preserved router.base sample_linked_network
      (List.replicate 10 message.empty) 0 sample_transit (by decide) (by decide) (by decide)
      (by decide) (by decide) (by decide) (by decide) (by decide) rfl).2.1,
    by decide⟩

end mesh
